import Mathlib

/-!
# ROCm device libraries: the hostcall service surface

Embedding of `ockl/src/services.h`: the service-identifier enumeration
`__ockl_hostcall_service_id` and the prototype of `__ockl_hostcall_preview`.
Declarations are embedded as data (types, names, parameter lists), so that
statements about the shape of the interface are statements about these values.
-/

namespace DeviceLibs

/-! ## OpenCL C types used by the headers -/

/-- Signedness of an OpenCL C integer type. -/
inductive Signedness where
  | signed
  | unsigned
  deriving DecidableEq, Repr

/-- Scalar element types: `bool`, the integer types (`uint` is `int unsigned 32`,
`long` is `int signed 64`, ...) and the floating types (`half` is `float 16`, ...). -/
inductive ScalarTy where
  | bool
  | int (sg : Signedness) (bits : Nat)
  | float (bits : Nat)
  deriving DecidableEq, Repr

/-- OpenCL C address-space qualifiers of a pointer. -/
inductive AddrSpace where
  | priv
  | global
  | loc
  | constant
  deriving DecidableEq, Repr

/-- Types that occur in a declaration: `void`, a scalar, a vector `sN` of `N` lanes,
a qualified pointer, or a named enumeration type. -/
inductive CType where
  | void
  | scalar (s : ScalarTy)
  | vec (s : ScalarTy) (lanes : Nat)
  | ptr (space : AddrSpace) (pointee : CType)
  | enumTy (name : String)
  deriving DecidableEq, Repr

/-- OpenCL C `uint`: unsigned 32-bit integer. -/
def uint : CType := .scalar (.int .unsigned 32)

/-- OpenCL C `ulong`: unsigned 64-bit integer. -/
def ulong : CType := .scalar (.int .unsigned 64)

/-- OpenCL C `long2`: vector of two `long`, each a signed 64-bit integer. -/
def long2 : CType := .vec (.int .signed 64) 2

/-- The scalar components of a value of the given type, in order. -/
def CType.components : CType → List ScalarTy
  | .scalar s => [s]
  | .vec s n => List.replicate n s
  | _ => []

/-- Whether the bit pattern `v` is a value of integer type `t`. -/
def CType.holds : CType → Nat → Bool
  | .scalar (.int _ b), v => decide (v < 2 ^ b)
  | _, _ => false

/-! ## Declarations -/

/-- One enumerator of a C `enum`: its identifier and its integer value. -/
structure Enumerator where
  name : String
  value : Nat
  deriving DecidableEq, Repr

/-- A `typedef enum { ... } name;` declaration. -/
structure EnumDecl where
  name : String
  members : List Enumerator
  deriving DecidableEq, Repr

/-- A parameter of a prototype: its type and, when written, its name. -/
structure Param where
  ty : CType
  name : Option String
  deriving DecidableEq, Repr

/-- An `extern` function prototype. -/
structure FunDecl where
  attrs : List String
  ret : CType
  name : String
  params : List Param
  asmLabel : Option String
  deriving DecidableEq, Repr

/-- The enumerator of `e` whose value is `v`, if any. -/
def EnumDecl.memberOfValue (e : EnumDecl) (v : Nat) : Option Enumerator :=
  e.members.find? (fun m => m.value == v)

/-- A call of `d` with the argument bit patterns `args` is well typed: one argument
per parameter, each a value of the parameter type. -/
def acceptsCall (d : FunDecl) (args : List Nat) : Bool :=
  args.length == d.params.length &&
    (List.zip d.params args).all (fun pv => pv.1.ty.holds pv.2)

/-! ## `services.h` -/

/-- `SERVICE_ID_DEFAULT = 0`. -/
def SERVICE_ID_DEFAULT : Nat := 0

/-- `SERVICE_ID_FUNCTION_CALL = 1`. -/
def SERVICE_ID_FUNCTION_CALL : Nat := 1

/-- `SERVICE_ID_PRINTF = 2`. -/
def SERVICE_ID_PRINTF : Nat := 2

/-- The `typedef enum { ... } __ockl_hostcall_service_id;` of `services.h`. -/
def __ockl_hostcall_service_id : EnumDecl :=
  { name := "__ockl_hostcall_service_id"
    members :=
      [ ⟨"SERVICE_ID_DEFAULT", SERVICE_ID_DEFAULT⟩,
        ⟨"SERVICE_ID_FUNCTION_CALL", SERVICE_ID_FUNCTION_CALL⟩,
        ⟨"SERVICE_ID_PRINTF", SERVICE_ID_PRINTF⟩ ] }

/-- The prototype
`extern long2 __ockl_hostcall_preview(uint service_id, ulong arg0, ..., ulong arg7);`. -/
def __ockl_hostcall_preview : FunDecl :=
  { attrs := []
    ret := long2
    name := "__ockl_hostcall_preview"
    params :=
      [ ⟨uint, some "service_id"⟩,
        ⟨ulong, some "arg0"⟩, ⟨ulong, some "arg1"⟩, ⟨ulong, some "arg2"⟩,
        ⟨ulong, some "arg3"⟩, ⟨ulong, some "arg4"⟩, ⟨ulong, some "arg5"⟩,
        ⟨ulong, some "arg6"⟩, ⟨ulong, some "arg7"⟩ ]
    asmLabel := none }

/-! ## The hostcall protocol

`services.h` only declares the call surface.  The slot table, the caller algorithm behind
`__ockl_hostcall_preview` and the host dispatcher are not part of the header; they are
modelled here from the protocol description (data model, caller contract, host contract,
slot table).  Callers and the dispatcher run concurrently: the system is a step function
over interleaved atomic actions.  The dispatcher marks a slot `Completed`; the caller
releases it after reading the reply.  A caller that finds the table `Busy` retries. -/

/-- Modelled from the spec: the state tag of a `CallSlot`, with the lifecycle
`Free → Reserved → Submitted → Completed → Free` (the slot table is not in the header). -/
inductive SlotState where
  | Free
  | Reserved
  | Submitted
  | Completed
  deriving DecidableEq, Repr

/-- Modelled from the spec: a `CallPacket`, the service identifier and the ordered
argument words written by a caller (the packet layout is not in the header). -/
structure CallPacket where
  service_id : Nat
  args : List Nat
  deriving DecidableEq, Repr

/-- Modelled from the spec: a valid packet is one the call surface accepts (caller
contract); acceptance is decided on the prototype of `__ockl_hostcall_preview`: a 32-bit
identifier and exactly eight 64-bit words. -/
def CallPacket.valid (p : CallPacket) : Bool :=
  acceptsCall __ockl_hostcall_preview (p.service_id :: p.args)

/-- Modelled from the spec: a `ReplyPacket`, a record of exactly two words (the reply
layout is not in the header). -/
structure ReplyPacket where
  word0 : Nat
  word1 : Nat
  deriving DecidableEq, Repr

/-- Modelled from the spec: a `CallSlot`, one in-flight (packet, reply) pair plus a state
tag (the slot table is not in the header). -/
structure CallSlot where
  state : SlotState
  packet : CallPacket
  reply : ReplyPacket
  deriving DecidableEq, Repr

/-- Modelled from the spec: the `SlotTable`, a fixed-capacity array of call slots; a slot
handle is an index into it. -/
abbrev SlotTable := List CallSlot

/-- Modelled from the spec: a host-side handler computes the 2-word reply from the
packet's argument words; a failing handler reports its error inside the reply. -/
abbrev Handler := List Nat → ReplyPacket

/-- Modelled from the spec: the service dispatcher's static routing from service
identifier to registered handler, and the agreed sentinel word of the error reply (the
dispatcher is a host-side component, not in the header). -/
structure Dispatcher where
  handlers : Nat → Option Handler
  sentinel : Nat

/-- Modelled from the spec: the distinguished error reply, both reply words set to the
agreed sentinel. -/
def Dispatcher.sentinelReply (d : Dispatcher) : ReplyPacket :=
  ⟨d.sentinel, d.sentinel⟩

/-- Modelled from the spec: routing of one packet (host contract): decode `service_id`,
look up the registered handler and invoke it with the packet's `args`; an unrecognized
identifier yields the sentinel reply. -/
def Dispatcher.replyFor (d : Dispatcher) (p : CallPacket) : ReplyPacket :=
  match d.handlers p.service_id with
  | some f => f p.args
  | none => d.sentinelReply

/-- Modelled from the spec: a write to the slot with handle `h` of the shared table (the
slot table is not in the header); a handle outside the table writes nothing. -/
def modifySlot (t : SlotTable) (h : Nat) (f : CallSlot → CallSlot) : SlotTable :=
  match t[h]? with
  | some sl => t.set h (f sl)
  | none => t

/-- Modelled from the spec: the scan of `acquire` for a `Free` slot; the first one found
is taken. -/
def findFree : SlotTable → Option Nat
  | [] => none
  | sl :: rest => if sl.state = .Free then some 0 else (findFree rest).map (· + 1)

/-- Modelled from the spec: `acquire() -> SlotHandle | Busy`: claim one `Free` slot
atomically, marking it `Reserved`; `none` is `Busy`. -/
def acquire (t : SlotTable) : Option (Nat × SlotTable) :=
  match findFree t with
  | some h => some (h, modifySlot t h (fun sl => { sl with state := .Reserved }))
  | none => none

/-- Modelled from the spec: caller step (2), write `service_id` and `args` into the
slot's packet region. -/
def writePacket (t : SlotTable) (h : Nat) (p : CallPacket) : SlotTable :=
  modifySlot t h (fun sl => { sl with packet := p })

/-- Modelled from the spec: caller steps (3)-(4), publish and mark the slot `Submitted`. -/
def markSubmitted (t : SlotTable) (h : Nat) : SlotTable :=
  modifySlot t h (fun sl => { sl with state := .Submitted })

/-- Modelled from the spec: `release(handle)` returns a slot to `Free`. -/
def release (t : SlotTable) (h : Nat) : SlotTable :=
  modifySlot t h (fun sl => { sl with state := .Free })

/-- Modelled from the spec: the dispatcher serving slot `h` (host contract): only a slot
observed in `Submitted` state is processed; the reply is written and the slot marked
`Completed` in one commit. -/
def Dispatcher.serve (d : Dispatcher) (t : SlotTable) (h : Nat) : SlotTable :=
  modifySlot t h (fun sl =>
    if sl.state = .Submitted then
      { sl with reply := d.replyFor sl.packet, state := .Completed }
    else sl)

/-- Modelled from the spec: the control point of one calling thread inside `call`
(caller contract, steps (1)-(7)), with the slot handle it holds, its request, and the reply
it has read. -/
inductive Caller where
  | idle
  | start (req : CallPacket)
  | reserved (h : Nat) (req : CallPacket)
  | written (h : Nat) (req : CallPacket)
  | waiting (h : Nat) (req : CallPacket)
  | consumed (h : Nat) (req : CallPacket) (r : ReplyPacket)
  | returned (req : CallPacket) (r : ReplyPacket)
  deriving DecidableEq, Repr

/-- Modelled from the spec: the slot handle a caller holds between `acquire` and
`release`, if any. -/
def Caller.slot? : Caller → Option Nat
  | .reserved h _ => some h
  | .written h _ => some h
  | .waiting h _ => some h
  | .consumed h _ _ => some h
  | _ => none

/-- Modelled from the spec: a thread that is not inside `call` (the call is synchronous,
so only such a thread may start one). -/
def Caller.canInvoke : Caller → Bool
  | .idle => true
  | .returned _ _ => true
  | _ => false

/-- Modelled from the spec: one atomic step of the caller algorithm of `call`.
(1) acquire a free slot, spinning while the table is `Busy`; (2) write the packet;
(3)-(4) publish and mark `Submitted`; (5)-(6) spin until the state tag is `Completed`, then
read the reply; (7) release the slot and return. -/
def callerStep (t : SlotTable) : Caller → SlotTable × Caller
  | .start req =>
    match acquire t with
    | some (h, t1) => (t1, .reserved h req)
    | none => (t, .start req)
  | .reserved h req => (writePacket t h req, .written h req)
  | .written h req => (markSubmitted t h, .waiting h req)
  | .waiting h req =>
    match t[h]? with
    | some sl => if sl.state = .Completed then (t, .consumed h req sl.reply)
                 else (t, .waiting h req)
    | none => (t, .waiting h req)
  | .consumed h req r => (release t h, .returned req r)
  | c => (t, c)

/-- Modelled from the spec: the shared slot table together with the calling threads. -/
structure System where
  table : SlotTable
  callers : List Caller
  deriving DecidableEq, Repr

/-- Modelled from the spec: the atomic actions of the system (concurrency model): thread
`i` enters `call` with a request, thread `i` takes its next step, or the dispatcher serves
slot `h`. -/
inductive Action where
  | invoke (i : Nat) (req : CallPacket)
  | caller (i : Nat)
  | dispatch (h : Nat)
  deriving DecidableEq, Repr

/-- Modelled from the spec: one atomic action of the system; only a valid packet enters
`call`, and an action that is not enabled changes nothing. -/
def step (d : Dispatcher) (s : System) : Action → System
  | .invoke i req =>
    match s.callers[i]? with
    | some c =>
      if c.canInvoke && req.valid then { s with callers := s.callers.set i (.start req) }
      else s
    | none => s
  | .caller i =>
    match s.callers[i]? with
    | some c =>
      { table := (callerStep s.table c).1
        callers := s.callers.set i (callerStep s.table c).2 }
    | none => s
  | .dispatch h => { s with table := d.serve s.table h }

/-- Modelled from the spec: an interleaved execution of callers and dispatcher; the
actions are taken from left to right. -/
def run (d : Dispatcher) (s : System) (as : List Action) : System :=
  as.foldl (step d) s

/-- Modelled from the spec: an initial system, every slot `Free` and no thread inside
`call`. -/
def System.initial (s : System) : Bool :=
  s.table.all (fun sl => sl.state == .Free) && s.callers.all (fun c => c == .idle)

/-- Modelled from the spec: the control flow of one complete `call` (system overview):
thread `i` enters with `req`, acquires, writes, submits, the dispatcher serves slot `h`
while the thread waits, then the thread reads the reply and releases. -/
def callSchedule (i : Nat) (req : CallPacket) (h : Nat) : List Action :=
  [.invoke i req, .caller i, .caller i, .caller i, .dispatch h, .caller i, .caller i]

/-- The legal transitions of a slot state tag. -/
def SlotState.next : SlotState → SlotState
  | .Free => .Reserved
  | .Reserved => .Submitted
  | .Submitted => .Completed
  | .Completed => .Free

/-- What the protocol guarantees about the slot of a caller at each control point. -/
def Caller.ok (d : Dispatcher) (t : SlotTable) : Caller → Prop
  | .idle => True
  | .start req => req.valid = true
  | .reserved h req => req.valid = true ∧ ∃ sl, t[h]? = some sl ∧ sl.state = .Reserved
  | .written h req =>
    req.valid = true ∧ ∃ sl, t[h]? = some sl ∧ sl.state = .Reserved ∧ sl.packet = req
  | .waiting h req =>
    req.valid = true ∧ ∃ sl, t[h]? = some sl ∧ sl.packet = req ∧
      (sl.state = .Submitted ∨ (sl.state = .Completed ∧ sl.reply = d.replyFor req))
  | .consumed h req r =>
    req.valid = true ∧ (∃ sl, t[h]? = some sl ∧ sl.state = .Completed) ∧ r = d.replyFor req
  | .returned req r => req.valid = true ∧ r = d.replyFor req

/-- The protocol invariant: every caller's slot is as its control point requires, and no
two callers hold the same slot. -/
def Inv (d : Dispatcher) (s : System) : Prop :=
  (∀ (i : Nat) (c : Caller), s.callers[i]? = some c → c.ok d s.table) ∧
  (∀ (i j : Nat) (ci cj : Caller) (h : Nat), s.callers[i]? = some ci → s.callers[j]? = some cj →
    ci.slot? = some h → cj.slot? = some h → i = j)

/-- Modelled from the spec: a slot table of capacity `cap`, all slots free, with `n`
calling threads, none of them inside `call`. -/
def emptySystem (cap n : Nat) : System :=
  { table := List.replicate cap ⟨.Free, ⟨0, []⟩, ⟨0, 0⟩⟩
    callers := List.replicate n .idle }

/-- Modelled from the spec: a dispatcher with fake handlers, as in the test harness of
the round-trip property, for the three declared services: `Default` replies
`(0, 0)`, `FunctionCall` replies with the sum of its two operands, `Printf` with the
number of words it was given; every other identifier is unregistered. -/
def fakeDispatcher : Dispatcher :=
  { handlers := fun v =>
      if v = SERVICE_ID_DEFAULT then some (fun _ => ⟨0, 0⟩)
      else if v = SERVICE_ID_FUNCTION_CALL then
        some (fun a => ⟨(a.getD 1 0 + a.getD 2 0) % 2 ^ 64, 0⟩)
      else if v = SERVICE_ID_PRINTF then some (fun a => ⟨a.length, 0⟩)
      else none
    sentinel := 0xFFFFFFFFFFFFFFFF }

/-! ## `irif.h`

Every `extern` declaration of `irif/inc/irif.h`, one entry per declaration in source
order: attributes, return type, C name, parameters, `__asm` label. -/

/-- OpenCL C `half`: 16-bit floating point. -/
def half : CType := .scalar (.float 16)

/-- OpenCL C `float`: 32-bit floating point. -/
def float : CType := .scalar (.float 32)

/-- OpenCL C `double`: 64-bit floating point. -/
def double : CType := .scalar (.float 64)

/-- OpenCL C `half2`: vector of two `half`. -/
def half2 : CType := .vec (.float 16) 2

/-- OpenCL C `half4`: vector of four `half`. -/
def half4 : CType := .vec (.float 16) 4

/-- OpenCL C `float4`: vector of four `float`. -/
def float4 : CType := .vec (.float 32) 4

/-- OpenCL C `bool`. -/
def bool : CType := .scalar .bool

/-- OpenCL C `uchar`: unsigned 8-bit integer. -/
def uchar : CType := .scalar (.int .unsigned 8)

/-- OpenCL C `ushort`: unsigned 16-bit integer. -/
def ushort : CType := .scalar (.int .unsigned 16)

/-- OpenCL C `short`: signed 16-bit integer. -/
def short : CType := .scalar (.int .signed 16)

/-- OpenCL C `int`: signed 32-bit integer. -/
def int : CType := .scalar (.int .signed 32)

/-- OpenCL C `long`: signed 64-bit integer. -/
def long : CType := .scalar (.int .signed 64)

/-- OpenCL C `uint4`: vector of four `uint`. -/
def uint4 : CType := .vec (.int .unsigned 32) 4

/-- OpenCL C `uint8`: vector of eight `uint`. -/
def uint8 : CType := .vec (.int .unsigned 32) 8

/-- The declarations of `irif.h` under `// Generic intrinsics` (lines 14-99), in source
order. -/
def genericIntrinsics : List FunDecl :=
  [ FunDecl.mk ["const"] half "__llvm_sqrt_f16" [⟨half, none⟩] (some "llvm.sqrt.f16"),
    FunDecl.mk ["const"] float "__llvm_sqrt_f32" [⟨float, none⟩] (some "llvm.sqrt.f32"),
    FunDecl.mk ["const"] double "__llvm_sqrt_f64" [⟨double, none⟩] (some "llvm.sqrt.f64"),
    FunDecl.mk ["const"] half "__llvm_sin_f16" [⟨half, none⟩] (some "llvm.sin.f16"),
    FunDecl.mk ["const"] float "__llvm_sin_f32" [⟨float, none⟩] (some "llvm.sin.f32"),
    FunDecl.mk ["const"] half "__llvm_cos_f16" [⟨half, none⟩] (some "llvm.cos.f16"),
    FunDecl.mk ["const"] float "__llvm_cos_f32" [⟨float, none⟩] (some "llvm.cos.f32"),
    FunDecl.mk ["const"] half "__llvm_exp2_f16" [⟨half, none⟩] (some "llvm.exp2.f16"),
    FunDecl.mk ["const"] float "__llvm_exp2_f32" [⟨float, none⟩] (some "llvm.exp2.f32"),
    FunDecl.mk ["const"] half "__llvm_log2_f16" [⟨half, none⟩] (some "llvm.log2.f16"),
    FunDecl.mk ["const"] float "__llvm_log2_f32" [⟨float, none⟩] (some "llvm.log2.f32"),
    FunDecl.mk ["const"] half "__llvm_fma_f16"
      [⟨half, none⟩, ⟨half, none⟩, ⟨half, none⟩]
      (some "llvm.fma.f16"),
    FunDecl.mk ["const"] half2 "__llvm_fma_2f16"
      [⟨half2, none⟩, ⟨half2, none⟩, ⟨half2, none⟩]
      (some "llvm.fma.v2f16"),
    FunDecl.mk ["const"] float "__llvm_fma_f32"
      [⟨float, none⟩, ⟨float, none⟩, ⟨float, none⟩]
      (some "llvm.fma.f32"),
    FunDecl.mk ["const"] double "__llvm_fma_f64"
      [⟨double, none⟩, ⟨double, none⟩, ⟨double, none⟩]
      (some "llvm.fma.f64"),
    FunDecl.mk ["const"] half "__llvm_fabs_f16" [⟨half, none⟩] (some "llvm.fabs.f16"),
    FunDecl.mk ["const"] half2 "__llvm_fabs_2f16" [⟨half2, none⟩] (some "llvm.fabs.v2f16"),
    FunDecl.mk ["const"] float "__llvm_fabs_f32" [⟨float, none⟩] (some "llvm.fabs.f32"),
    FunDecl.mk ["const"] double "__llvm_fabs_f64" [⟨double, none⟩] (some "llvm.fabs.f64"),
    FunDecl.mk ["const"] half "__llvm_minnum_f16"
      [⟨half, none⟩, ⟨half, none⟩]
      (some "llvm.minnum.f16"),
    FunDecl.mk ["const"] half2 "__llvm_minnum_2f16"
      [⟨half2, none⟩, ⟨half2, none⟩]
      (some "llvm.minnum.v2f16"),
    FunDecl.mk ["const"] float "__llvm_minnum_f32"
      [⟨float, none⟩, ⟨float, none⟩]
      (some "llvm.minnum.f32"),
    FunDecl.mk ["const"] double "__llvm_minnum_f64"
      [⟨double, none⟩, ⟨double, none⟩]
      (some "llvm.minnum.f64"),
    FunDecl.mk ["const"] half "__llvm_maxnum_f16"
      [⟨half, none⟩, ⟨half, none⟩]
      (some "llvm.maxnum.f16"),
    FunDecl.mk ["const"] half2 "__llvm_maxnum_2f16"
      [⟨half2, none⟩, ⟨half2, none⟩]
      (some "llvm.maxnum.v2f16"),
    FunDecl.mk ["const"] float "__llvm_maxnum_f32"
      [⟨float, none⟩, ⟨float, none⟩]
      (some "llvm.maxnum.f32"),
    FunDecl.mk ["const"] double "__llvm_maxnum_f64"
      [⟨double, none⟩, ⟨double, none⟩]
      (some "llvm.maxnum.f64"),
    FunDecl.mk ["const"] half "__llvm_copysign_f16"
      [⟨half, none⟩, ⟨half, none⟩]
      (some "llvm.copysign.f16"),
    FunDecl.mk ["const"] half2 "__llvm_copysign_2f16"
      [⟨half2, none⟩, ⟨half2, none⟩]
      (some "llvm.copysign.v2f16"),
    FunDecl.mk ["const"] float "__llvm_copysign_f32"
      [⟨float, none⟩, ⟨float, none⟩]
      (some "llvm.copysign.f32"),
    FunDecl.mk ["const"] double "__llvm_copysign_f64"
      [⟨double, none⟩, ⟨double, none⟩]
      (some "llvm.copysign.f64"),
    FunDecl.mk ["const"] half "__llvm_floor_f16" [⟨half, none⟩] (some "llvm.floor.f16"),
    FunDecl.mk ["const"] half2 "__llvm_floor_2f16" [⟨half2, none⟩] (some "llvm.floor.v2f16"),
    FunDecl.mk ["const"] float "__llvm_floor_f32" [⟨float, none⟩] (some "llvm.floor.f32"),
    FunDecl.mk ["const"] double "__llvm_floor_f64" [⟨double, none⟩] (some "llvm.floor.f64"),
    FunDecl.mk ["const"] half "__llvm_ceil_f16" [⟨half, none⟩] (some "llvm.ceil.f16"),
    FunDecl.mk ["const"] half2 "__llvm_ceil_2f16" [⟨half2, none⟩] (some "llvm.ceil.v2f16"),
    FunDecl.mk ["const"] float "__llvm_ceil_f32" [⟨float, none⟩] (some "llvm.ceil.f32"),
    FunDecl.mk ["const"] double "__llvm_ceil_f64" [⟨double, none⟩] (some "llvm.ceil.f64"),
    FunDecl.mk ["const"] half "__llvm_trunc_f16" [⟨half, none⟩] (some "llvm.trunc.f16"),
    FunDecl.mk ["const"] half2 "__llvm_trunc_2f16" [⟨half2, none⟩] (some "llvm.trunc.v2f16"),
    FunDecl.mk ["const"] float "__llvm_trunc_f32" [⟨float, none⟩] (some "llvm.trunc.f32"),
    FunDecl.mk ["const"] double "__llvm_trunc_f64" [⟨double, none⟩] (some "llvm.trunc.f64"),
    FunDecl.mk ["const"] half "__llvm_rint_f16" [⟨half, none⟩] (some "llvm.rint.f16"),
    FunDecl.mk ["const"] half2 "__llvm_rint_2f16" [⟨half2, none⟩] (some "llvm.rint.v2f16"),
    FunDecl.mk ["const"] float "__llvm_rint_f32" [⟨float, none⟩] (some "llvm.rint.f32"),
    FunDecl.mk ["const"] double "__llvm_rint_f64" [⟨double, none⟩] (some "llvm.rint.f64"),
    FunDecl.mk ["const"] half "__llvm_nearbyint_f16" [⟨half, none⟩] (some "llvm.nearbyint.f16"),
    FunDecl.mk ["const"] half2 "__llvm_nearbyint_2f16"
      [⟨half2, none⟩]
      (some "llvm.nearbyint.v2f16"),
    FunDecl.mk ["const"] float "__llvm_nearbyint_f32" [⟨float, none⟩] (some "llvm.nearbyint.f32"),
    FunDecl.mk ["const"] double "__llvm_nearbyint_f64"
      [⟨double, none⟩]
      (some "llvm.nearbyint.f64"),
    FunDecl.mk ["const"] half "__llvm_round_f16" [⟨half, none⟩] (some "llvm.round.f16"),
    FunDecl.mk ["const"] half2 "__llvm_round_2f16" [⟨half2, none⟩] (some "llvm.round.v2f16"),
    FunDecl.mk ["const"] float "__llvm_round_f32" [⟨float, none⟩] (some "llvm.round.f32"),
    FunDecl.mk ["const"] double "__llvm_round_f64" [⟨double, none⟩] (some "llvm.round.f64"),
    FunDecl.mk ["const"] int "__llvm_bitreverse_i32" [⟨int, none⟩] (some "llvm.bitreverse.i32"),
    FunDecl.mk ["const"] long "__llvm_bitreverse_i64" [⟨long, none⟩] (some "llvm.bitreverse.i64"),
    FunDecl.mk ["const"] int "__llvm_ctpop_i32" [⟨int, none⟩] (some "llvm.ctpop.i32"),
    FunDecl.mk ["const"] long "__llvm_ctpop_i64" [⟨long, none⟩] (some "llvm.ctpop.i64"),
    FunDecl.mk ["const"] half "__llvm_fmuladd_f16"
      [⟨half, none⟩, ⟨half, none⟩, ⟨half, none⟩]
      (some "llvm.fmuladd.f16"),
    FunDecl.mk ["const"] half2 "__llvm_fmuladd_2f16"
      [⟨half2, none⟩, ⟨half2, none⟩, ⟨half2, none⟩]
      (some "llvm.fmuladd.v2f16"),
    FunDecl.mk ["const"] float "__llvm_fmuladd_f32"
      [⟨float, none⟩, ⟨float, none⟩, ⟨float, none⟩]
      (some "llvm.fmuladd.f32"),
    FunDecl.mk ["const"] double "__llvm_fmuladd_f64"
      [⟨double, none⟩, ⟨double, none⟩, ⟨double, none⟩]
      (some "llvm.fmuladd.f64"),
    FunDecl.mk ["const"] half "__llvm_canonicalize_f16"
      [⟨half, none⟩]
      (some "llvm.canonicalize.f16"),
    FunDecl.mk ["const"] half2 "__llvm_canonicalize_2f16"
      [⟨half2, none⟩]
      (some "llvm.canonicalize.v2f16"),
    FunDecl.mk ["const"] float "__llvm_canonicalize_f32"
      [⟨float, none⟩]
      (some "llvm.canonicalize.f32"),
    FunDecl.mk ["const"] double "__llvm_canonicalize_f64"
      [⟨double, none⟩]
      (some "llvm.canonicalize.f64") ]

/-- The declarations of `irif.h` under `// Intrinsics requiring wrapping` (lines 102-110), in source
order. -/
def wrappingIntrinsics : List FunDecl :=
  [ FunDecl.mk ["const"] uchar "__llvm_ctlz_i8" [⟨uchar, none⟩] none,
    FunDecl.mk ["const"] ushort "__llvm_ctlz_i16" [⟨ushort, none⟩] none,
    FunDecl.mk ["const"] uint "__llvm_ctlz_i32" [⟨uint, none⟩] none,
    FunDecl.mk ["const"] ulong "__llvm_ctlz_i64" [⟨ulong, none⟩] none,
    FunDecl.mk ["const"] uchar "__llvm_cttz_i8" [⟨uchar, none⟩] none,
    FunDecl.mk ["const"] ushort "__llvm_cttz_i16" [⟨ushort, none⟩] none,
    FunDecl.mk ["const"] uint "__llvm_cttz_i32" [⟨uint, none⟩] none,
    FunDecl.mk ["const"] ulong "__llvm_cttz_i64" [⟨ulong, none⟩] none ]

/-- The declarations of `irif.h` under `// Fence intrinsics` (lines 113-132), in source
order. -/
def fenceIntrinsics : List FunDecl :=
  [ FunDecl.mk [] .void "__llvm_fence_acq_wi" [] none,
    FunDecl.mk [] .void "__llvm_fence_acq_sg" [] none,
    FunDecl.mk [] .void "__llvm_fence_acq_wg" [] none,
    FunDecl.mk [] .void "__llvm_fence_acq_dev" [] none,
    FunDecl.mk [] .void "__llvm_fence_acq_sys" [] none,
    FunDecl.mk [] .void "__llvm_fence_rel_wi" [] none,
    FunDecl.mk [] .void "__llvm_fence_rel_sg" [] none,
    FunDecl.mk [] .void "__llvm_fence_rel_wg" [] none,
    FunDecl.mk [] .void "__llvm_fence_rel_dev" [] none,
    FunDecl.mk [] .void "__llvm_fence_rel_sys" [] none,
    FunDecl.mk [] .void "__llvm_fence_ar_wi" [] none,
    FunDecl.mk [] .void "__llvm_fence_ar_sg" [] none,
    FunDecl.mk [] .void "__llvm_fence_ar_wg" [] none,
    FunDecl.mk [] .void "__llvm_fence_ar_dev" [] none,
    FunDecl.mk [] .void "__llvm_fence_ar_sys" [] none,
    FunDecl.mk [] .void "__llvm_fence_sc_wi" [] none,
    FunDecl.mk [] .void "__llvm_fence_sc_sg" [] none,
    FunDecl.mk [] .void "__llvm_fence_sc_wg" [] none,
    FunDecl.mk [] .void "__llvm_fence_sc_dev" [] none,
    FunDecl.mk [] .void "__llvm_fence_sc_sys" [] none ]

/-- The declarations of `irif.h` under `// Atomics` (lines 135-181), in source
order. -/
def atomics : List FunDecl :=
  [ FunDecl.mk [] uint "__llvm_ld_atomic_a1_x_dev_i32" [⟨.ptr .global uint, none⟩] none,
    FunDecl.mk [] ulong "__llvm_ld_atomic_a1_x_dev_i64" [⟨.ptr .global ulong, none⟩] none,
    FunDecl.mk [] uint "__llvm_ld_atomic_a3_x_wg_i32" [⟨.ptr .loc uint, none⟩] none,
    FunDecl.mk [] ulong "__llvm_ld_atomic_a3_x_wg_i64" [⟨.ptr .loc ulong, none⟩] none,
    FunDecl.mk [] .void "__llvm_st_atomic_a1_x_dev_i32"
      [⟨.ptr .global uint, none⟩, ⟨uint, none⟩]
      none,
    FunDecl.mk [] .void "__llvm_st_atomic_a1_x_dev_i64"
      [⟨.ptr .global ulong, none⟩, ⟨ulong, none⟩]
      none,
    FunDecl.mk [] .void "__llvm_st_atomic_a3_x_wg_i32" [⟨.ptr .loc uint, none⟩, ⟨uint, none⟩] none,
    FunDecl.mk [] .void "__llvm_st_atomic_a3_x_wg_i64"
      [⟨.ptr .loc ulong, none⟩, ⟨ulong, none⟩]
      none,
    FunDecl.mk [] uint "__llvm_atomic_add_a1_x_dev_i32"
      [⟨.ptr .global uint, none⟩, ⟨uint, none⟩]
      none,
    FunDecl.mk [] ulong "__llvm_atomic_add_a1_x_dev_i64"
      [⟨.ptr .global ulong, none⟩, ⟨ulong, none⟩]
      none,
    FunDecl.mk [] uint "__llvm_atomic_add_a3_x_wg_i32" [⟨.ptr .loc uint, none⟩, ⟨uint, none⟩] none,
    FunDecl.mk [] ulong "__llvm_atomic_add_a3_x_wg_i64"
      [⟨.ptr .loc ulong, none⟩, ⟨ulong, none⟩]
      none,
    FunDecl.mk [] uint "__llvm_atomic_and_a1_x_dev_i32"
      [⟨.ptr .global uint, none⟩, ⟨uint, none⟩]
      none,
    FunDecl.mk [] ulong "__llvm_atomic_and_a1_x_dev_i64"
      [⟨.ptr .global ulong, none⟩, ⟨ulong, none⟩]
      none,
    FunDecl.mk [] uint "__llvm_atomic_and_a3_x_wg_i32" [⟨.ptr .loc uint, none⟩, ⟨uint, none⟩] none,
    FunDecl.mk [] ulong "__llvm_atomic_and_a3_x_wg_i64"
      [⟨.ptr .loc ulong, none⟩, ⟨ulong, none⟩]
      none,
    FunDecl.mk [] uint "__llvm_atomic_or_a1_x_dev_i32"
      [⟨.ptr .global uint, none⟩, ⟨uint, none⟩]
      none,
    FunDecl.mk [] ulong "__llvm_atomic_or_a1_x_dev_i64"
      [⟨.ptr .global ulong, none⟩, ⟨ulong, none⟩]
      none,
    FunDecl.mk [] uint "__llvm_atomic_or_a3_x_wg_i32" [⟨.ptr .loc uint, none⟩, ⟨uint, none⟩] none,
    FunDecl.mk [] ulong "__llvm_atomic_or_a3_x_wg_i64"
      [⟨.ptr .loc ulong, none⟩, ⟨ulong, none⟩]
      none,
    FunDecl.mk [] uint "__llvm_atomic_max_a1_x_dev_i32"
      [⟨.ptr .global int, none⟩, ⟨int, none⟩]
      none,
    FunDecl.mk [] uint "__llvm_atomic_umax_a1_x_dev_i32"
      [⟨.ptr .global uint, none⟩, ⟨uint, none⟩]
      none,
    FunDecl.mk [] ulong "__llvm_atomic_max_a1_x_dev_i64"
      [⟨.ptr .global long, none⟩, ⟨long, none⟩]
      none,
    FunDecl.mk [] ulong "__llvm_atomic_umax_a1_x_dev_i64"
      [⟨.ptr .global ulong, none⟩, ⟨ulong, none⟩]
      none,
    FunDecl.mk [] uint "__llvm_atomic_max_a3_x_wg_i32" [⟨.ptr .loc int, none⟩, ⟨int, none⟩] none,
    FunDecl.mk [] uint "__llvm_atomic_umax_a3_x_wg_i32"
      [⟨.ptr .loc uint, none⟩, ⟨uint, none⟩]
      none,
    FunDecl.mk [] ulong "__llvm_atomic_max_a3_x_wg_i64"
      [⟨.ptr .loc long, none⟩, ⟨long, none⟩]
      none,
    FunDecl.mk [] ulong "__llvm_atomic_umax_a3_x_wg_i64"
      [⟨.ptr .loc ulong, none⟩, ⟨ulong, none⟩]
      none,
    FunDecl.mk [] uint "__llvm_atomic_min_a1_x_dev_i32"
      [⟨.ptr .global int, none⟩, ⟨int, none⟩]
      none,
    FunDecl.mk [] uint "__llvm_atomic_umin_a1_x_dev_i32"
      [⟨.ptr .global uint, none⟩, ⟨uint, none⟩]
      none,
    FunDecl.mk [] ulong "__llvm_atomic_min_a1_x_dev_i64"
      [⟨.ptr .global long, none⟩, ⟨long, none⟩]
      none,
    FunDecl.mk [] ulong "__llvm_atomic_umin_a1_x_dev_i64"
      [⟨.ptr .global ulong, none⟩, ⟨ulong, none⟩]
      none,
    FunDecl.mk [] uint "__llvm_atomic_min_a3_x_wg_i32" [⟨.ptr .loc int, none⟩, ⟨int, none⟩] none,
    FunDecl.mk [] uint "__llvm_atomic_umin_a3_x_wg_i32"
      [⟨.ptr .loc uint, none⟩, ⟨uint, none⟩]
      none,
    FunDecl.mk [] ulong "__llvm_atomic_min_a3_x_wg_i64"
      [⟨.ptr .loc long, none⟩, ⟨long, none⟩]
      none,
    FunDecl.mk [] ulong "__llvm_atomic_umin_a3_x_wg_i64"
      [⟨.ptr .loc ulong, none⟩, ⟨ulong, none⟩]
      none,
    FunDecl.mk [] uint "__llvm_cmpxchg_a1_x_x_dev_i32"
      [⟨.ptr .global uint, none⟩, ⟨uint, none⟩, ⟨uint, none⟩]
      none,
    FunDecl.mk [] ulong "__llvm_cmpxchg_a1_x_x_dev_i64"
      [⟨.ptr .global ulong, none⟩, ⟨ulong, none⟩, ⟨ulong, none⟩]
      none,
    FunDecl.mk [] uint "__llvm_cmpxchg_a3_x_x_wg_i32"
      [⟨.ptr .loc uint, none⟩, ⟨uint, none⟩, ⟨uint, none⟩]
      none,
    FunDecl.mk [] ulong "__llvm_cmpxchg_a3_x_x_wg_i64"
      [⟨.ptr .loc ulong, none⟩, ⟨ulong, none⟩, ⟨ulong, none⟩]
      none ]

/-- The declarations of `irif.h` under `// Constrained floating point` (lines 184-255), in source
order. -/
def constrainedFloatingPoint : List FunDecl :=
  [ FunDecl.mk ["const"] half "__llvm_add_rte_f16" [⟨half, none⟩, ⟨half, none⟩] none,
    FunDecl.mk ["const"] half "__llvm_add_rtn_f16" [⟨half, none⟩, ⟨half, none⟩] none,
    FunDecl.mk ["const"] half "__llvm_add_rtp_f16" [⟨half, none⟩, ⟨half, none⟩] none,
    FunDecl.mk ["const"] half "__llvm_add_rtz_f16" [⟨half, none⟩, ⟨half, none⟩] none,
    FunDecl.mk ["const"] float "__llvm_add_rte_f32" [⟨float, none⟩, ⟨float, none⟩] none,
    FunDecl.mk ["const"] float "__llvm_add_rtn_f32" [⟨float, none⟩, ⟨float, none⟩] none,
    FunDecl.mk ["const"] float "__llvm_add_rtp_f32" [⟨float, none⟩, ⟨float, none⟩] none,
    FunDecl.mk ["const"] float "__llvm_add_rtz_f32" [⟨float, none⟩, ⟨float, none⟩] none,
    FunDecl.mk ["const"] double "__llvm_add_rte_f64" [⟨double, none⟩, ⟨double, none⟩] none,
    FunDecl.mk ["const"] double "__llvm_add_rtn_f64" [⟨double, none⟩, ⟨double, none⟩] none,
    FunDecl.mk ["const"] double "__llvm_add_rtp_f64" [⟨double, none⟩, ⟨double, none⟩] none,
    FunDecl.mk ["const"] double "__llvm_add_rtz_f64" [⟨double, none⟩, ⟨double, none⟩] none,
    FunDecl.mk ["const"] half "__llvm_sub_rte_f16" [⟨half, none⟩, ⟨half, none⟩] none,
    FunDecl.mk ["const"] half "__llvm_sub_rtn_f16" [⟨half, none⟩, ⟨half, none⟩] none,
    FunDecl.mk ["const"] half "__llvm_sub_rtp_f16" [⟨half, none⟩, ⟨half, none⟩] none,
    FunDecl.mk ["const"] half "__llvm_sub_rtz_f16" [⟨half, none⟩, ⟨half, none⟩] none,
    FunDecl.mk ["const"] float "__llvm_sub_rte_f32" [⟨float, none⟩, ⟨float, none⟩] none,
    FunDecl.mk ["const"] float "__llvm_sub_rtn_f32" [⟨float, none⟩, ⟨float, none⟩] none,
    FunDecl.mk ["const"] float "__llvm_sub_rtp_f32" [⟨float, none⟩, ⟨float, none⟩] none,
    FunDecl.mk ["const"] float "__llvm_sub_rtz_f32" [⟨float, none⟩, ⟨float, none⟩] none,
    FunDecl.mk ["const"] double "__llvm_sub_rte_f64" [⟨double, none⟩, ⟨double, none⟩] none,
    FunDecl.mk ["const"] double "__llvm_sub_rtn_f64" [⟨double, none⟩, ⟨double, none⟩] none,
    FunDecl.mk ["const"] double "__llvm_sub_rtp_f64" [⟨double, none⟩, ⟨double, none⟩] none,
    FunDecl.mk ["const"] double "__llvm_sub_rtz_f64" [⟨double, none⟩, ⟨double, none⟩] none,
    FunDecl.mk ["const"] half "__llvm_mul_rte_f16" [⟨half, none⟩, ⟨half, none⟩] none,
    FunDecl.mk ["const"] half "__llvm_mul_rtn_f16" [⟨half, none⟩, ⟨half, none⟩] none,
    FunDecl.mk ["const"] half "__llvm_mul_rtp_f16" [⟨half, none⟩, ⟨half, none⟩] none,
    FunDecl.mk ["const"] half "__llvm_mul_rtz_f16" [⟨half, none⟩, ⟨half, none⟩] none,
    FunDecl.mk ["const"] float "__llvm_mul_rte_f32" [⟨float, none⟩, ⟨float, none⟩] none,
    FunDecl.mk ["const"] float "__llvm_mul_rtn_f32" [⟨float, none⟩, ⟨float, none⟩] none,
    FunDecl.mk ["const"] float "__llvm_mul_rtp_f32" [⟨float, none⟩, ⟨float, none⟩] none,
    FunDecl.mk ["const"] float "__llvm_mul_rtz_f32" [⟨float, none⟩, ⟨float, none⟩] none,
    FunDecl.mk ["const"] double "__llvm_mul_rte_f64" [⟨double, none⟩, ⟨double, none⟩] none,
    FunDecl.mk ["const"] double "__llvm_mul_rtn_f64" [⟨double, none⟩, ⟨double, none⟩] none,
    FunDecl.mk ["const"] double "__llvm_mul_rtp_f64" [⟨double, none⟩, ⟨double, none⟩] none,
    FunDecl.mk ["const"] double "__llvm_mul_rtz_f64" [⟨double, none⟩, ⟨double, none⟩] none,
    FunDecl.mk ["const"] half "__llvm_div_rte_f16" [⟨half, none⟩, ⟨half, none⟩] none,
    FunDecl.mk ["const"] half "__llvm_div_rtn_f16" [⟨half, none⟩, ⟨half, none⟩] none,
    FunDecl.mk ["const"] half "__llvm_div_rtp_f16" [⟨half, none⟩, ⟨half, none⟩] none,
    FunDecl.mk ["const"] half "__llvm_div_rtz_f16" [⟨half, none⟩, ⟨half, none⟩] none,
    FunDecl.mk ["const"] float "__llvm_div_rte_f32" [⟨float, none⟩, ⟨float, none⟩] none,
    FunDecl.mk ["const"] float "__llvm_div_rtn_f32" [⟨float, none⟩, ⟨float, none⟩] none,
    FunDecl.mk ["const"] float "__llvm_div_rtp_f32" [⟨float, none⟩, ⟨float, none⟩] none,
    FunDecl.mk ["const"] float "__llvm_div_rtz_f32" [⟨float, none⟩, ⟨float, none⟩] none,
    FunDecl.mk ["const"] double "__llvm_div_rte_f64" [⟨double, none⟩, ⟨double, none⟩] none,
    FunDecl.mk ["const"] double "__llvm_div_rtn_f64" [⟨double, none⟩, ⟨double, none⟩] none,
    FunDecl.mk ["const"] double "__llvm_div_rtp_f64" [⟨double, none⟩, ⟨double, none⟩] none,
    FunDecl.mk ["const"] double "__llvm_div_rtz_f64" [⟨double, none⟩, ⟨double, none⟩] none,
    FunDecl.mk ["const"] half "__llvm_sqrt_rte_f16" [⟨half, none⟩] none,
    FunDecl.mk ["const"] half "__llvm_sqrt_rtn_f16" [⟨half, none⟩] none,
    FunDecl.mk ["const"] half "__llvm_sqrt_rtp_f16" [⟨half, none⟩] none,
    FunDecl.mk ["const"] half "__llvm_sqrt_rtz_f16" [⟨half, none⟩] none,
    FunDecl.mk ["const"] float "__llvm_sqrt_rte_f32" [⟨float, none⟩] none,
    FunDecl.mk ["const"] float "__llvm_sqrt_rtn_f32" [⟨float, none⟩] none,
    FunDecl.mk ["const"] float "__llvm_sqrt_rtp_f32" [⟨float, none⟩] none,
    FunDecl.mk ["const"] float "__llvm_sqrt_rtz_f32" [⟨float, none⟩] none,
    FunDecl.mk ["const"] double "__llvm_sqrt_rte_f64" [⟨double, none⟩] none,
    FunDecl.mk ["const"] double "__llvm_sqrt_rtn_f64" [⟨double, none⟩] none,
    FunDecl.mk ["const"] double "__llvm_sqrt_rtp_f64" [⟨double, none⟩] none,
    FunDecl.mk ["const"] double "__llvm_sqrt_rtz_f64" [⟨double, none⟩] none,
    FunDecl.mk ["const"] half "__llvm_fma_rte_f16" [⟨half, none⟩, ⟨half, none⟩, ⟨half, none⟩] none,
    FunDecl.mk ["const"] half "__llvm_fma_rtn_f16" [⟨half, none⟩, ⟨half, none⟩, ⟨half, none⟩] none,
    FunDecl.mk ["const"] half "__llvm_fma_rtp_f16" [⟨half, none⟩, ⟨half, none⟩, ⟨half, none⟩] none,
    FunDecl.mk ["const"] half "__llvm_fma_rtz_f16" [⟨half, none⟩, ⟨half, none⟩, ⟨half, none⟩] none,
    FunDecl.mk ["const"] float "__llvm_fma_rte_f32"
      [⟨float, none⟩, ⟨float, none⟩, ⟨float, none⟩]
      none,
    FunDecl.mk ["const"] float "__llvm_fma_rtn_f32"
      [⟨float, none⟩, ⟨float, none⟩, ⟨float, none⟩]
      none,
    FunDecl.mk ["const"] float "__llvm_fma_rtp_f32"
      [⟨float, none⟩, ⟨float, none⟩, ⟨float, none⟩]
      none,
    FunDecl.mk ["const"] float "__llvm_fma_rtz_f32"
      [⟨float, none⟩, ⟨float, none⟩, ⟨float, none⟩]
      none,
    FunDecl.mk ["const"] double "__llvm_fma_rte_f64"
      [⟨double, none⟩, ⟨double, none⟩, ⟨double, none⟩]
      none,
    FunDecl.mk ["const"] double "__llvm_fma_rtn_f64"
      [⟨double, none⟩, ⟨double, none⟩, ⟨double, none⟩]
      none,
    FunDecl.mk ["const"] double "__llvm_fma_rtp_f64"
      [⟨double, none⟩, ⟨double, none⟩, ⟨double, none⟩]
      none,
    FunDecl.mk ["const"] double "__llvm_fma_rtz_f64"
      [⟨double, none⟩, ⟨double, none⟩, ⟨double, none⟩]
      none ]

/-- The declarations of `irif.h` under `// AMDGPU intrinsics` (lines 258-369), in source
order. -/
def amdgpuIntrinsics : List FunDecl :=
  [ FunDecl.mk ["const"] bool "__llvm_amdgcn_class_f16"
      [⟨half, none⟩, ⟨int, none⟩]
      (some "llvm.amdgcn.class.f16"),
    FunDecl.mk ["const"] bool "__llvm_amdgcn_class_f32"
      [⟨float, none⟩, ⟨int, none⟩]
      (some "llvm.amdgcn.class.f32"),
    FunDecl.mk ["const"] bool "__llvm_amdgcn_class_f64"
      [⟨double, none⟩, ⟨int, none⟩]
      (some "llvm.amdgcn.class.f64"),
    FunDecl.mk ["const"] half "__llvm_amdgcn_fract_f16"
      [⟨half, none⟩]
      (some "llvm.amdgcn.fract.f16"),
    FunDecl.mk ["const"] float "__llvm_amdgcn_fract_f32"
      [⟨float, none⟩]
      (some "llvm.amdgcn.fract.f32"),
    FunDecl.mk ["const"] double "__llvm_amdgcn_fract_f64"
      [⟨double, none⟩]
      (some "llvm.amdgcn.fract.f64"),
    FunDecl.mk ["const"] float "__llvm_amdgcn_cos_f32"
      [⟨float, none⟩]
      (some "llvm.amdgcn.cos.f32"),
    FunDecl.mk ["const"] half "__llvm_amdgcn_rcp_f16" [⟨half, none⟩] (some "llvm.amdgcn.rcp.f16"),
    FunDecl.mk ["const"] float "__llvm_amdgcn_rcp_f32"
      [⟨float, none⟩]
      (some "llvm.amdgcn.rcp.f32"),
    FunDecl.mk ["const"] double "__llvm_amdgcn_rcp_f64"
      [⟨double, none⟩]
      (some "llvm.amdgcn.rcp.f64"),
    FunDecl.mk ["const"] half "__llvm_amdgcn_rsq_f16" [⟨half, none⟩] (some "llvm.amdgcn.rsq.f16"),
    FunDecl.mk ["const"] float "__llvm_amdgcn_rsq_f32"
      [⟨float, none⟩]
      (some "llvm.amdgcn.rsq.f32"),
    FunDecl.mk ["const"] double "__llvm_amdgcn_rsq_f64"
      [⟨double, none⟩]
      (some "llvm.amdgcn.rsq.f64"),
    FunDecl.mk ["const"] float "__llvm_amdgcn_sin_f32"
      [⟨float, none⟩]
      (some "llvm.amdgcn.sin.f32"),
    FunDecl.mk ["const"] half "__llvm_amdgcn_ldexp_f16"
      [⟨half, none⟩, ⟨int, none⟩]
      (some "llvm.amdgcn.ldexp.f16"),
    FunDecl.mk ["const"] float "__llvm_amdgcn_ldexp_f32"
      [⟨float, none⟩, ⟨int, none⟩]
      (some "llvm.amdgcn.ldexp.f32"),
    FunDecl.mk ["const"] double "__llvm_amdgcn_ldexp_f64"
      [⟨double, none⟩, ⟨int, none⟩]
      (some "llvm.amdgcn.ldexp.f64"),
    FunDecl.mk ["const"] half "__llvm_amdgcn_frexp_mant_f16"
      [⟨half, none⟩]
      (some "llvm.amdgcn.frexp.mant.f16"),
    FunDecl.mk ["const"] float "__llvm_amdgcn_frexp_mant_f32"
      [⟨float, none⟩]
      (some "llvm.amdgcn.frexp.mant.f32"),
    FunDecl.mk ["const"] double "__llvm_amdgcn_frexp_mant_f64"
      [⟨double, none⟩]
      (some "llvm.amdgcn.frexp.mant.f64"),
    FunDecl.mk ["const"] short "__llvm_amdgcn_frexp_exp_i16_f16"
      [⟨half, none⟩]
      (some "llvm.amdgcn.frexp.exp.i16.f16"),
    FunDecl.mk ["const"] int "__llvm_amdgcn_frexp_exp_i32_f32"
      [⟨float, none⟩]
      (some "llvm.amdgcn.frexp.exp.i32.f32"),
    FunDecl.mk ["const"] int "__llvm_amdgcn_frexp_exp_i32_f64"
      [⟨double, none⟩]
      (some "llvm.amdgcn.frexp.exp.i32.f64"),
    FunDecl.mk ["const"] double "__llvm_amdgcn_trig_preop_f64"
      [⟨double, none⟩, ⟨int, none⟩]
      (some "llvm.amdgcn.trig.preop.f64"),
    FunDecl.mk ["const"] half "__llvm_amdgcn_fmed3_f16"
      [⟨half, none⟩, ⟨half, none⟩, ⟨half, none⟩]
      (some "llvm.amdgcn.fmed3.f16"),
    FunDecl.mk ["const"] float "__llvm_amdgcn_fmed3_f32"
      [⟨float, none⟩, ⟨float, none⟩, ⟨float, none⟩]
      (some "llvm.amdgcn.fmed3.f32"),
    FunDecl.mk ["const"] (.ptr .constant .void) "__llvm_amdgcn_dispatch_ptr"
      []
      (some "llvm.amdgcn.dispatch.ptr"),
    FunDecl.mk ["const"] (.ptr .constant .void) "__llvm_amdgcn_queue_ptr"
      []
      (some "llvm.amdgcn.queue.ptr"),
    FunDecl.mk ["const"] (.ptr .constant .void) "__llvm_amdgcn_kernarg_segment_ptr"
      []
      (some "llvm.amdgcn.kernarg.segment.ptr"),
    FunDecl.mk ["const"] (.ptr .constant .void) "__llvm_amdgcn_implicitarg_ptr"
      []
      (some "llvm.amdgcn.implicitarg.ptr"),
    FunDecl.mk ["const"] uint "__llvm_amdgcn_groupstaticsize"
      []
      (some "llvm.amdgcn.groutstaticsize"),
    FunDecl.mk [] .void "__llvm_amdgcn_s_sleep" [⟨uint, none⟩] (some "llvm.amdgcn.s.sleep"),
    FunDecl.mk [] ulong "__llvm_amdgcn_s_memtime" [] (some "llvm.amdgcn.s.memtime"),
    FunDecl.mk [] ulong "__llvm_amdgcn_s_memrealtime" [] (some "llvm.amdgcn.s.memrealtime"),
    FunDecl.mk ["const"] uint "__llvm_amdgcn_wavefrontsize" [] (some "llvm.amdgcn.wavefrontsize"),
    FunDecl.mk [] uint "__llvm_amdgcn_ds_bpermute"
      [⟨uint, none⟩, ⟨uint, none⟩]
      (some "llvm.amdgcn.ds.bpermute"),
    FunDecl.mk [] uint "__llvm_amdgcn_ds_swizzle"
      [⟨uint, none⟩, ⟨uint, none⟩]
      (some "llvm.amdgcn.ds.swizzle"),
    FunDecl.mk [] uint "__llvm_amdgcn_mov_dpp_i32"
      [⟨uint, none⟩, ⟨uint, none⟩, ⟨uint, none⟩, ⟨uint, none⟩, ⟨bool, none⟩]
      (some "llvm.amdgcn.mov.dpp.i32"),
    FunDecl.mk [] uint "__llvm_amdgcn_update_dpp_i32"
      [⟨uint, none⟩, ⟨uint, none⟩, ⟨uint, none⟩, ⟨uint, none⟩, ⟨uint, none⟩, ⟨bool, none⟩]
      (some "llvm.amdgcn.update.dpp.i32"),
    FunDecl.mk [] uint "__llvm_amdgcn_dpp8_i32"
      [⟨uint, none⟩, ⟨uint, none⟩]
      (some "llvm.amdgcn.dpp8.i32"),
    FunDecl.mk [] uint "__llvm_amdgcn_permlane16"
      [⟨uint, none⟩, ⟨uint, none⟩, ⟨uint, none⟩, ⟨uint, none⟩, ⟨bool, none⟩, ⟨bool, none⟩]
      (some "llvm.amdgcn.permlane16"),
    FunDecl.mk [] uint "__llvm_amdgcn_permlanex16"
      [⟨uint, none⟩, ⟨uint, none⟩, ⟨uint, none⟩, ⟨uint, none⟩, ⟨bool, none⟩, ⟨bool, none⟩]
      (some "llvm.amdgcn.permlanex16"),
    FunDecl.mk [] .void "__llvm_amdgcn_s_waitcnt" [⟨int, none⟩] (some "llvm.amdgcn.s.waitcnt"),
    FunDecl.mk [] .void "__llvm_amdgcn_s_dcache_inv_vol" [] (some "llvm.amdgcn.s.dcache.inv.vol"),
    FunDecl.mk [] .void "__llvm_amdgcn_s_dcache_wb" [] (some "llvm.amdgcn.s.dcache.wb"),
    FunDecl.mk [] .void "__llvm_amdgcn_s_dcache_wb_vol" [] (some "llvm.amdgcn.s.dcache.wb.vol"),
    FunDecl.mk [] .void "__llvm_amdcgn_buffer_wbinvl1_vol"
      []
      (some "llvm.amdgcn.buffer.wbinvl1.vol"),
    FunDecl.mk ["const"] uint "__llvm_amdgcn_mbcnt_lo"
      [⟨uint, none⟩, ⟨uint, none⟩]
      (some "llvm.amdgcn.mbcnt.lo"),
    FunDecl.mk ["const"] uint "__llvm_amdgcn_mbcnt_hi"
      [⟨uint, none⟩, ⟨uint, none⟩]
      (some "llvm.amdgcn.mbcnt.hi"),
    FunDecl.mk [] uint "__llvm_amdgcn_s_getreg" [⟨uint, none⟩] (some "llvm.amdgcn.s.getreg"),
    FunDecl.mk [] uint "__llvm_amdgcn_readfirstlane"
      [⟨uint, none⟩]
      (some "llvm.amdgcn.readfirstlane"),
    FunDecl.mk [] uint "__llvm_amdgcn_readlane"
      [⟨uint, none⟩, ⟨uint, none⟩]
      (some "llvm.amdgcn.readlane"),
    FunDecl.mk ["const"] uint "__llvm_amdgcn_ubfe_i32"
      [⟨uint, none⟩, ⟨uint, none⟩, ⟨uint, none⟩]
      (some "llvm.amdgcn.ubfe.i32"),
    FunDecl.mk ["const"] int "__llvm_amdgcn_sbfe_i32"
      [⟨int, none⟩, ⟨uint, none⟩, ⟨uint, none⟩]
      (some "llvm.amdgcn.sbfe.i32"),
    FunDecl.mk ["const"] uint "__llvm_amdgcn_alignbit"
      [⟨uint, none⟩, ⟨uint, none⟩, ⟨uint, none⟩]
      (some "llvm.amdgcn.alignbit"),
    FunDecl.mk ["const"] uint "__llvm_amdgcn_alignbyte"
      [⟨uint, none⟩, ⟨uint, none⟩, ⟨uint, none⟩]
      (some "llvm.amdgcn.alignbyte"),
    FunDecl.mk ["const"] uint "__llvm_amdgcn_lerp"
      [⟨uint, none⟩, ⟨uint, none⟩, ⟨uint, none⟩]
      (some "llvm.amdgcn.lerp"),
    FunDecl.mk ["const"] ulong "__llvm_amdgcn_mqsad_pk_u16_u8"
      [⟨ulong, none⟩, ⟨uint, none⟩, ⟨ulong, none⟩]
      (some "llvm.amdgcn.mqsad.pk.u16.u8"),
    FunDecl.mk ["const"] uint "__llvm_amdgcn_cvt_pk_u8_f32"
      [⟨float, none⟩, ⟨uint, none⟩, ⟨uint, none⟩]
      (some "llvm.amdgcn.cvt.pk.u8.f32"),
    FunDecl.mk ["const"] ulong "__llvm_amdgcn_qsad_pk_u16_u8"
      [⟨ulong, none⟩, ⟨uint, none⟩, ⟨ulong, none⟩]
      (some "llvm.amdgcn.qsad.pk.u16.u8"),
    FunDecl.mk ["const"] uint "__llvm_amdgcn_sad_u8"
      [⟨uint, none⟩, ⟨uint, none⟩, ⟨uint, none⟩]
      (some "llvm.amdgcn.sad.u8"),
    FunDecl.mk ["const"] uint "__llvm_amdgcn_sad_hi_u8"
      [⟨uint, none⟩, ⟨uint, none⟩, ⟨uint, none⟩]
      (some "llvm.amdgcn.sad.hi.u8"),
    FunDecl.mk ["const"] uint "__llvm_amdgcn_sad_u16"
      [⟨uint, none⟩, ⟨uint, none⟩, ⟨uint, none⟩]
      (some "llvm.amdgcn.sad.u16"),
    FunDecl.mk ["const"] uint "__llvm_amdgcn_msad_u8"
      [⟨uint, none⟩, ⟨uint, none⟩, ⟨uint, none⟩]
      (some "llvm.amdgcn.msad.u8"),
    FunDecl.mk ["const", "convergent"] ulong "__llvm_amdgcn_icmp_i64_i32"
      [⟨uint, none⟩, ⟨uint, none⟩, ⟨uint, none⟩]
      (some "llvm.amdgcn.icmp.i64.i32"),
    FunDecl.mk ["const", "convergent"] ulong "__llvm_amdgcn_icmp_i64_i64"
      [⟨ulong, none⟩, ⟨ulong, none⟩, ⟨uint, none⟩]
      (some "llvm.amdgcn.icmp.i64.i64"),
    FunDecl.mk ["const", "convergent"] ulong "__llvm_amdgcn_fcmp_i64_f32"
      [⟨float, none⟩, ⟨float, none⟩, ⟨uint, none⟩]
      (some "llvm.amdgcn.fcmp.i64.f32"),
    FunDecl.mk ["const", "convergent"] ulong "__llvm_amdgcn_fcmp_i64_f64"
      [⟨double, none⟩, ⟨double, none⟩, ⟨uint, none⟩]
      (some "llvm.amdgcn.fcmp.i64.f64"),
    FunDecl.mk ["const", "convergent"] uint "__llvm_amdgcn_icmp_i32_i32"
      [⟨uint, none⟩, ⟨uint, none⟩, ⟨uint, none⟩]
      (some "llvm.amdgcn.icmp.i32.i32"),
    FunDecl.mk ["const", "convergent"] uint "__llvm_amdgcn_icmp_i32_i64"
      [⟨ulong, none⟩, ⟨ulong, none⟩, ⟨uint, none⟩]
      (some "llvm.amdgcn.icmp.i32.i64"),
    FunDecl.mk ["const", "convergent"] uint "__llvm_amdgcn_fcmp_i32_f32"
      [⟨float, none⟩, ⟨float, none⟩, ⟨uint, none⟩]
      (some "llvm.amdgcn.fcmp.i32.f32"),
    FunDecl.mk ["const", "convergent"] uint "__llvm_amdgcn_fcmp_i32_f64"
      [⟨double, none⟩, ⟨double, none⟩, ⟨uint, none⟩]
      (some "llvm.amdgcn.fcmp.i32.f64"),
    FunDecl.mk ["const"] float "__llvm_amdgcn_cubeid"
      [⟨float, none⟩, ⟨float, none⟩, ⟨float, none⟩]
      (some "llvm.amdgcn.cubeid"),
    FunDecl.mk ["const"] float "__llvm_amdgcn_cubema"
      [⟨float, none⟩, ⟨float, none⟩, ⟨float, none⟩]
      (some "llvm.amdgcn.cubema"),
    FunDecl.mk ["const"] float "__llvm_amdgcn_cubesc"
      [⟨float, none⟩, ⟨float, none⟩, ⟨float, none⟩]
      (some "llvm.amdgcn.cubesc"),
    FunDecl.mk ["const"] float "__llvm_amdgcn_cubetc"
      [⟨float, none⟩, ⟨float, none⟩, ⟨float, none⟩]
      (some "llvm.amdgcn.cubetc") ]

/-- The declarations of `irif.h` under `// Buffer Load/Store` (lines 373-376), in source
order. -/
def bufferLoadStore : List FunDecl :=
  [ FunDecl.mk ["pure"] float4 "__llvm_amdgcn_buffer_load_format_v4f32"
      [⟨uint4, some "v"⟩, ⟨uint, some "i"⟩, ⟨uint, some "o"⟩, ⟨bool, some "glc"⟩,
       ⟨bool, some "slc"⟩]
      (some "llvm.amdgcn.buffer.load.format.v4f32"),
    FunDecl.mk ["pure"] half4 "__llvm_amdgcn_buffer_load_format_v4f16"
      [⟨uint4, some "v"⟩, ⟨uint, some "i"⟩, ⟨uint, some "o"⟩, ⟨bool, some "glc"⟩,
       ⟨bool, some "slc"⟩]
      (some "llvm.amdgcn.buffer.load.format.v4f16"),
    FunDecl.mk [] .void "__llvm_amdgcn_buffer_store_format_v4f32"
      [⟨float4, some "p"⟩, ⟨uint4, some "v"⟩, ⟨uint, some "i"⟩, ⟨uint, some "o"⟩,
       ⟨bool, some "glc"⟩, ⟨bool, some "slc"⟩]
      (some "llvm.amdgcn.buffer.store.format.v4f32"),
    FunDecl.mk [] .void "__llvm_amdgcn_buffer_store_format_v4f16"
      [⟨half4, some "p"⟩, ⟨uint4, some "v"⟩, ⟨uint, some "i"⟩, ⟨uint, some "o"⟩,
       ⟨bool, some "glc"⟩, ⟨bool, some "slc"⟩]
      (some "llvm.amdgcn.buffer.store.format.v4f16") ]

/-- The declarations of `irif.h` under `// Image load, store, sample, gather`: the `image_load` declarations (lines 379-422), in source
order. -/
def imageLoad : List FunDecl :=
  [ FunDecl.mk ["pure"] float4 "__llvm_amdgcn_image_load_1d_v4f32_i32"
      [⟨uint, some "dmask"⟩, ⟨uint, some "ix"⟩, ⟨uint8, some "t"⟩, ⟨uint, some "texfailctrl"⟩,
       ⟨uint, some "cachepolicy"⟩]
      (some "llvm.amdgcn.image.load.1d.v4f32.i32"),
    FunDecl.mk ["pure"] float4 "__llvm_amdgcn_image_load_2d_v4f32_i32"
      [⟨uint, some "dmask"⟩, ⟨uint, some "ix"⟩, ⟨uint, some "iy"⟩, ⟨uint8, some "t"⟩,
       ⟨uint, some "texfailctrl"⟩, ⟨uint, some "cachepolicy"⟩]
      (some "llvm.amdgcn.image.load.2d.v4f32.i32"),
    FunDecl.mk ["pure"] float4 "__llvm_amdgcn_image_load_3d_v4f32_i32"
      [⟨uint, some "dmask"⟩, ⟨uint, some "ix"⟩, ⟨uint, some "iy"⟩, ⟨uint, some "iz"⟩,
       ⟨uint8, some "t"⟩, ⟨uint, some "texfailctrl"⟩, ⟨uint, some "cachepolicy"⟩]
      (some "llvm.amdgcn.image.load.3d.v4f32.i32"),
    FunDecl.mk ["pure"] float4 "__llvm_amdgcn_image_load_cube_v4f32_i32"
      [⟨uint, some "dmask"⟩, ⟨uint, some "ix"⟩, ⟨uint, some "iy"⟩, ⟨uint, some "iface"⟩,
       ⟨uint8, some "t"⟩, ⟨uint, some "texfailctrl"⟩, ⟨uint, some "cachepolicy"⟩]
      (some "llvm.amdgcn.image.load.cube.v4f32.i32"),
    FunDecl.mk ["pure"] float4 "__llvm_amdgcn_image_load_1darray_v4f32_i32"
      [⟨uint, some "dmask"⟩, ⟨uint, some "ix"⟩, ⟨uint, some "islice"⟩, ⟨uint8, some "t"⟩,
       ⟨uint, some "texfailctrl"⟩, ⟨uint, some "cachepolicy"⟩]
      (some "llvm.amdgcn.image.load.1darray.v4f32.i32"),
    FunDecl.mk ["pure"] float4 "__llvm_amdgcn_image_load_2darray_v4f32_i32"
      [⟨uint, some "dmask"⟩, ⟨uint, some "ix"⟩, ⟨uint, some "iy"⟩, ⟨uint, some "islice"⟩,
       ⟨uint8, some "t"⟩, ⟨uint, some "texfailctrl"⟩, ⟨uint, some "cachepolicy"⟩]
      (some "llvm.amdgcn.image.load.2darray.v4f32.i32"),
    FunDecl.mk ["pure"] float4 "__llvm_amdgcn_image_load_2dmsaa_v4f32_i32"
      [⟨uint, some "dmask"⟩, ⟨uint, some "ix"⟩, ⟨uint, some "iy"⟩, ⟨uint, some "ifrag"⟩,
       ⟨uint8, some "t"⟩, ⟨uint, some "texfailctrl"⟩, ⟨uint, some "cachepolicy"⟩]
      (some "llvm.amdgcn.image.load.2dmsaa.v4f32.i32"),
    FunDecl.mk ["pure"] float4 "__llvm_amdgcn_image_load_2darraymsaa_v4f32_i32"
      [⟨uint, some "dmask"⟩, ⟨uint, some "ix"⟩, ⟨uint, some "iy"⟩, ⟨uint, some "islice"⟩,
       ⟨uint, some "ifrag"⟩, ⟨uint8, some "t"⟩, ⟨uint, some "texfailctrl"⟩,
       ⟨uint, some "cachepolicy"⟩]
      (some "llvm.amdgcn.image.load.2darraymsaa.v4f32.i32"),
    FunDecl.mk ["pure"] float4 "__llvm_amdgcn_image_load_mip_1d_v4f32_i32"
      [⟨uint, some "dmask"⟩, ⟨uint, some "ix"⟩, ⟨uint, some "imip"⟩, ⟨uint8, some "t"⟩,
       ⟨uint, some "texfailctrl"⟩, ⟨uint, some "cachepolicy"⟩]
      (some "llvm.amdgcn.image.load.mip.1d.v4f32.i32"),
    FunDecl.mk ["pure"] float4 "__llvm_amdgcn_image_load_mip_2d_v4f32_i32"
      [⟨uint, some "dmask"⟩, ⟨uint, some "ix"⟩, ⟨uint, some "iy"⟩, ⟨uint, some "imip"⟩,
       ⟨uint8, some "t"⟩, ⟨uint, some "texfailctrl"⟩, ⟨uint, some "cachepolicy"⟩]
      (some "llvm.amdgcn.image.load.mip.2d.v4f32.i32"),
    FunDecl.mk ["pure"] float4 "__llvm_amdgcn_image_load_mip_3d_v4f32_i32"
      [⟨uint, some "dmask"⟩, ⟨uint, some "ix"⟩, ⟨uint, some "iy"⟩, ⟨uint, some "iz"⟩,
       ⟨uint, some "imip"⟩, ⟨uint8, some "t"⟩, ⟨uint, some "texfailctrl"⟩,
       ⟨uint, some "cachepolicy"⟩]
      (some "llvm.amdgcn.image.load.mip.3d.v4f32.i32"),
    FunDecl.mk ["pure"] float4 "__llvm_amdgcn_image_load_mip_cube_v4f32_i32"
      [⟨uint, some "dmask"⟩, ⟨uint, some "ix"⟩, ⟨uint, some "iy"⟩, ⟨uint, some "iface"⟩,
       ⟨uint, some "imip"⟩, ⟨uint8, some "t"⟩, ⟨uint, some "texfailctrl"⟩,
       ⟨uint, some "cachepolicy"⟩]
      (some "llvm.amdgcn.image.load.mip.cube.v4f32.i32"),
    FunDecl.mk ["pure"] float4 "__llvm_amdgcn_image_load_mip_1darray_v4f32_i32"
      [⟨uint, some "dmask"⟩, ⟨uint, some "ix"⟩, ⟨uint, some "islice"⟩, ⟨uint, some "imip"⟩,
       ⟨uint8, some "t"⟩, ⟨uint, some "texfailctrl"⟩, ⟨uint, some "cachepolicy"⟩]
      (some "llvm.amdgcn.image.load.mip.1darray.v4f32.i32"),
    FunDecl.mk ["pure"] float4 "__llvm_amdgcn_image_load_mip_2darray_v4f32_i32"
      [⟨uint, some "dmask"⟩, ⟨uint, some "ix"⟩, ⟨uint, some "iy"⟩, ⟨uint, some "islice"⟩,
       ⟨uint, some "imip"⟩, ⟨uint8, some "t"⟩, ⟨uint, some "texfailctrl"⟩,
       ⟨uint, some "cachepolicy"⟩]
      (some "llvm.amdgcn.image.load.mip.2darray.v4f32.i32"),
    FunDecl.mk ["pure"] half4 "__llvm_amdgcn_image_load_1d_v4f16_i32"
      [⟨uint, some "dmask"⟩, ⟨uint, some "ix"⟩, ⟨uint8, some "t"⟩, ⟨uint, some "texfailctrl"⟩,
       ⟨uint, some "cachepolicy"⟩]
      (some "llvm.amdgcn.image.load.1d.v4f16.i32"),
    FunDecl.mk ["pure"] half4 "__llvm_amdgcn_image_load_2d_v4f16_i32"
      [⟨uint, some "dmask"⟩, ⟨uint, some "ix"⟩, ⟨uint, some "iy"⟩, ⟨uint8, some "t"⟩,
       ⟨uint, some "texfailctrl"⟩, ⟨uint, some "cachepolicy"⟩]
      (some "llvm.amdgcn.image.load.2d.v4f16.i32"),
    FunDecl.mk ["pure"] half4 "__llvm_amdgcn_image_load_3d_v4f16_i32"
      [⟨uint, some "dmask"⟩, ⟨uint, some "ix"⟩, ⟨uint, some "iy"⟩, ⟨uint, some "iz"⟩,
       ⟨uint8, some "t"⟩, ⟨uint, some "texfailctrl"⟩, ⟨uint, some "cachepolicy"⟩]
      (some "llvm.amdgcn.image.load.3d.v4f16.i32"),
    FunDecl.mk ["pure"] half4 "__llvm_amdgcn_image_load_cube_v4f16_i32"
      [⟨uint, some "dmask"⟩, ⟨uint, some "ix"⟩, ⟨uint, some "iy"⟩, ⟨uint, some "iface"⟩,
       ⟨uint8, some "t"⟩, ⟨uint, some "texfailctrl"⟩, ⟨uint, some "cachepolicy"⟩]
      (some "llvm.amdgcn.image.load.cube.v4f16.i32"),
    FunDecl.mk ["pure"] half4 "__llvm_amdgcn_image_load_1darray_v4f16_i32"
      [⟨uint, some "dmask"⟩, ⟨uint, some "ix"⟩, ⟨uint, some "islice"⟩, ⟨uint8, some "t"⟩,
       ⟨uint, some "texfailctrl"⟩, ⟨uint, some "cachepolicy"⟩]
      (some "llvm.amdgcn.image.load.1darray.v4f16.i32"),
    FunDecl.mk ["pure"] half4 "__llvm_amdgcn_image_load_2darray_v4f16_i32"
      [⟨uint, some "dmask"⟩, ⟨uint, some "ix"⟩, ⟨uint, some "iy"⟩, ⟨uint, some "islice"⟩,
       ⟨uint8, some "t"⟩, ⟨uint, some "texfailctrl"⟩, ⟨uint, some "cachepolicy"⟩]
      (some "llvm.amdgcn.image.load.2darray.v4f16.i32"),
    FunDecl.mk ["pure"] half4 "__llvm_amdgcn_image_load_2dmsaa_v4f16_i32"
      [⟨uint, some "dmask"⟩, ⟨uint, some "ix"⟩, ⟨uint, some "iy"⟩, ⟨uint, some "ifrag"⟩,
       ⟨uint8, some "t"⟩, ⟨uint, some "texfailctrl"⟩, ⟨uint, some "cachepolicy"⟩]
      (some "llvm.amdgcn.image.load.2dmsaa.v4f16.i32"),
    FunDecl.mk ["pure"] half4 "__llvm_amdgcn_image_load_2darraymsaa_v4f16_i32"
      [⟨uint, some "dmask"⟩, ⟨uint, some "ix"⟩, ⟨uint, some "iy"⟩, ⟨uint, some "islice"⟩,
       ⟨uint, some "ifrag"⟩, ⟨uint8, some "t"⟩, ⟨uint, some "texfailctrl"⟩,
       ⟨uint, some "cachepolicy"⟩]
      (some "llvm.amdgcn.image.load.2darraymsaa.v4f16.i32"),
    FunDecl.mk ["pure"] half4 "__llvm_amdgcn_image_load_mip_1d_v4f16_i32"
      [⟨uint, some "dmask"⟩, ⟨uint, some "ix"⟩, ⟨uint, some "imip"⟩, ⟨uint8, some "t"⟩,
       ⟨uint, some "texfailctrl"⟩, ⟨uint, some "cachepolicy"⟩]
      (some "llvm.amdgcn.image.load.mip.1d.v4f16.i32"),
    FunDecl.mk ["pure"] half4 "__llvm_amdgcn_image_load_mip_2d_v4f16_i32"
      [⟨uint, some "dmask"⟩, ⟨uint, some "ix"⟩, ⟨uint, some "iy"⟩, ⟨uint, some "imip"⟩,
       ⟨uint8, some "t"⟩, ⟨uint, some "texfailctrl"⟩, ⟨uint, some "cachepolicy"⟩]
      (some "llvm.amdgcn.image.load.mip.2d.v4f16.i32"),
    FunDecl.mk ["pure"] half4 "__llvm_amdgcn_image_load_mip_3d_v4f16_i32"
      [⟨uint, some "dmask"⟩, ⟨uint, some "ix"⟩, ⟨uint, some "iy"⟩, ⟨uint, some "iz"⟩,
       ⟨uint, some "imip"⟩, ⟨uint8, some "t"⟩, ⟨uint, some "texfailctrl"⟩,
       ⟨uint, some "cachepolicy"⟩]
      (some "llvm.amdgcn.image.load.mip.3d.v4f16.i32"),
    FunDecl.mk ["pure"] half4 "__llvm_amdgcn_image_load_mip_cube_v4f16_i32"
      [⟨uint, some "dmask"⟩, ⟨uint, some "ix"⟩, ⟨uint, some "iy"⟩, ⟨uint, some "iface"⟩,
       ⟨uint, some "imip"⟩, ⟨uint8, some "t"⟩, ⟨uint, some "texfailctrl"⟩,
       ⟨uint, some "cachepolicy"⟩]
      (some "llvm.amdgcn.image.load.mip.cube.v4f16.i32"),
    FunDecl.mk ["pure"] half4 "__llvm_amdgcn_image_load_mip_1darray_v4f16_i32"
      [⟨uint, some "dmask"⟩, ⟨uint, some "ix"⟩, ⟨uint, some "islice"⟩, ⟨uint, some "imip"⟩,
       ⟨uint8, some "t"⟩, ⟨uint, some "texfailctrl"⟩, ⟨uint, some "cachepolicy"⟩]
      (some "llvm.amdgcn.image.load.mip.1darray.v4f16.i32"),
    FunDecl.mk ["pure"] half4 "__llvm_amdgcn_image_load_mip_2darray_v4f16_i32"
      [⟨uint, some "dmask"⟩, ⟨uint, some "ix"⟩, ⟨uint, some "iy"⟩, ⟨uint, some "islice"⟩,
       ⟨uint, some "imip"⟩, ⟨uint8, some "t"⟩, ⟨uint, some "texfailctrl"⟩,
       ⟨uint, some "cachepolicy"⟩]
      (some "llvm.amdgcn.image.load.mip.2darray.v4f16.i32"),
    FunDecl.mk ["pure"] float "__llvm_amdgcn_image_load_1d_f32_i32"
      [⟨uint, some "dmask"⟩, ⟨uint, some "ix"⟩, ⟨uint8, some "t"⟩, ⟨uint, some "texfailctrl"⟩,
       ⟨uint, some "cachepolicy"⟩]
      (some "llvm.amdgcn.image.load.1d.f32.i32"),
    FunDecl.mk ["pure"] float "__llvm_amdgcn_image_load_2d_f32_i32"
      [⟨uint, some "dmask"⟩, ⟨uint, some "ix"⟩, ⟨uint, some "iy"⟩, ⟨uint8, some "t"⟩,
       ⟨uint, some "texfailctrl"⟩, ⟨uint, some "cachepolicy"⟩]
      (some "llvm.amdgcn.image.load.2d.f32.i32"),
    FunDecl.mk ["pure"] float "__llvm_amdgcn_image_load_3d_f32_i32"
      [⟨uint, some "dmask"⟩, ⟨uint, some "ix"⟩, ⟨uint, some "iy"⟩, ⟨uint, some "iz"⟩,
       ⟨uint8, some "t"⟩, ⟨uint, some "texfailctrl"⟩, ⟨uint, some "cachepolicy"⟩]
      (some "llvm.amdgcn.image.load.3d.f32.i32"),
    FunDecl.mk ["pure"] float "__llvm_amdgcn_image_load_cube_f32_i32"
      [⟨uint, some "dmask"⟩, ⟨uint, some "ix"⟩, ⟨uint, some "iy"⟩, ⟨uint, some "iface"⟩,
       ⟨uint8, some "t"⟩, ⟨uint, some "texfailctrl"⟩, ⟨uint, some "cachepolicy"⟩]
      (some "llvm.amdgcn.image.load.cube.f32.i32"),
    FunDecl.mk ["pure"] float "__llvm_amdgcn_image_load_1darray_f32_i32"
      [⟨uint, some "dmask"⟩, ⟨uint, some "ix"⟩, ⟨uint, some "islice"⟩, ⟨uint8, some "t"⟩,
       ⟨uint, some "texfailctrl"⟩, ⟨uint, some "cachepolicy"⟩]
      (some "llvm.amdgcn.image.load.1darray.f32.i32"),
    FunDecl.mk ["pure"] float "__llvm_amdgcn_image_load_2darray_f32_i32"
      [⟨uint, some "dmask"⟩, ⟨uint, some "ix"⟩, ⟨uint, some "iy"⟩, ⟨uint, some "islice"⟩,
       ⟨uint8, some "t"⟩, ⟨uint, some "texfailctrl"⟩, ⟨uint, some "cachepolicy"⟩]
      (some "llvm.amdgcn.image.load.2darray.f32.i32"),
    FunDecl.mk ["pure"] float "__llvm_amdgcn_image_load_2dmsaa_f32_i32"
      [⟨uint, some "dmask"⟩, ⟨uint, some "ix"⟩, ⟨uint, some "iy"⟩, ⟨uint, some "ifrag"⟩,
       ⟨uint8, some "t"⟩, ⟨uint, some "texfailctrl"⟩, ⟨uint, some "cachepolicy"⟩]
      (some "llvm.amdgcn.image.load.2dmsaa.f32.i32"),
    FunDecl.mk ["pure"] float "__llvm_amdgcn_image_load_2darraymsaa_f32_i32"
      [⟨uint, some "dmask"⟩, ⟨uint, some "ix"⟩, ⟨uint, some "iy"⟩, ⟨uint, some "islice"⟩,
       ⟨uint, some "ifrag"⟩, ⟨uint8, some "t"⟩, ⟨uint, some "texfailctrl"⟩,
       ⟨uint, some "cachepolicy"⟩]
      (some "llvm.amdgcn.image.load.2darraymsaa.f32.i32"),
    FunDecl.mk ["pure"] float "__llvm_amdgcn_image_load_mip_1d_f32_i32"
      [⟨uint, some "dmask"⟩, ⟨uint, some "ix"⟩, ⟨uint, some "imip"⟩, ⟨uint8, some "t"⟩,
       ⟨uint, some "texfailctrl"⟩, ⟨uint, some "cachepolicy"⟩]
      (some "llvm.amdgcn.image.load.mip.1d.f32.i32"),
    FunDecl.mk ["pure"] float "__llvm_amdgcn_image_load_mip_2d_f32_i32"
      [⟨uint, some "dmask"⟩, ⟨uint, some "ix"⟩, ⟨uint, some "iy"⟩, ⟨uint, some "imip"⟩,
       ⟨uint8, some "t"⟩, ⟨uint, some "texfailctrl"⟩, ⟨uint, some "cachepolicy"⟩]
      (some "llvm.amdgcn.image.load.mip.2d.f32.i32"),
    FunDecl.mk ["pure"] float "__llvm_amdgcn_image_load_mip_3d_f32_i32"
      [⟨uint, some "dmask"⟩, ⟨uint, some "ix"⟩, ⟨uint, some "iy"⟩, ⟨uint, some "iz"⟩,
       ⟨uint, some "imip"⟩, ⟨uint8, some "t"⟩, ⟨uint, some "texfailctrl"⟩,
       ⟨uint, some "cachepolicy"⟩]
      (some "llvm.amdgcn.image.load.mip.3d.f32.i32"),
    FunDecl.mk ["pure"] float "__llvm_amdgcn_image_load_mip_cube_f32_i32"
      [⟨uint, some "dmask"⟩, ⟨uint, some "ix"⟩, ⟨uint, some "iy"⟩, ⟨uint, some "iface"⟩,
       ⟨uint, some "imip"⟩, ⟨uint8, some "t"⟩, ⟨uint, some "texfailctrl"⟩,
       ⟨uint, some "cachepolicy"⟩]
      (some "llvm.amdgcn.image.load.mip.cube.f32.i32"),
    FunDecl.mk ["pure"] float "__llvm_amdgcn_image_load_mip_1darray_f32_i32"
      [⟨uint, some "dmask"⟩, ⟨uint, some "ix"⟩, ⟨uint, some "islice"⟩, ⟨uint, some "imip"⟩,
       ⟨uint8, some "t"⟩, ⟨uint, some "texfailctrl"⟩, ⟨uint, some "cachepolicy"⟩]
      (some "llvm.amdgcn.image.load.mip.1darray.f32.i32"),
    FunDecl.mk ["pure"] float "__llvm_amdgcn_image_load_mip_2darray_f32_i32"
      [⟨uint, some "dmask"⟩, ⟨uint, some "ix"⟩, ⟨uint, some "iy"⟩, ⟨uint, some "islice"⟩,
       ⟨uint, some "imip"⟩, ⟨uint8, some "t"⟩, ⟨uint, some "texfailctrl"⟩,
       ⟨uint, some "cachepolicy"⟩]
      (some "llvm.amdgcn.image.load.mip.2darray.f32.i32") ]

/-- The declarations of `irif.h` under `// Image load, store, sample, gather`: the `image_store` declarations (lines 424-467), in source
order. -/
def imageStore : List FunDecl :=
  [ FunDecl.mk [] .void "__llvm_amdgcn_image_store_1d_v4f32_i32"
      [⟨float4, some "pix"⟩, ⟨uint, some "dmask"⟩, ⟨uint, some "ix"⟩, ⟨uint8, some "t"⟩,
       ⟨uint, some "texfailctrl"⟩, ⟨uint, some "cachepolicy"⟩]
      (some "llvm.amdgcn.image.store.1d.v4f32.i32"),
    FunDecl.mk [] .void "__llvm_amdgcn_image_store_2d_v4f32_i32"
      [⟨float4, some "pix"⟩, ⟨uint, some "dmask"⟩, ⟨uint, some "ix"⟩, ⟨uint, some "iy"⟩,
       ⟨uint8, some "t"⟩, ⟨uint, some "texfailctrl"⟩, ⟨uint, some "cachepolicy"⟩]
      (some "llvm.amdgcn.image.store.2d.v4f32.i32"),
    FunDecl.mk [] .void "__llvm_amdgcn_image_store_3d_v4f32_i32"
      [⟨float4, some "pix"⟩, ⟨uint, some "dmask"⟩, ⟨uint, some "ix"⟩, ⟨uint, some "iy"⟩,
       ⟨uint, some "iz"⟩, ⟨uint8, some "t"⟩, ⟨uint, some "texfailctrl"⟩,
       ⟨uint, some "cachepolicy"⟩]
      (some "llvm.amdgcn.image.store.3d.v4f32.i32"),
    FunDecl.mk [] .void "__llvm_amdgcn_image_store_cube_v4f32_i32"
      [⟨float4, some "pix"⟩, ⟨uint, some "dmask"⟩, ⟨uint, some "ix"⟩, ⟨uint, some "iy"⟩,
       ⟨uint, some "iface"⟩, ⟨uint8, some "t"⟩, ⟨uint, some "texfailctrl"⟩,
       ⟨uint, some "cachepolicy"⟩]
      (some "llvm.amdgcn.image.store.cube.v4f32.i32"),
    FunDecl.mk [] .void "__llvm_amdgcn_image_store_1darray_v4f32_i32"
      [⟨float4, some "pix"⟩, ⟨uint, some "dmask"⟩, ⟨uint, some "ix"⟩, ⟨uint, some "islice"⟩,
       ⟨uint8, some "t"⟩, ⟨uint, some "texfailctrl"⟩, ⟨uint, some "cachepolicy"⟩]
      (some "llvm.amdgcn.image.store.1darray.v4f32.i32"),
    FunDecl.mk [] .void "__llvm_amdgcn_image_store_2darray_v4f32_i32"
      [⟨float4, some "pix"⟩, ⟨uint, some "dmask"⟩, ⟨uint, some "ix"⟩, ⟨uint, some "iy"⟩,
       ⟨uint, some "islice"⟩, ⟨uint8, some "t"⟩, ⟨uint, some "texfailctrl"⟩,
       ⟨uint, some "cachepolicy"⟩]
      (some "llvm.amdgcn.image.store.2darray.v4f32.i32"),
    FunDecl.mk [] .void "__llvm_amdgcn_image_store_2dmsaa_v4f32_i32"
      [⟨float4, some "pix"⟩, ⟨uint, some "dmask"⟩, ⟨uint, some "ix"⟩, ⟨uint, some "iy"⟩,
       ⟨uint, some "ifrag"⟩, ⟨uint8, some "t"⟩, ⟨uint, some "texfailctrl"⟩,
       ⟨uint, some "cachepolicy"⟩]
      (some "llvm.amdgcn.image.store.2dmsaa.v4f32.i32"),
    FunDecl.mk [] .void "__llvm_amdgcn_image_store_2darraymsaa_v4f32_i32"
      [⟨float4, some "pix"⟩, ⟨uint, some "dmask"⟩, ⟨uint, some "ix"⟩, ⟨uint, some "iy"⟩,
       ⟨uint, some "islice"⟩, ⟨uint, some "ifrag"⟩, ⟨uint8, some "t"⟩,
       ⟨uint, some "texfailctrl"⟩, ⟨uint, some "cachepolicy"⟩]
      (some "llvm.amdgcn.image.store.2darraymsaa.v4f32.i32"),
    FunDecl.mk [] .void "__llvm_amdgcn_image_store_mip_1d_v4f32_i32"
      [⟨float4, some "pix"⟩, ⟨uint, some "dmask"⟩, ⟨uint, some "ix"⟩, ⟨uint, some "imip"⟩,
       ⟨uint8, some "t"⟩, ⟨uint, some "texfailctrl"⟩, ⟨uint, some "cachepolicy"⟩]
      (some "llvm.amdgcn.image.store.mip.1d.v4f32.i32"),
    FunDecl.mk [] .void "__llvm_amdgcn_image_store_mip_2d_v4f32_i32"
      [⟨float4, some "pix"⟩, ⟨uint, some "dmask"⟩, ⟨uint, some "ix"⟩, ⟨uint, some "iy"⟩,
       ⟨uint, some "imip"⟩, ⟨uint8, some "t"⟩, ⟨uint, some "texfailctrl"⟩,
       ⟨uint, some "cachepolicy"⟩]
      (some "llvm.amdgcn.image.store.mip.2d.v4f32.i32"),
    FunDecl.mk [] .void "__llvm_amdgcn_image_store_mip_3d_v4f32_i32"
      [⟨float4, some "pix"⟩, ⟨uint, some "dmask"⟩, ⟨uint, some "ix"⟩, ⟨uint, some "iy"⟩,
       ⟨uint, some "iz"⟩, ⟨uint, some "imip"⟩, ⟨uint8, some "t"⟩, ⟨uint, some "texfailctrl"⟩,
       ⟨uint, some "cachepolicy"⟩]
      (some "llvm.amdgcn.image.store.mip.3d.v4f32.i32"),
    FunDecl.mk [] .void "__llvm_amdgcn_image_store_mip_cube_v4f32_i32"
      [⟨float4, some "pix"⟩, ⟨uint, some "dmask"⟩, ⟨uint, some "ix"⟩, ⟨uint, some "iy"⟩,
       ⟨uint, some "iface"⟩, ⟨uint, some "imip"⟩, ⟨uint8, some "t"⟩, ⟨uint, some "texfailctrl"⟩,
       ⟨uint, some "cachepolicy"⟩]
      (some "llvm.amdgcn.image.store.mip.cube.v4f32.i32"),
    FunDecl.mk [] .void "__llvm_amdgcn_image_store_mip_1darray_v4f32_i32"
      [⟨float4, some "pix"⟩, ⟨uint, some "dmask"⟩, ⟨uint, some "ix"⟩, ⟨uint, some "islice"⟩,
       ⟨uint, some "imip"⟩, ⟨uint8, some "t"⟩, ⟨uint, some "texfailctrl"⟩,
       ⟨uint, some "cachepolicy"⟩]
      (some "llvm.amdgcn.image.store.mip.1darray.v4f32.i32"),
    FunDecl.mk [] .void "__llvm_amdgcn_image_store_mip_2darray_v4f32_i32"
      [⟨float4, some "pix"⟩, ⟨uint, some "dmask"⟩, ⟨uint, some "ix"⟩, ⟨uint, some "iy"⟩,
       ⟨uint, some "islice"⟩, ⟨uint, some "imip"⟩, ⟨uint8, some "t"⟩, ⟨uint, some "texfailctrl"⟩,
       ⟨uint, some "cachepolicy"⟩]
      (some "llvm.amdgcn.image.store.mip.2darray.v4f32.i32"),
    FunDecl.mk [] .void "__llvm_amdgcn_image_store_1d_v4f16_i32"
      [⟨half4, some "pix"⟩, ⟨uint, some "dmask"⟩, ⟨uint, some "ix"⟩, ⟨uint8, some "t"⟩,
       ⟨uint, some "texfailctrl"⟩, ⟨uint, some "cachepolicy"⟩]
      (some "llvm.amdgcn.image.store.1d.v4f16.i32"),
    FunDecl.mk [] .void "__llvm_amdgcn_image_store_2d_v4f16_i32"
      [⟨half4, some "pix"⟩, ⟨uint, some "dmask"⟩, ⟨uint, some "ix"⟩, ⟨uint, some "iy"⟩,
       ⟨uint8, some "t"⟩, ⟨uint, some "texfailctrl"⟩, ⟨uint, some "cachepolicy"⟩]
      (some "llvm.amdgcn.image.store.2d.v4f16.i32"),
    FunDecl.mk [] .void "__llvm_amdgcn_image_store_3d_v4f16_i32"
      [⟨half4, some "pix"⟩, ⟨uint, some "dmask"⟩, ⟨uint, some "ix"⟩, ⟨uint, some "iy"⟩,
       ⟨uint, some "iz"⟩, ⟨uint8, some "t"⟩, ⟨uint, some "texfailctrl"⟩,
       ⟨uint, some "cachepolicy"⟩]
      (some "llvm.amdgcn.image.store.3d.v4f16.i32"),
    FunDecl.mk [] .void "__llvm_amdgcn_image_store_cube_v4f16_i32"
      [⟨half4, some "pix"⟩, ⟨uint, some "dmask"⟩, ⟨uint, some "ix"⟩, ⟨uint, some "iy"⟩,
       ⟨uint, some "iface"⟩, ⟨uint8, some "t"⟩, ⟨uint, some "texfailctrl"⟩,
       ⟨uint, some "cachepolicy"⟩]
      (some "llvm.amdgcn.image.store.cube.v4f16.i32"),
    FunDecl.mk [] .void "__llvm_amdgcn_image_store_1darray_v4f16_i32"
      [⟨half4, some "pix"⟩, ⟨uint, some "dmask"⟩, ⟨uint, some "ix"⟩, ⟨uint, some "islice"⟩,
       ⟨uint8, some "t"⟩, ⟨uint, some "texfailctrl"⟩, ⟨uint, some "cachepolicy"⟩]
      (some "llvm.amdgcn.image.store.1darray.v4f16.i32"),
    FunDecl.mk [] .void "__llvm_amdgcn_image_store_2darray_v4f16_i32"
      [⟨half4, some "pix"⟩, ⟨uint, some "dmask"⟩, ⟨uint, some "ix"⟩, ⟨uint, some "iy"⟩,
       ⟨uint, some "islice"⟩, ⟨uint8, some "t"⟩, ⟨uint, some "texfailctrl"⟩,
       ⟨uint, some "cachepolicy"⟩]
      (some "llvm.amdgcn.image.store.2darray.v4f16.i32"),
    FunDecl.mk [] .void "__llvm_amdgcn_image_store_2dmsaa_v4f16_i32"
      [⟨half4, some "pix"⟩, ⟨uint, some "dmask"⟩, ⟨uint, some "ix"⟩, ⟨uint, some "iy"⟩,
       ⟨uint, some "ifrag"⟩, ⟨uint8, some "t"⟩, ⟨uint, some "texfailctrl"⟩,
       ⟨uint, some "cachepolicy"⟩]
      (some "llvm.amdgcn.image.store.2dmsaa.v4f16.i32"),
    FunDecl.mk [] .void "__llvm_amdgcn_image_store_2darraymsaa_v4f16_i32"
      [⟨half4, some "pix"⟩, ⟨uint, some "dmask"⟩, ⟨uint, some "ix"⟩, ⟨uint, some "iy"⟩,
       ⟨uint, some "islice"⟩, ⟨uint, some "ifrag"⟩, ⟨uint8, some "t"⟩,
       ⟨uint, some "texfailctrl"⟩, ⟨uint, some "cachepolicy"⟩]
      (some "llvm.amdgcn.image.store.2darraymsaa.v4f16.i32"),
    FunDecl.mk [] .void "__llvm_amdgcn_image_store_mip_1d_v4f16_i32"
      [⟨half4, some "pix"⟩, ⟨uint, some "dmask"⟩, ⟨uint, some "ix"⟩, ⟨uint, some "imip"⟩,
       ⟨uint8, some "t"⟩, ⟨uint, some "texfailctrl"⟩, ⟨uint, some "cachepolicy"⟩]
      (some "llvm.amdgcn.image.store.mip.1d.v4f16.i32"),
    FunDecl.mk [] .void "__llvm_amdgcn_image_store_mip_2d_v4f16_i32"
      [⟨half4, some "pix"⟩, ⟨uint, some "dmask"⟩, ⟨uint, some "ix"⟩, ⟨uint, some "iy"⟩,
       ⟨uint, some "imip"⟩, ⟨uint8, some "t"⟩, ⟨uint, some "texfailctrl"⟩,
       ⟨uint, some "cachepolicy"⟩]
      (some "llvm.amdgcn.image.store.mip.2d.v4f16.i32"),
    FunDecl.mk [] .void "__llvm_amdgcn_image_store_mip_3d_v4f16_i32"
      [⟨half4, some "pix"⟩, ⟨uint, some "dmask"⟩, ⟨uint, some "ix"⟩, ⟨uint, some "iy"⟩,
       ⟨uint, some "iz"⟩, ⟨uint, some "imip"⟩, ⟨uint8, some "t"⟩, ⟨uint, some "texfailctrl"⟩,
       ⟨uint, some "cachepolicy"⟩]
      (some "llvm.amdgcn.image.store.mip.3d.v4f16.i32"),
    FunDecl.mk [] .void "__llvm_amdgcn_image_store_mip_cube_v4f16_i32"
      [⟨half4, some "pix"⟩, ⟨uint, some "dmask"⟩, ⟨uint, some "ix"⟩, ⟨uint, some "iy"⟩,
       ⟨uint, some "iface"⟩, ⟨uint, some "imip"⟩, ⟨uint8, some "t"⟩, ⟨uint, some "texfailctrl"⟩,
       ⟨uint, some "cachepolicy"⟩]
      (some "llvm.amdgcn.image.store.mip.cube.v4f16.i32"),
    FunDecl.mk [] .void "__llvm_amdgcn_image_store_mip_1darray_v4f16_i32"
      [⟨half4, some "pix"⟩, ⟨uint, some "dmask"⟩, ⟨uint, some "ix"⟩, ⟨uint, some "islice"⟩,
       ⟨uint, some "imip"⟩, ⟨uint8, some "t"⟩, ⟨uint, some "texfailctrl"⟩,
       ⟨uint, some "cachepolicy"⟩]
      (some "llvm.amdgcn.image.store.mip.1darray.v4f16.i32"),
    FunDecl.mk [] .void "__llvm_amdgcn_image_store_mip_2darray_v4f16_i32"
      [⟨half4, some "pix"⟩, ⟨uint, some "dmask"⟩, ⟨uint, some "ix"⟩, ⟨uint, some "iy"⟩,
       ⟨uint, some "islice"⟩, ⟨uint, some "imip"⟩, ⟨uint8, some "t"⟩, ⟨uint, some "texfailctrl"⟩,
       ⟨uint, some "cachepolicy"⟩]
      (some "llvm.amdgcn.image.store.mip.2darray.v4f16.i32"),
    FunDecl.mk [] .void "__llvm_amdgcn_image_store_1d_f32_i32"
      [⟨float, some "pix"⟩, ⟨uint, some "dmask"⟩, ⟨uint, some "ix"⟩, ⟨uint8, some "t"⟩,
       ⟨uint, some "texfailctrl"⟩, ⟨uint, some "cachepolicy"⟩]
      (some "llvm.amdgcn.image.store.1d.f32.i32"),
    FunDecl.mk [] .void "__llvm_amdgcn_image_store_2d_f32_i32"
      [⟨float, some "pix"⟩, ⟨uint, some "dmask"⟩, ⟨uint, some "ix"⟩, ⟨uint, some "iy"⟩,
       ⟨uint8, some "t"⟩, ⟨uint, some "texfailctrl"⟩, ⟨uint, some "cachepolicy"⟩]
      (some "llvm.amdgcn.image.store.2d.f32.i32"),
    FunDecl.mk [] .void "__llvm_amdgcn_image_store_3d_f32_i32"
      [⟨float, some "pix"⟩, ⟨uint, some "dmask"⟩, ⟨uint, some "ix"⟩, ⟨uint, some "iy"⟩,
       ⟨uint, some "iz"⟩, ⟨uint8, some "t"⟩, ⟨uint, some "texfailctrl"⟩,
       ⟨uint, some "cachepolicy"⟩]
      (some "llvm.amdgcn.image.store.3d.f32.i32"),
    FunDecl.mk [] .void "__llvm_amdgcn_image_store_cube_f32_i32"
      [⟨float, some "pix"⟩, ⟨uint, some "dmask"⟩, ⟨uint, some "ix"⟩, ⟨uint, some "iy"⟩,
       ⟨uint, some "iface"⟩, ⟨uint8, some "t"⟩, ⟨uint, some "texfailctrl"⟩,
       ⟨uint, some "cachepolicy"⟩]
      (some "llvm.amdgcn.image.store.cube.f32.i32"),
    FunDecl.mk [] .void "__llvm_amdgcn_image_store_1darray_f32_i32"
      [⟨float, some "pix"⟩, ⟨uint, some "dmask"⟩, ⟨uint, some "ix"⟩, ⟨uint, some "islice"⟩,
       ⟨uint8, some "t"⟩, ⟨uint, some "texfailctrl"⟩, ⟨uint, some "cachepolicy"⟩]
      (some "llvm.amdgcn.image.store.1darray.f32.i32"),
    FunDecl.mk [] .void "__llvm_amdgcn_image_store_2darray_f32_i32"
      [⟨float, some "pix"⟩, ⟨uint, some "dmask"⟩, ⟨uint, some "ix"⟩, ⟨uint, some "iy"⟩,
       ⟨uint, some "islice"⟩, ⟨uint8, some "t"⟩, ⟨uint, some "texfailctrl"⟩,
       ⟨uint, some "cachepolicy"⟩]
      (some "llvm.amdgcn.image.store.2darray.f32.i32"),
    FunDecl.mk [] .void "__llvm_amdgcn_image_store_2dmsaa_f32_i32"
      [⟨float, some "pix"⟩, ⟨uint, some "dmask"⟩, ⟨uint, some "ix"⟩, ⟨uint, some "iy"⟩,
       ⟨uint, some "ifrag"⟩, ⟨uint8, some "t"⟩, ⟨uint, some "texfailctrl"⟩,
       ⟨uint, some "cachepolicy"⟩]
      (some "llvm.amdgcn.image.store.2dmsaa.f32.i32"),
    FunDecl.mk [] .void "__llvm_amdgcn_image_store_2darraymsaa_f32_i32"
      [⟨float, some "pix"⟩, ⟨uint, some "dmask"⟩, ⟨uint, some "ix"⟩, ⟨uint, some "iy"⟩,
       ⟨uint, some "islice"⟩, ⟨uint, some "ifrag"⟩, ⟨uint8, some "t"⟩,
       ⟨uint, some "texfailctrl"⟩, ⟨uint, some "cachepolicy"⟩]
      (some "llvm.amdgcn.image.store.2darraymsaa.f32.i32"),
    FunDecl.mk [] .void "__llvm_amdgcn_image_store_mip_1d_f32_i32"
      [⟨float, some "pix"⟩, ⟨uint, some "dmask"⟩, ⟨uint, some "ix"⟩, ⟨uint, some "imip"⟩,
       ⟨uint8, some "t"⟩, ⟨uint, some "texfailctrl"⟩, ⟨uint, some "cachepolicy"⟩]
      (some "llvm.amdgcn.image.store.mip.1d.f32.i32"),
    FunDecl.mk [] .void "__llvm_amdgcn_image_store_mip_2d_f32_i32"
      [⟨float, some "pix"⟩, ⟨uint, some "dmask"⟩, ⟨uint, some "ix"⟩, ⟨uint, some "iy"⟩,
       ⟨uint, some "imip"⟩, ⟨uint8, some "t"⟩, ⟨uint, some "texfailctrl"⟩,
       ⟨uint, some "cachepolicy"⟩]
      (some "llvm.amdgcn.image.store.mip.2d.f32.i32"),
    FunDecl.mk [] .void "__llvm_amdgcn_image_store_mip_3d_f32_i32"
      [⟨float, some "pix"⟩, ⟨uint, some "dmask"⟩, ⟨uint, some "ix"⟩, ⟨uint, some "iy"⟩,
       ⟨uint, some "iz"⟩, ⟨uint, some "imip"⟩, ⟨uint8, some "t"⟩, ⟨uint, some "texfailctrl"⟩,
       ⟨uint, some "cachepolicy"⟩]
      (some "llvm.amdgcn.image.store.mip.3d.f32.i32"),
    FunDecl.mk [] .void "__llvm_amdgcn_image_store_mip_cube_f32_i32"
      [⟨float, some "pix"⟩, ⟨uint, some "dmask"⟩, ⟨uint, some "ix"⟩, ⟨uint, some "iy"⟩,
       ⟨uint, some "iface"⟩, ⟨uint, some "imip"⟩, ⟨uint8, some "t"⟩, ⟨uint, some "texfailctrl"⟩,
       ⟨uint, some "cachepolicy"⟩]
      (some "llvm.amdgcn.image.store.mip.cube.f32.i32"),
    FunDecl.mk [] .void "__llvm_amdgcn_image_store_mip_1darray_f32_i32"
      [⟨float, some "pix"⟩, ⟨uint, some "dmask"⟩, ⟨uint, some "ix"⟩, ⟨uint, some "islice"⟩,
       ⟨uint, some "imip"⟩, ⟨uint8, some "t"⟩, ⟨uint, some "texfailctrl"⟩,
       ⟨uint, some "cachepolicy"⟩]
      (some "llvm.amdgcn.image.store.mip.1darray.f32.i32"),
    FunDecl.mk [] .void "__llvm_amdgcn_image_store_mip_2darray_f32_i32"
      [⟨float, some "pix"⟩, ⟨uint, some "dmask"⟩, ⟨uint, some "ix"⟩, ⟨uint, some "iy"⟩,
       ⟨uint, some "islice"⟩, ⟨uint, some "imip"⟩, ⟨uint8, some "t"⟩, ⟨uint, some "texfailctrl"⟩,
       ⟨uint, some "cachepolicy"⟩]
      (some "llvm.amdgcn.image.store.mip.2darray.f32.i32") ]

/-- The declarations of `irif.h` under `// Image load, store, sample, gather`: the `image_sample` declarations (lines 469-524), in source
order. -/
def imageSample : List FunDecl :=
  [ FunDecl.mk ["pure"] float4 "__llvm_amdgcn_image_sample_lz_1d_v4f32_f32"
      [⟨uint, some "dmask"⟩, ⟨float, some "x"⟩, ⟨uint8, some "t"⟩, ⟨uint4, some "s"⟩,
       ⟨bool, some "unorm"⟩, ⟨uint, some "texfailctrl"⟩, ⟨uint, some "cachepolicy"⟩]
      (some "llvm.amdgcn.image.sample.lz.1d.v4f32.f32"),
    FunDecl.mk ["pure"] float4 "__llvm_amdgcn_image_sample_l_1d_v4f32_f32"
      [⟨uint, some "dmask"⟩, ⟨float, some "x"⟩, ⟨float, some "lod"⟩, ⟨uint8, some "t"⟩,
       ⟨uint4, some "s"⟩, ⟨bool, some "unorm"⟩, ⟨uint, some "texfailctrl"⟩,
       ⟨uint, some "cachepolicy"⟩]
      (some "llvm.amdgcn.image.sample.l.1d.v4f32.f32"),
    FunDecl.mk ["pure"] float4 "__llvm_amdgcn_image_sample_d_1d_v4f32_f32_f32"
      [⟨uint, some "dmask"⟩, ⟨float, some "dxdh"⟩, ⟨float, some "dxdv"⟩, ⟨float, some "x"⟩,
       ⟨uint8, some "t"⟩, ⟨uint4, some "s"⟩, ⟨bool, some "unorm"⟩, ⟨uint, some "texfailctrl"⟩,
       ⟨uint, some "cachepolicy"⟩]
      (some "llvm.amdgcn.image.sample.d.1d.v4f32.f32.f32"),
    FunDecl.mk ["pure"] float4 "__llvm_amdgcn_image_sample_lz_2d_v4f32_f32"
      [⟨uint, some "dmask"⟩, ⟨float, some "x"⟩, ⟨float, some "y"⟩, ⟨uint8, some "t"⟩,
       ⟨uint4, some "s"⟩, ⟨bool, some "unorm"⟩, ⟨uint, some "texfailctrl"⟩,
       ⟨uint, some "cachepolicy"⟩]
      (some "llvm.amdgcn.image.sample.lz.2d.v4f32.f32"),
    FunDecl.mk ["pure"] float4 "__llvm_amdgcn_image_sample_l_2d_v4f32_f32"
      [⟨uint, some "dmask"⟩, ⟨float, some "x"⟩, ⟨float, some "y"⟩, ⟨float, some "lod"⟩,
       ⟨uint8, some "t"⟩, ⟨uint4, some "s"⟩, ⟨bool, some "unorm"⟩, ⟨uint, some "texfailctrl"⟩,
       ⟨uint, some "cachepolicy"⟩]
      (some "llvm.amdgcn.image.sample.l.2d.v4f32.f32"),
    FunDecl.mk ["pure"] float4 "__llvm_amdgcn_image_sample_d_2d_v4f32_f32_f32"
      [⟨uint, some "dmask"⟩, ⟨float, some "dxdh"⟩, ⟨float, some "dydh"⟩, ⟨float, some "dxdv"⟩,
       ⟨float, some "dydv"⟩, ⟨float, some "x"⟩, ⟨float, some "y"⟩, ⟨uint8, some "t"⟩,
       ⟨uint4, some "s"⟩, ⟨bool, some "unorm"⟩, ⟨uint, some "texfailctrl"⟩,
       ⟨uint, some "cachepolicy"⟩]
      (some "llvm.amdgcn.image.sample.d.2d.v4f32.f32.f32"),
    FunDecl.mk ["pure"] float4 "__llvm_amdgcn_image_sample_lz_3d_v4f32_f32"
      [⟨uint, some "dmask"⟩, ⟨float, some "x"⟩, ⟨float, some "y"⟩, ⟨float, some "z"⟩,
       ⟨uint8, some "t"⟩, ⟨uint4, some "s"⟩, ⟨bool, some "unorm"⟩, ⟨uint, some "texfailctrl"⟩,
       ⟨uint, some "cachepolicy"⟩]
      (some "llvm.amdgcn.image.sample.lz.3d.v4f32.f32"),
    FunDecl.mk ["pure"] float4 "__llvm_amdgcn_image_sample_l_3d_v4f32_f32"
      [⟨uint, some "dmask"⟩, ⟨float, some "x"⟩, ⟨float, some "y"⟩, ⟨float, some "z"⟩,
       ⟨float, some "lod"⟩, ⟨uint8, some "t"⟩, ⟨uint4, some "s"⟩, ⟨bool, some "unorm"⟩,
       ⟨uint, some "texfailctrl"⟩, ⟨uint, some "cachepolicy"⟩]
      (some "llvm.amdgcn.image.sample.l.3d.v4f32.f32"),
    FunDecl.mk ["pure"] float4 "__llvm_amdgcn_image_sample_d_3d_v4f32_f32_f32"
      [⟨uint, some "dmask"⟩, ⟨float, some "dxdh"⟩, ⟨float, some "dydh"⟩, ⟨float, some "dzdh"⟩,
       ⟨float, some "dxdv"⟩, ⟨float, some "dydv"⟩, ⟨float, some "dzdv"⟩, ⟨float, some "x"⟩,
       ⟨float, some "y"⟩, ⟨float, some "z"⟩, ⟨uint8, some "t"⟩, ⟨uint4, some "s"⟩,
       ⟨bool, some "unorm"⟩, ⟨uint, some "texfailctrl"⟩, ⟨uint, some "cachepolicy"⟩]
      (some "llvm.amdgcn.image.sample.d.3d.v4f32.f32.f32"),
    FunDecl.mk ["pure"] float4 "__llvm_amdgcn_image_sample_lz_cube_v4f32_f32"
      [⟨uint, some "dmask"⟩, ⟨float, some "x"⟩, ⟨float, some "y"⟩, ⟨float, some "face"⟩,
       ⟨uint8, some "t"⟩, ⟨uint4, some "s"⟩, ⟨bool, some "unorm"⟩, ⟨uint, some "texfailctrl"⟩,
       ⟨uint, some "cachepolicy"⟩]
      (some "llvm.amdgcn.image.sample.lz.cube.v4f32.f32"),
    FunDecl.mk ["pure"] float4 "__llvm_amdgcn_image_sample_l_cube_v4f32_f32"
      [⟨uint, some "dmask"⟩, ⟨float, some "x"⟩, ⟨float, some "y"⟩, ⟨float, some "face"⟩,
       ⟨float, some "lod"⟩, ⟨uint8, some "t"⟩, ⟨uint4, some "s"⟩, ⟨bool, some "unorm"⟩,
       ⟨uint, some "texfailctrl"⟩, ⟨uint, some "cachepolicy"⟩]
      (some "llvm.amdgcn.image.sample.l.cube.v4f32.f32"),
    FunDecl.mk ["pure"] float4 "__llvm_amdgcn_image_sample_d_cube_v4f32_f32_f32"
      [⟨uint, some "dmask"⟩, ⟨float, some "dxdh"⟩, ⟨float, some "dydh"⟩, ⟨float, some "dxdv"⟩,
       ⟨float, some "dydv"⟩, ⟨float, some "x"⟩, ⟨float, some "y"⟩, ⟨float, some "face"⟩,
       ⟨uint8, some "t"⟩, ⟨uint4, some "s"⟩, ⟨bool, some "unorm"⟩, ⟨uint, some "texfailctrl"⟩,
       ⟨uint, some "cachepolicy"⟩]
      (some "llvm.amdgcn.image.sample.d.cube.v4f32.f32.f32"),
    FunDecl.mk ["pure"] float4 "__llvm_amdgcn_image_sample_lz_1darray_v4f32_f32"
      [⟨uint, some "dmask"⟩, ⟨float, some "x"⟩, ⟨float, some "slice"⟩, ⟨uint8, some "t"⟩,
       ⟨uint4, some "s"⟩, ⟨bool, some "unorm"⟩, ⟨uint, some "texfailctrl"⟩,
       ⟨uint, some "cachepolicy"⟩]
      (some "llvm.amdgcn.image.sample.lz.1darray.v4f32.f32"),
    FunDecl.mk ["pure"] float4 "__llvm_amdgcn_image_sample_l_1darray_v4f32_f32"
      [⟨uint, some "dmask"⟩, ⟨float, some "x"⟩, ⟨float, some "slice"⟩, ⟨float, some "lod"⟩,
       ⟨uint8, some "t"⟩, ⟨uint4, some "s"⟩, ⟨bool, some "unorm"⟩, ⟨uint, some "texfailctrl"⟩,
       ⟨uint, some "cachepolicy"⟩]
      (some "llvm.amdgcn.image.sample.l.1darray.v4f32.f32"),
    FunDecl.mk ["pure"] float4 "__llvm_amdgcn_image_sample_d_1darray_v4f32_f32_f32"
      [⟨uint, some "dmask"⟩, ⟨float, some "dxdh"⟩, ⟨float, some "dxdv"⟩, ⟨float, some "x"⟩,
       ⟨float, some "slice"⟩, ⟨uint8, some "t"⟩, ⟨uint4, some "s"⟩, ⟨bool, some "unorm"⟩,
       ⟨uint, some "texfailctrl"⟩, ⟨uint, some "cachepolicy"⟩]
      (some "llvm.amdgcn.image.sample.d.1darray.v4f32.f32.f32"),
    FunDecl.mk ["pure"] float4 "__llvm_amdgcn_image_sample_lz_2darray_v4f32_f32"
      [⟨uint, some "dmask"⟩, ⟨float, some "x"⟩, ⟨float, some "y"⟩, ⟨float, some "slice"⟩,
       ⟨uint8, some "t"⟩, ⟨uint4, some "s"⟩, ⟨bool, some "unorm"⟩, ⟨uint, some "texfailctrl"⟩,
       ⟨uint, some "cachepolicy"⟩]
      (some "llvm.amdgcn.image.sample.lz.2darray.v4f32.f32"),
    FunDecl.mk ["pure"] float4 "__llvm_amdgcn_image_sample_l_2darray_v4f32_f32"
      [⟨uint, some "dmask"⟩, ⟨float, some "x"⟩, ⟨float, some "y"⟩, ⟨float, some "slice"⟩,
       ⟨float, some "lod"⟩, ⟨uint8, some "t"⟩, ⟨uint4, some "s"⟩, ⟨bool, some "unorm"⟩,
       ⟨uint, some "texfailctrl"⟩, ⟨uint, some "cachepolicy"⟩]
      (some "llvm.amdgcn.image.sample.l.2darray.v4f32.f32"),
    FunDecl.mk ["pure"] float4 "__llvm_amdgcn_image_sample_d_2darray_v4f32_f32_f32"
      [⟨uint, some "dmask"⟩, ⟨float, some "dxdh"⟩, ⟨float, some "dydh"⟩, ⟨float, some "dxdv"⟩,
       ⟨float, some "dydv"⟩, ⟨float, some "x"⟩, ⟨float, some "y"⟩, ⟨float, some "slice"⟩,
       ⟨uint8, some "t"⟩, ⟨uint4, some "s"⟩, ⟨bool, some "unorm"⟩, ⟨uint, some "texfailctrl"⟩,
       ⟨uint, some "cachepolicy"⟩]
      (some "llvm.amdgcn.image.sample.d.2darray.v4f32.f32.f32"),
    FunDecl.mk ["pure"] half4 "__llvm_amdgcn_image_sample_lz_1d_v4f16_f32"
      [⟨uint, some "dmask"⟩, ⟨float, some "x"⟩, ⟨uint8, some "t"⟩, ⟨uint4, some "s"⟩,
       ⟨bool, some "unorm"⟩, ⟨uint, some "texfailctrl"⟩, ⟨uint, some "cachepolicy"⟩]
      (some "llvm.amdgcn.image.sample.lz.1d.v4f16.f32"),
    FunDecl.mk ["pure"] half4 "__llvm_amdgcn_image_sample_l_1d_v4f16_f32"
      [⟨uint, some "dmask"⟩, ⟨float, some "x"⟩, ⟨float, some "lod"⟩, ⟨uint8, some "t"⟩,
       ⟨uint4, some "s"⟩, ⟨bool, some "unorm"⟩, ⟨uint, some "texfailctrl"⟩,
       ⟨uint, some "cachepolicy"⟩]
      (some "llvm.amdgcn.image.sample.l.1d.v4f16.f32"),
    FunDecl.mk ["pure"] half4 "__llvm_amdgcn_image_sample_d_1d_v4f16_f32_f32"
      [⟨uint, some "dmask"⟩, ⟨float, some "dxdh"⟩, ⟨float, some "dxdv"⟩, ⟨float, some "x"⟩,
       ⟨uint8, some "t"⟩, ⟨uint4, some "s"⟩, ⟨bool, some "unorm"⟩, ⟨uint, some "texfailctrl"⟩,
       ⟨uint, some "cachepolicy"⟩]
      (some "llvm.amdgcn.image.sample.d.1d.v4f16.f32.f32"),
    FunDecl.mk ["pure"] half4 "__llvm_amdgcn_image_sample_lz_2d_v4f16_f32"
      [⟨uint, some "dmask"⟩, ⟨float, some "x"⟩, ⟨float, some "y"⟩, ⟨uint8, some "t"⟩,
       ⟨uint4, some "s"⟩, ⟨bool, some "unorm"⟩, ⟨uint, some "texfailctrl"⟩,
       ⟨uint, some "cachepolicy"⟩]
      (some "llvm.amdgcn.image.sample.lz.2d.v4f16.f32"),
    FunDecl.mk ["pure"] half4 "__llvm_amdgcn_image_sample_l_2d_v4f16_f32"
      [⟨uint, some "dmask"⟩, ⟨float, some "x"⟩, ⟨float, some "y"⟩, ⟨float, some "lod"⟩,
       ⟨uint8, some "t"⟩, ⟨uint4, some "s"⟩, ⟨bool, some "unorm"⟩, ⟨uint, some "texfailctrl"⟩,
       ⟨uint, some "cachepolicy"⟩]
      (some "llvm.amdgcn.image.sample.l.2d.v4f16.f32"),
    FunDecl.mk ["pure"] half4 "__llvm_amdgcn_image_sample_d_2d_v4f16_f32_f32"
      [⟨uint, some "dmask"⟩, ⟨float, some "dxdh"⟩, ⟨float, some "dydh"⟩, ⟨float, some "dxdv"⟩,
       ⟨float, some "dydv"⟩, ⟨float, some "x"⟩, ⟨float, some "y"⟩, ⟨uint8, some "t"⟩,
       ⟨uint4, some "s"⟩, ⟨bool, some "unorm"⟩, ⟨uint, some "texfailctrl"⟩,
       ⟨uint, some "cachepolicy"⟩]
      (some "llvm.amdgcn.image.sample.d.2d.v4f16.f32.f32"),
    FunDecl.mk ["pure"] half4 "__llvm_amdgcn_image_sample_lz_3d_v4f16_f32"
      [⟨uint, some "dmask"⟩, ⟨float, some "x"⟩, ⟨float, some "y"⟩, ⟨float, some "z"⟩,
       ⟨uint8, some "t"⟩, ⟨uint4, some "s"⟩, ⟨bool, some "unorm"⟩, ⟨uint, some "texfailctrl"⟩,
       ⟨uint, some "cachepolicy"⟩]
      (some "llvm.amdgcn.image.sample.lz.3d.v4f16.f32"),
    FunDecl.mk ["pure"] half4 "__llvm_amdgcn_image_sample_l_3d_v4f16_f32"
      [⟨uint, some "dmask"⟩, ⟨float, some "x"⟩, ⟨float, some "y"⟩, ⟨float, some "z"⟩,
       ⟨float, some "lod"⟩, ⟨uint8, some "t"⟩, ⟨uint4, some "s"⟩, ⟨bool, some "unorm"⟩,
       ⟨uint, some "texfailctrl"⟩, ⟨uint, some "cachepolicy"⟩]
      (some "llvm.amdgcn.image.sample.l.3d.v4f16.f32"),
    FunDecl.mk ["pure"] half4 "__llvm_amdgcn_image_sample_d_3d_v4f16_f32_f32"
      [⟨uint, some "dmask"⟩, ⟨float, some "dxdh"⟩, ⟨float, some "dydh"⟩, ⟨float, some "dzdh"⟩,
       ⟨float, some "dxdv"⟩, ⟨float, some "dydv"⟩, ⟨float, some "dzdv"⟩, ⟨float, some "x"⟩,
       ⟨float, some "y"⟩, ⟨float, some "z"⟩, ⟨uint8, some "t"⟩, ⟨uint4, some "s"⟩,
       ⟨bool, some "unorm"⟩, ⟨uint, some "texfailctrl"⟩, ⟨uint, some "cachepolicy"⟩]
      (some "llvm.amdgcn.image.sample.d.3d.v4f16.f32.f32"),
    FunDecl.mk ["pure"] half4 "__llvm_amdgcn_image_sample_lz_cube_v4f16_f32"
      [⟨uint, some "dmask"⟩, ⟨float, some "x"⟩, ⟨float, some "y"⟩, ⟨float, some "face"⟩,
       ⟨uint8, some "t"⟩, ⟨uint4, some "s"⟩, ⟨bool, some "unorm"⟩, ⟨uint, some "texfailctrl"⟩,
       ⟨uint, some "cachepolicy"⟩]
      (some "llvm.amdgcn.image.sample.lz.cube.v4f16.f32"),
    FunDecl.mk ["pure"] half4 "__llvm_amdgcn_image_sample_l_cube_v4f16_f32"
      [⟨uint, some "dmask"⟩, ⟨float, some "x"⟩, ⟨float, some "y"⟩, ⟨float, some "face"⟩,
       ⟨float, some "lod"⟩, ⟨uint8, some "t"⟩, ⟨uint4, some "s"⟩, ⟨bool, some "unorm"⟩,
       ⟨uint, some "texfailctrl"⟩, ⟨uint, some "cachepolicy"⟩]
      (some "llvm.amdgcn.image.sample.l.cube.v4f16.f32"),
    FunDecl.mk ["pure"] half4 "__llvm_amdgcn_image_sample_d_cube_v4f16_f32_f32"
      [⟨uint, some "dmask"⟩, ⟨float, some "dxdh"⟩, ⟨float, some "dydh"⟩, ⟨float, some "dxdv"⟩,
       ⟨float, some "dydv"⟩, ⟨float, some "x"⟩, ⟨float, some "y"⟩, ⟨float, some "face"⟩,
       ⟨uint8, some "t"⟩, ⟨uint4, some "s"⟩, ⟨bool, some "unorm"⟩, ⟨uint, some "texfailctrl"⟩,
       ⟨uint, some "cachepolicy"⟩]
      (some "llvm.amdgcn.image.sample.d.cube.v4f16.f32.f32"),
    FunDecl.mk ["pure"] half4 "__llvm_amdgcn_image_sample_lz_1darray_v4f16_f32"
      [⟨uint, some "dmask"⟩, ⟨float, some "x"⟩, ⟨float, some "slice"⟩, ⟨uint8, some "t"⟩,
       ⟨uint4, some "s"⟩, ⟨bool, some "unorm"⟩, ⟨uint, some "texfailctrl"⟩,
       ⟨uint, some "cachepolicy"⟩]
      (some "llvm.amdgcn.image.sample.lz.1darray.v4f16.f32"),
    FunDecl.mk ["pure"] half4 "__llvm_amdgcn_image_sample_l_1darray_v4f16_f32"
      [⟨uint, some "dmask"⟩, ⟨float, some "x"⟩, ⟨float, some "slice"⟩, ⟨float, some "lod"⟩,
       ⟨uint8, some "t"⟩, ⟨uint4, some "s"⟩, ⟨bool, some "unorm"⟩, ⟨uint, some "texfailctrl"⟩,
       ⟨uint, some "cachepolicy"⟩]
      (some "llvm.amdgcn.image.sample.l.1darray.v4f16.f32"),
    FunDecl.mk ["pure"] half4 "__llvm_amdgcn_image_sample_d_1darray_v4f16_f32_f32"
      [⟨uint, some "dmask"⟩, ⟨float, some "dxdh"⟩, ⟨float, some "dxdv"⟩, ⟨float, some "x"⟩,
       ⟨float, some "slice"⟩, ⟨uint8, some "t"⟩, ⟨uint4, some "s"⟩, ⟨bool, some "unorm"⟩,
       ⟨uint, some "texfailctrl"⟩, ⟨uint, some "cachepolicy"⟩]
      (some "llvm.amdgcn.image.sample.d.1darray.v4f16.f32.f32"),
    FunDecl.mk ["pure"] half4 "__llvm_amdgcn_image_sample_lz_2darray_v4f16_f32"
      [⟨uint, some "dmask"⟩, ⟨float, some "x"⟩, ⟨float, some "y"⟩, ⟨float, some "slice"⟩,
       ⟨uint8, some "t"⟩, ⟨uint4, some "s"⟩, ⟨bool, some "unorm"⟩, ⟨uint, some "texfailctrl"⟩,
       ⟨uint, some "cachepolicy"⟩]
      (some "llvm.amdgcn.image.sample.lz.2darray.v4f16.f32"),
    FunDecl.mk ["pure"] half4 "__llvm_amdgcn_image_sample_l_2darray_v4f16_f32"
      [⟨uint, some "dmask"⟩, ⟨float, some "x"⟩, ⟨float, some "y"⟩, ⟨float, some "slice"⟩,
       ⟨float, some "lod"⟩, ⟨uint8, some "t"⟩, ⟨uint4, some "s"⟩, ⟨bool, some "unorm"⟩,
       ⟨uint, some "texfailctrl"⟩, ⟨uint, some "cachepolicy"⟩]
      (some "llvm.amdgcn.image.sample.l.2darray.v4f16.f32"),
    FunDecl.mk ["pure"] half4 "__llvm_amdgcn_image_sample_d_2darray_v4f16_f32_f32"
      [⟨uint, some "dmask"⟩, ⟨float, some "dxdh"⟩, ⟨float, some "dydh"⟩, ⟨float, some "dxdv"⟩,
       ⟨float, some "dydv"⟩, ⟨float, some "x"⟩, ⟨float, some "y"⟩, ⟨float, some "slice"⟩,
       ⟨uint8, some "t"⟩, ⟨uint4, some "s"⟩, ⟨bool, some "unorm"⟩, ⟨uint, some "texfailctrl"⟩,
       ⟨uint, some "cachepolicy"⟩]
      (some "llvm.amdgcn.image.sample.d.2darray.v4f16.f32.f32"),
    FunDecl.mk ["pure"] float "__llvm_amdgcn_image_sample_lz_1d_f32_f32"
      [⟨uint, some "dmask"⟩, ⟨float, some "x"⟩, ⟨uint8, some "t"⟩, ⟨uint4, some "s"⟩,
       ⟨bool, some "unorm"⟩, ⟨uint, some "texfailctrl"⟩, ⟨uint, some "cachepolicy"⟩]
      (some "llvm.amdgcn.image.sample.lz.1d.f32.f32"),
    FunDecl.mk ["pure"] float "__llvm_amdgcn_image_sample_l_1d_f32_f32"
      [⟨uint, some "dmask"⟩, ⟨float, some "x"⟩, ⟨float, some "lod"⟩, ⟨uint8, some "t"⟩,
       ⟨uint4, some "s"⟩, ⟨bool, some "unorm"⟩, ⟨uint, some "texfailctrl"⟩,
       ⟨uint, some "cachepolicy"⟩]
      (some "llvm.amdgcn.image.sample.l.1d.f32.f32"),
    FunDecl.mk ["pure"] float "__llvm_amdgcn_image_sample_d_1d_f32_f32_f32"
      [⟨uint, some "dmask"⟩, ⟨float, some "dxdh"⟩, ⟨float, some "dxdv"⟩, ⟨float, some "x"⟩,
       ⟨uint8, some "t"⟩, ⟨uint4, some "s"⟩, ⟨bool, some "unorm"⟩, ⟨uint, some "texfailctrl"⟩,
       ⟨uint, some "cachepolicy"⟩]
      (some "llvm.amdgcn.image.sample.d.1d.f32.f32.f32"),
    FunDecl.mk ["pure"] float "__llvm_amdgcn_image_sample_lz_2d_f32_f32"
      [⟨uint, some "dmask"⟩, ⟨float, some "x"⟩, ⟨float, some "y"⟩, ⟨uint8, some "t"⟩,
       ⟨uint4, some "s"⟩, ⟨bool, some "unorm"⟩, ⟨uint, some "texfailctrl"⟩,
       ⟨uint, some "cachepolicy"⟩]
      (some "llvm.amdgcn.image.sample.lz.2d.f32.f32"),
    FunDecl.mk ["pure"] float "__llvm_amdgcn_image_sample_l_2d_f32_f32"
      [⟨uint, some "dmask"⟩, ⟨float, some "x"⟩, ⟨float, some "y"⟩, ⟨float, some "lod"⟩,
       ⟨uint8, some "t"⟩, ⟨uint4, some "s"⟩, ⟨bool, some "unorm"⟩, ⟨uint, some "texfailctrl"⟩,
       ⟨uint, some "cachepolicy"⟩]
      (some "llvm.amdgcn.image.sample.l.2d.f32.f32"),
    FunDecl.mk ["pure"] float "__llvm_amdgcn_image_sample_d_2d_f32_f32_f32"
      [⟨uint, some "dmask"⟩, ⟨float, some "dxdh"⟩, ⟨float, some "dydh"⟩, ⟨float, some "dxdv"⟩,
       ⟨float, some "dydv"⟩, ⟨float, some "x"⟩, ⟨float, some "y"⟩, ⟨uint8, some "t"⟩,
       ⟨uint4, some "s"⟩, ⟨bool, some "unorm"⟩, ⟨uint, some "texfailctrl"⟩,
       ⟨uint, some "cachepolicy"⟩]
      (some "llvm.amdgcn.image.sample.d.2d.f32.f32.f32"),
    FunDecl.mk ["pure"] float "__llvm_amdgcn_image_sample_lz_3d_f32_f32"
      [⟨uint, some "dmask"⟩, ⟨float, some "x"⟩, ⟨float, some "y"⟩, ⟨float, some "z"⟩,
       ⟨uint8, some "t"⟩, ⟨uint4, some "s"⟩, ⟨bool, some "unorm"⟩, ⟨uint, some "texfailctrl"⟩,
       ⟨uint, some "cachepolicy"⟩]
      (some "llvm.amdgcn.image.sample.lz.3d.f32.f32"),
    FunDecl.mk ["pure"] float "__llvm_amdgcn_image_sample_l_3d_f32_f32"
      [⟨uint, some "dmask"⟩, ⟨float, some "x"⟩, ⟨float, some "y"⟩, ⟨float, some "z"⟩,
       ⟨float, some "lod"⟩, ⟨uint8, some "t"⟩, ⟨uint4, some "s"⟩, ⟨bool, some "unorm"⟩,
       ⟨uint, some "texfailctrl"⟩, ⟨uint, some "cachepolicy"⟩]
      (some "llvm.amdgcn.image.sample.l.3d.f32.f32"),
    FunDecl.mk ["pure"] float "__llvm_amdgcn_image_sample_d_3d_f32_f32_f32"
      [⟨uint, some "dmask"⟩, ⟨float, some "dxdh"⟩, ⟨float, some "dydh"⟩, ⟨float, some "dzdh"⟩,
       ⟨float, some "dxdv"⟩, ⟨float, some "dydv"⟩, ⟨float, some "dzdv"⟩, ⟨float, some "x"⟩,
       ⟨float, some "y"⟩, ⟨float, some "z"⟩, ⟨uint8, some "t"⟩, ⟨uint4, some "s"⟩,
       ⟨bool, some "unorm"⟩, ⟨uint, some "texfailctrl"⟩, ⟨uint, some "cachepolicy"⟩]
      (some "llvm.amdgcn.image.sample.d.3d.f32.f32.f32"),
    FunDecl.mk ["pure"] float "__llvm_amdgcn_image_sample_lz_cube_f32_f32"
      [⟨uint, some "dmask"⟩, ⟨float, some "x"⟩, ⟨float, some "y"⟩, ⟨float, some "face"⟩,
       ⟨uint8, some "t"⟩, ⟨uint4, some "s"⟩, ⟨bool, some "unorm"⟩, ⟨uint, some "texfailctrl"⟩,
       ⟨uint, some "cachepolicy"⟩]
      (some "llvm.amdgcn.image.sample.lz.cube.f32.f32"),
    FunDecl.mk ["pure"] float "__llvm_amdgcn_image_sample_l_cube_f32_f32"
      [⟨uint, some "dmask"⟩, ⟨float, some "x"⟩, ⟨float, some "y"⟩, ⟨float, some "face"⟩,
       ⟨float, some "lod"⟩, ⟨uint8, some "t"⟩, ⟨uint4, some "s"⟩, ⟨bool, some "unorm"⟩,
       ⟨uint, some "texfailctrl"⟩, ⟨uint, some "cachepolicy"⟩]
      (some "llvm.amdgcn.image.sample.l.cube.f32.f32"),
    FunDecl.mk ["pure"] float "__llvm_amdgcn_image_sample_d_cube_f32_f32_f32"
      [⟨uint, some "dmask"⟩, ⟨float, some "dxdh"⟩, ⟨float, some "dydh"⟩, ⟨float, some "dxdv"⟩,
       ⟨float, some "dydv"⟩, ⟨float, some "x"⟩, ⟨float, some "y"⟩, ⟨float, some "face"⟩,
       ⟨uint8, some "t"⟩, ⟨uint4, some "s"⟩, ⟨bool, some "unorm"⟩, ⟨uint, some "texfailctrl"⟩,
       ⟨uint, some "cachepolicy"⟩]
      (some "llvm.amdgcn.image.sample.d.cube.f32.f32.f32"),
    FunDecl.mk ["pure"] float "__llvm_amdgcn_image_sample_lz_1darray_f32_f32"
      [⟨uint, some "dmask"⟩, ⟨float, some "x"⟩, ⟨float, some "slice"⟩, ⟨uint8, some "t"⟩,
       ⟨uint4, some "s"⟩, ⟨bool, some "unorm"⟩, ⟨uint, some "texfailctrl"⟩,
       ⟨uint, some "cachepolicy"⟩]
      (some "llvm.amdgcn.image.sample.lz.1darray.f32.f32"),
    FunDecl.mk ["pure"] float "__llvm_amdgcn_image_sample_l_1darray_f32_f32"
      [⟨uint, some "dmask"⟩, ⟨float, some "x"⟩, ⟨float, some "slice"⟩, ⟨float, some "lod"⟩,
       ⟨uint8, some "t"⟩, ⟨uint4, some "s"⟩, ⟨bool, some "unorm"⟩, ⟨uint, some "texfailctrl"⟩,
       ⟨uint, some "cachepolicy"⟩]
      (some "llvm.amdgcn.image.sample.l.1darray.f32.f32"),
    FunDecl.mk ["pure"] float "__llvm_amdgcn_image_sample_d_1darray_f32_f32_f32"
      [⟨uint, some "dmask"⟩, ⟨float, some "dxdh"⟩, ⟨float, some "dxdv"⟩, ⟨float, some "x"⟩,
       ⟨float, some "slice"⟩, ⟨uint8, some "t"⟩, ⟨uint4, some "s"⟩, ⟨bool, some "unorm"⟩,
       ⟨uint, some "texfailctrl"⟩, ⟨uint, some "cachepolicy"⟩]
      (some "llvm.amdgcn.image.sample.d.1darray.f32.f32.f32"),
    FunDecl.mk ["pure"] float "__llvm_amdgcn_image_sample_lz_2darray_f32_f32"
      [⟨uint, some "dmask"⟩, ⟨float, some "x"⟩, ⟨float, some "y"⟩, ⟨float, some "slice"⟩,
       ⟨uint8, some "t"⟩, ⟨uint4, some "s"⟩, ⟨bool, some "unorm"⟩, ⟨uint, some "texfailctrl"⟩,
       ⟨uint, some "cachepolicy"⟩]
      (some "llvm.amdgcn.image.sample.lz.2darray.f32.f32"),
    FunDecl.mk ["pure"] float "__llvm_amdgcn_image_sample_l_2darray_f32_f32"
      [⟨uint, some "dmask"⟩, ⟨float, some "x"⟩, ⟨float, some "y"⟩, ⟨float, some "slice"⟩,
       ⟨float, some "lod"⟩, ⟨uint8, some "t"⟩, ⟨uint4, some "s"⟩, ⟨bool, some "unorm"⟩,
       ⟨uint, some "texfailctrl"⟩, ⟨uint, some "cachepolicy"⟩]
      (some "llvm.amdgcn.image.sample.l.2darray.f32.f32"),
    FunDecl.mk ["pure"] float "__llvm_amdgcn_image_sample_d_2darray_f32_f32_f32"
      [⟨uint, some "dmask"⟩, ⟨float, some "dxdh"⟩, ⟨float, some "dydh"⟩, ⟨float, some "dxdv"⟩,
       ⟨float, some "dydv"⟩, ⟨float, some "x"⟩, ⟨float, some "y"⟩, ⟨float, some "slice"⟩,
       ⟨uint8, some "t"⟩, ⟨uint4, some "s"⟩, ⟨bool, some "unorm"⟩, ⟨uint, some "texfailctrl"⟩,
       ⟨uint, some "cachepolicy"⟩]
      (some "llvm.amdgcn.image.sample.d.2darray.f32.f32.f32") ]

/-- The declarations of `irif.h` under `// Image load, store, sample, gather`: the gather declarations (lines 526-535), in source
order. -/
def imageGather : List FunDecl :=
  [ FunDecl.mk ["pure"] float4 "__llvm_amdgcn_image_gather4_lz_2d_v4f32_f32"
      [⟨uint, some "dmask"⟩, ⟨float, some "x"⟩, ⟨float, some "y"⟩, ⟨uint8, some "t"⟩,
       ⟨uint4, some "s"⟩, ⟨bool, some "unorm"⟩, ⟨uint, some "texfailctrl"⟩,
       ⟨uint, some "cachepolicy"⟩]
      (some "llvm.amdgcn.image.gather4.lz.2d.v4f32.f32"),
    FunDecl.mk ["pure"] float4 "__llvm_amdgcn_image_gather4_l_2d_v4f32_f32"
      [⟨uint, some "dmask"⟩, ⟨float, some "x"⟩, ⟨float, some "y"⟩, ⟨float, some "lod"⟩,
       ⟨uint8, some "t"⟩, ⟨uint4, some "s"⟩, ⟨bool, some "unorm"⟩, ⟨uint, some "texfailctrl"⟩,
       ⟨uint, some "cachepolicy"⟩]
      (some "llvm.image.amdgcn.gather4.l.2d.v4f32.f32"),
    FunDecl.mk ["pure"] float4 "__llvm_amdgcn_image_gather4_lz_cube_v4f32_f32"
      [⟨uint, some "dmask"⟩, ⟨float, some "x"⟩, ⟨float, some "y"⟩, ⟨float, some "face"⟩,
       ⟨uint8, some "t"⟩, ⟨uint4, some "s"⟩, ⟨bool, some "unorm"⟩, ⟨uint, some "texfailctrl"⟩,
       ⟨uint, some "cachepolicy"⟩]
      (some "llvm.amdgcn.image.gather4.lz.cube.v4f32.f32"),
    FunDecl.mk ["pure"] float4 "__llvm_amdgcn_image_gather4_l_cube_v4f32_f32"
      [⟨uint, some "dmask"⟩, ⟨float, some "x"⟩, ⟨float, some "y"⟩, ⟨float, some "face"⟩,
       ⟨float, some "lod"⟩, ⟨uint8, some "t"⟩, ⟨uint4, some "s"⟩, ⟨bool, some "unorm"⟩,
       ⟨uint, some "texfailctrl"⟩, ⟨uint, some "cachepolicy"⟩]
      (some "llvm.amdgcn.image.gather4.l.cube.v4f32.f32"),
    FunDecl.mk ["pure"] float4 "__llvm_amdgcn_image_gather4_lz_2darray_v4f32_f32"
      [⟨uint, some "dmask"⟩, ⟨float, some "x"⟩, ⟨float, some "y"⟩, ⟨float, some "slice"⟩,
       ⟨uint8, some "t"⟩, ⟨uint4, some "s"⟩, ⟨bool, some "unorm"⟩, ⟨uint, some "texfailctrl"⟩,
       ⟨uint, some "cachepolicy"⟩]
      (some "llvm.amdgcn.image.gather4.lz.2darray.v4f32.f32"),
    FunDecl.mk ["pure"] float4 "__llvm_amdgcn_image_gather4_l_2darray_v4f32_f32"
      [⟨uint, some "dmask"⟩, ⟨float, some "x"⟩, ⟨float, some "y"⟩, ⟨float, some "slice"⟩,
       ⟨float, some "lod"⟩, ⟨uint8, some "t"⟩, ⟨uint4, some "s"⟩, ⟨bool, some "unorm"⟩,
       ⟨uint, some "texfailctrl"⟩, ⟨uint, some "cachepolicy"⟩]
      (some "llvm.amdgcn.image.gather4.l.2darray.v4f32.f32"),
    FunDecl.mk ["pure"] float4 "__llvm_amdgcn_gather_4h_2d_v4f32_f32"
      [⟨uint, some "dmask"⟩, ⟨float, some "x"⟩, ⟨float, some "y"⟩, ⟨uint8, some "t"⟩,
       ⟨uint4, some "s"⟩, ⟨bool, some "unorm"⟩, ⟨uint, some "texfailctrl"⟩,
       ⟨uint, some "cachepolicy"⟩]
      (some "llvm.amdgcn.image.gather.4h.2d.v4f32.f32"),
    FunDecl.mk ["pure"] float4 "__llvm_amdgcn_gather_4h_cube_v4f32_f32"
      [⟨uint, some "dmask"⟩, ⟨float, some "x"⟩, ⟨float, some "y"⟩, ⟨float, some "face"⟩,
       ⟨uint8, some "t"⟩, ⟨uint4, some "s"⟩, ⟨bool, some "unorm"⟩, ⟨uint, some "texfailctrl"⟩,
       ⟨uint, some "cachepolicy"⟩]
      (some "llvm.image.amdgcn.gather.4h.cube.v4f32.f32"),
    FunDecl.mk ["pure"] float4 "__llvm_amdgcn_gather_4h_2darray_v4f32_f32"
      [⟨uint, some "dmask"⟩, ⟨float, some "x"⟩, ⟨float, some "y"⟩, ⟨float, some "slice"⟩,
       ⟨uint8, some "t"⟩, ⟨uint4, some "s"⟩, ⟨bool, some "unorm"⟩, ⟨uint, some "texfailctrl"⟩,
       ⟨uint, some "cachepolicy"⟩]
      (some "llvm.image.amdgcn.gather.4h.2darray.v4f32.f32") ]

/-- All declarations of `irif.h`, in source order. -/
def irif : List FunDecl :=
  genericIntrinsics ++ wrappingIntrinsics ++ fenceIntrinsics ++ atomics ++ constrainedFloatingPoint ++ amdgpuIntrinsics ++
    bufferLoadStore ++ imageLoad ++ imageStore ++ imageSample ++ imageGather

/-! ## Proof devices for the declaration tables -/

/-- A numeric key of a string: its characters read as digits, reduced modulo 19221.  The
modulus is chosen so that the keys of the C names of `irif.h` are pairwise distinct, and
likewise the keys of its `__asm` labels. -/
def nameKey (s : String) : Nat :=
  s.data.foldl (fun n c => n * 1114112 + c.toNat + 1) 0 % 19221

/-- Marks the elements of a list one by one in a bit set, starting from the marks in
`acc`; fails as soon as an element is already marked. -/
def distinctBits : Nat → List Nat → Bool
  | _, [] => true
  | acc, r :: rs =>
    if Nat.land acc (Nat.shiftLeft 1 r) = 0 then
      distinctBits (Nat.lor acc (Nat.shiftLeft 1 r)) rs
    else false

/-- The components of a C name between underscores. -/
def splitUnderscore : List Char → List (List Char)
  | [] => [[]]
  | c :: cs =>
    match splitUnderscore cs with
    | [] => [[]]
    | w :: ws => if c = '_' then [] :: w :: ws else (c :: w) :: ws

/-- A vector type component `NtT` of a C name: digits, one letter, digits (`2f16`). -/
def isVectorComponent (w : List Char) : Bool :=
  match w.dropWhile Char.isDigit with
  | t :: e =>
    !(w.takeWhile Char.isDigit).isEmpty && t.isAlpha && !e.isEmpty && e.all Char.isDigit
  | [] => false

/-- The mechanical translation of a C name into an intrinsic label: drop the leading
`__llvm_`, prefix `llvm.`, put a dot for every underscore, and write a vector type
component `NtT` as `vNtT`. -/
def mechanicalLabel (name : String) : Option String :=
  if "__llvm_".data.isPrefixOf name.data then
    some (String.mk ("llvm.".data ++ ".".data.intercalate
      ((splitUnderscore (name.data.drop 7)).map
        (fun w => if isVectorComponent w then 'v' :: w else w))))
  else none

/-- The C name lies in the target namespace `__llvm_amdgcn_`. -/
def FunDecl.nameInTargetNamespace (d : FunDecl) : Bool :=
  "__llvm_amdgcn_".data.isPrefixOf d.name.data

/-- The declaration carries an `__asm` label in the target namespace `llvm.amdgcn.`. -/
def FunDecl.labelInTargetNamespace (d : FunDecl) : Bool :=
  match d.asmLabel with
  | some l => "llvm.amdgcn.".data.isPrefixOf l.data
  | none => false

/-- Pointer types. -/
def CType.isPointer : CType → Bool
  | .ptr _ _ => true
  | _ => false

/-- The declaration returns `void` or takes a pointer parameter. -/
def FunDecl.returnsVoidOrTakesPointer (d : FunDecl) : Bool :=
  d.ret == .void || d.params.any (fun p => p.ty.isPointer)

/-- The fence names `__llvm_fence_<ordering>_<scope>` for the orderings `acq`, `rel`,
`ar`, `sc` and the scopes `wi`, `sg`, `wg`, `dev`, `sys`. -/
def fenceNames : List String :=
  ["acq", "rel", "ar", "sc"].flatMap (fun o =>
    ["wi", "sg", "wg", "dev", "sys"].map (fun s => "__llvm_fence_" ++ o ++ "_" ++ s))

/-- The constrained floating-point grid: for each operation with its operand count, each
type suffix with its OpenCL type and each rounding mode, the prototype
`const T __llvm_<op>_<mode>_<type>(T, ...)`. -/
def constrainedGrid : List FunDecl :=
  [("add", 2), ("sub", 2), ("mul", 2), ("div", 2), ("sqrt", 1), ("fma", 3)].flatMap
    (fun op => [("f16", half), ("f32", float), ("f64", double)].flatMap
      (fun t => ["rte", "rtn", "rtp", "rtz"].map
        (fun m => FunDecl.mk ["const"] t.2 ("__llvm_" ++ op.1 ++ "_" ++ m ++ "_" ++ t.1)
          (List.replicate op.2 ⟨t.2, none⟩) none)))

/-- The image dimensionalities of the load and store declarations, mip variants included. -/
def imageDims : List String :=
  ["1d", "2d", "3d", "cube", "1darray", "2darray", "2dmsaa", "2darraymsaa",
   "mip_1d", "mip_2d", "mip_3d", "mip_cube", "mip_1darray", "mip_2darray"]

/-- The pixel type suffixes of the image declarations with their OpenCL types. -/
def pixelTypes : List (String × CType) :=
  [("v4f32", float4), ("v4f16", half4), ("f32", float)]

/-- The names `__llvm_amdgcn_image_load_<dim>_<T>_i32`, with the pixel type each returns. -/
def imageLoadGrid : List (String × CType) :=
  pixelTypes.flatMap (fun t =>
    imageDims.map (fun dim => ("__llvm_amdgcn_image_load_" ++ dim ++ "_" ++ t.1 ++ "_i32", t.2)))

/-- The store declaration mirroring an image load `d`: `load` becomes `store` in name and
label, the result is `void`, and the parameters are one pixel `pix` of the type the load
returns followed by the parameters of the load. -/
def storeOf (d : FunDecl) : FunDecl :=
  { attrs := []
    ret := .void
    name := String.mk ("__llvm_amdgcn_image_store_".data ++ d.name.data.drop 25)
    params := ⟨d.ret, some "pix"⟩ :: d.params
    asmLabel := d.asmLabel.map
      (fun l => String.mk ("llvm.amdgcn.image.store.".data ++ l.data.drop 23)) }

/-- Whether the text `pat` occurs inside `s`. -/
def containsText (pat s : String) : Bool :=
  s.data.tails.any (fun t => pat.data.isPrefixOf t)

/-- Whether `s` ends with the text `pat`. -/
def endsWithText (pat s : String) : Bool :=
  pat.data.isSuffixOf s.data

/-- The pointee type of the first parameter, when that is a pointer. -/
def FunDecl.pointee? (d : FunDecl) : Option CType :=
  match d.params with
  | ⟨.ptr _ t, _⟩ :: _ => some t
  | _ => none

/-- The address space of the first parameter, when that is a pointer. -/
def FunDecl.pointerSpace? (d : FunDecl) : Option AddrSpace :=
  match d.params with
  | ⟨.ptr a _, _⟩ :: _ => some a
  | _ => none

/-- The types of the value operands: the parameters after the pointer. -/
def FunDecl.valueOperands (d : FunDecl) : List CType :=
  d.params.tail.map Param.ty

/-- The atomic names: for each operation (`ld`, `st`, `add`, `and`, `or`, `max`, `umax`,
`min`, `umin`, `cmpxchg`) the four combinations of address space with scope (`a1` with
`dev`, `a3` with `wg`) and width (`i32`, `i64`). -/
def atomicNames : List String :=
  [("__llvm_ld_atomic_", "_x_"), ("__llvm_st_atomic_", "_x_"),
   ("__llvm_atomic_add_", "_x_"), ("__llvm_atomic_and_", "_x_"),
   ("__llvm_atomic_or_", "_x_"), ("__llvm_atomic_max_", "_x_"),
   ("__llvm_atomic_umax_", "_x_"), ("__llvm_atomic_min_", "_x_"),
   ("__llvm_atomic_umin_", "_x_"), ("__llvm_cmpxchg_", "_x_x_")].flatMap
    (fun op => [("a1", "dev"), ("a3", "wg")].flatMap
      (fun sp => ["i32", "i64"].map
        (fun w => op.1 ++ sp.1 ++ op.2 ++ sp.2 ++ "_" ++ w)))

/-- Modelled from the spec: one dispatcher polling cycle over a table of capacity `cap`:
every slot is observed once, in order (the dispatcher loop is not in the header). -/
def pollCycle (cap : Nat) : List Action :=
  (List.range cap).map Action.dispatch

/-- Modelled from the spec: a host-side handler that may fail; `none` is a failure such
as running out of memory while formatting. -/
abbrev FallibleHandler := List Nat → Option ReplyPacket

/-- Modelled from the spec: a handler failure is recovered at the dispatcher and surfaced
to the caller as the sentinel reply, so the guarded handler always produces a reply. -/
def Dispatcher.guarded (d : Dispatcher) (f : FallibleHandler) : Handler :=
  fun args => (f args).getD d.sentinelReply

/-- Modelled from the spec: registration of a fallible handler for the service `sid`. -/
def Dispatcher.register (d : Dispatcher) (sid : Nat) (f : FallibleHandler) : Dispatcher :=
  { d with handlers := fun v => if v = sid then some (d.guarded f) else d.handlers v }

/-- The slot as the dispatcher leaves it after serving: reply written, tag `Completed`. -/
def Dispatcher.completed (d : Dispatcher) (sl : CallSlot) : CallSlot :=
  { sl with reply := d.replyFor sl.packet, state := .Completed }

/-! ## Theorems -/

/-- A call of `__ockl_hostcall_preview` is well typed exactly when it passes a 32-bit
service identifier followed by eight 64-bit words. -/
theorem acceptsCall_preview_iff (sid : Nat) (args : List Nat) :
    acceptsCall __ockl_hostcall_preview (sid :: args) = true ↔
      sid < 2 ^ 32 ∧ args.length = 8 ∧ ∀ a ∈ args, a < 2 ^ 64 := by
  rcases args with _ | ⟨a0, _ | ⟨a1, _ | ⟨a2, _ | ⟨a3, _ | ⟨a4, _ | ⟨a5, _ | ⟨a6, _ | ⟨a7, _ | ⟨a8, r⟩⟩⟩⟩⟩⟩⟩⟩⟩ <;>
    simp [acceptsCall, __ockl_hostcall_preview, uint, ulong, CType.holds]

/-! ### The declared interface -/

/-- C1: the enumeration `__ockl_hostcall_service_id` has exactly three members,
`SERVICE_ID_DEFAULT = 0`, `SERVICE_ID_FUNCTION_CALL = 1` and `SERVICE_ID_PRINTF = 2`,
in that order, and their values are pairwise distinct. -/
theorem service_id_enum_members :
    __ockl_hostcall_service_id.members.length = 3 ∧
    __ockl_hostcall_service_id.members =
      [⟨"SERVICE_ID_DEFAULT", 0⟩, ⟨"SERVICE_ID_FUNCTION_CALL", 1⟩, ⟨"SERVICE_ID_PRINTF", 2⟩] ∧
    SERVICE_ID_DEFAULT = 0 ∧ SERVICE_ID_FUNCTION_CALL = 1 ∧ SERVICE_ID_PRINTF = 2 ∧
    (__ockl_hostcall_service_id.members.map Enumerator.value).Nodup ∧
    (__ockl_hostcall_service_id.members.map Enumerator.name).Nodup := by
  refine ⟨rfl, rfl, rfl, rfl, rfl, ?_, ?_⟩ <;> decide

/-- C2: `__ockl_hostcall_preview` takes one 32-bit unsigned `service_id` followed by the
eight 64-bit unsigned words `arg0` .. `arg7`, and returns a vector of two 64-bit words;
a call is well typed exactly when it passes a 32-bit identifier and eight 64-bit words,
whatever the value of the identifier. -/
theorem hostcall_preview_shape :
    __ockl_hostcall_preview.params.length = 9 ∧
    __ockl_hostcall_preview.params.map Param.ty
      = CType.scalar (.int .unsigned 32) :: List.replicate 8 (CType.scalar (.int .unsigned 64)) ∧
    __ockl_hostcall_preview.params.map Param.name
      = [some "service_id", some "arg0", some "arg1", some "arg2", some "arg3",
         some "arg4", some "arg5", some "arg6", some "arg7"] ∧
    (∃ sg, __ockl_hostcall_preview.ret = CType.vec (.int sg 64) 2) ∧
    __ockl_hostcall_preview.ret.components.length = 2 ∧
    (∀ sid args, acceptsCall __ockl_hostcall_preview (sid :: args) = true ↔
      sid < 2 ^ 32 ∧ args.length = 8 ∧ ∀ a ∈ args, a < 2 ^ 64) ∧
    (∀ sid sid2 args, sid < 2 ^ 32 → sid2 < 2 ^ 32 →
      acceptsCall __ockl_hostcall_preview (sid :: args)
        = acceptsCall __ockl_hostcall_preview (sid2 :: args)) := by
  refine ⟨rfl, rfl, rfl, ⟨.signed, rfl⟩, rfl, acceptsCall_preview_iff, ?_⟩
  intro sid sid2 args h1 h2
  rw [Bool.eq_iff_iff, acceptsCall_preview_iff, acceptsCall_preview_iff]
  exact ⟨fun h => ⟨h2, h.2⟩, fun h => ⟨h1, h.2⟩⟩

/-- C5: a 32-bit value is the value of a member of `__ockl_hostcall_service_id` exactly
when it is below 3; a value of 3 or more is still a well-typed `service_id` argument (the
parameter is the plain `uint`, not the enumeration type) and no enumerator has it. -/
theorem service_id_declared_iff_lt_three (v : Nat) (hv : v < 2 ^ 32) :
    ((∃ m ∈ __ockl_hostcall_service_id.members, m.value = v) ↔ v < 3) ∧
    ((__ockl_hostcall_service_id.memberOfValue v).isSome = true ↔ v < 3) ∧
    (__ockl_hostcall_preview.params.head?.map Param.ty = some uint ∧
      uint ≠ CType.enumTy __ockl_hostcall_service_id.name) ∧
    (3 ≤ v →
      __ockl_hostcall_service_id.memberOfValue v = none ∧
      ∀ args, args.length = 8 → (∀ a ∈ args, a < 2 ^ 64) →
        acceptsCall __ockl_hostcall_preview (v :: args) = true) := by
  have hmem : (∃ m ∈ __ockl_hostcall_service_id.members, m.value = v) ↔ v < 3 := by
    simp only [__ockl_hostcall_service_id, SERVICE_ID_DEFAULT, SERVICE_ID_FUNCTION_CALL,
      SERVICE_ID_PRINTF, List.mem_cons, List.mem_singleton, List.not_mem_nil, or_false]
    constructor
    · rintro ⟨m, hm | hm | hm, rfl⟩ <;> subst hm <;> decide
    · intro h
      interval_cases v
      · exact ⟨_, Or.inl rfl, rfl⟩
      · exact ⟨_, Or.inr (Or.inl rfl), rfl⟩
      · exact ⟨_, Or.inr (Or.inr rfl), rfl⟩
  have hfind : (__ockl_hostcall_service_id.memberOfValue v).isSome = true ↔ v < 3 := by
    rw [← hmem]
    simp [EnumDecl.memberOfValue, List.find?_isSome]
  refine ⟨hmem, hfind, ⟨rfl, by decide⟩, ?_⟩
  intro h3
  refine ⟨?_, ?_⟩
  · have : ¬ (__ockl_hostcall_service_id.memberOfValue v).isSome = true := by
      rw [hfind]; omega
    simpa using this
  · intro args hlen hargs
    exact (acceptsCall_preview_iff v args).2 ⟨hv, hlen, hargs⟩

/-- C5 instance: the value 3 is accepted by the call surface and names no enumerator. -/
theorem service_id_declared_iff_lt_three_witness :
    (3 : Nat) < 2 ^ 32 ∧ __ockl_hostcall_service_id.memberOfValue 3 = none :=
  ⟨by decide, ((service_id_declared_iff_lt_three 3 (by decide)).2.2.2 (by decide)).1⟩

/-- C10 as stated fails: the components of the declared return type are not two unsigned
64-bit integers. -/
theorem hostcall_preview_ret_not_unsigned :
    ¬ (__ockl_hostcall_preview.ret.components
        = [ScalarTy.int .unsigned 64, ScalarTy.int .unsigned 64]) := by
  decide

/-- C10 (amended): the declared return type of `__ockl_hostcall_preview` is `long2`; it has
exactly two components, each a signed 64-bit integer, while every argument word is an
unsigned 64-bit integer. -/
theorem hostcall_preview_ret_signed_pair :
    __ockl_hostcall_preview.ret = long2 ∧
    __ockl_hostcall_preview.ret.components
      = [ScalarTy.int .signed 64, ScalarTy.int .signed 64] ∧
    (∀ p ∈ __ockl_hostcall_preview.params.tail,
      p.ty.components = [ScalarTy.int .unsigned 64]) := by
  refine ⟨rfl, rfl, ?_⟩
  decide

/-! ### Slot table lemmas -/

theorem length_modifySlot (t : SlotTable) (h : Nat) (f : CallSlot → CallSlot) :
    (modifySlot t h f).length = t.length := by
  unfold modifySlot
  split <;> simp

theorem getElem?_modifySlot (t : SlotTable) (h k : Nat) (f : CallSlot → CallSlot) :
    (modifySlot t h f)[k]? = if k = h then (t[k]?).map f else t[k]? := by
  unfold modifySlot
  split
  · rename_i sl hsl
    have hlt : h < t.length := (List.getElem?_eq_some.1 hsl).1
    by_cases hk : k = h
    · subst hk
      simp [hsl, hlt]
    · have hk2 : h ≠ k := fun e => hk e.symm
      simp [hk, List.getElem?_set_ne hk2]
  · rename_i hnone
    by_cases hk : k = h
    · subst hk
      simp [hnone]
    · simp [hk]

theorem getElem?_modifySlot_ne (t : SlotTable) {h k : Nat} (f : CallSlot → CallSlot)
    (hk : k ≠ h) : (modifySlot t h f)[k]? = t[k]? := by
  simp [getElem?_modifySlot, hk]

theorem getElem?_modifySlot_self (t : SlotTable) (h : Nat) (f : CallSlot → CallSlot) :
    (modifySlot t h f)[h]? = (t[h]?).map f := by
  simp [getElem?_modifySlot]

theorem findFree_some {t : SlotTable} {h : Nat} (hf : findFree t = some h) :
    ∃ sl, t[h]? = some sl ∧ sl.state = .Free := by
  induction t generalizing h with
  | nil => simp [findFree] at hf
  | cons sl rest ih =>
    unfold findFree at hf
    split at hf
    · rename_i hfree
      cases hf
      exact ⟨sl, by simp, hfree⟩
    · cases hr : findFree rest with
      | none => simp [hr] at hf
      | some k =>
        simp [hr] at hf
        subst hf
        obtain ⟨sl2, h1, h2⟩ := ih hr
        exact ⟨sl2, by simpa using h1, h2⟩

theorem findFree_eq_none_iff (t : SlotTable) :
    findFree t = none ↔ ∀ sl ∈ t, sl.state ≠ .Free := by
  induction t with
  | nil => simp [findFree]
  | cons sl rest ih =>
    unfold findFree
    by_cases hfree : sl.state = .Free
    · simp [hfree]
    · simp [hfree, ih]

theorem acquire_some {t t1 : SlotTable} {h : Nat} (ha : acquire t = some (h, t1)) :
    (∃ sl, t[h]? = some sl ∧ sl.state = .Free) ∧
      t1 = modifySlot t h (fun sl => { sl with state := .Reserved }) := by
  unfold acquire at ha
  cases hf : findFree t with
  | none => simp [hf] at ha
  | some k =>
    simp [hf] at ha
    obtain ⟨rfl, rfl⟩ := ha
    exact ⟨findFree_some hf, rfl⟩

theorem acquire_eq_none_iff (t : SlotTable) :
    acquire t = none ↔ ∀ sl ∈ t, sl.state ≠ .Free := by
  rw [← findFree_eq_none_iff]
  unfold acquire
  cases findFree t <;> simp
/-! ### The protocol invariant -/

theorem Caller.ok_slot_not_free {d : Dispatcher} {t : SlotTable} {c : Caller} {h : Nat}
    (hok : c.ok d t) (hs : c.slot? = some h) :
    ∃ sl, t[h]? = some sl ∧ sl.state ≠ .Free := by
  cases c <;> simp only [Caller.slot?, Option.some.injEq] at hs <;> try contradiction
  all_goals subst hs
  · obtain ⟨_, sl, h1, h2⟩ := hok
    exact ⟨sl, h1, by simp [h2]⟩
  · obtain ⟨_, sl, h1, h2, _⟩ := hok
    exact ⟨sl, h1, by simp [h2]⟩
  · obtain ⟨_, sl, h1, _, h2 | ⟨h2, _⟩⟩ := hok <;> exact ⟨sl, h1, by simp [h2]⟩
  · obtain ⟨_, ⟨sl, h1, h2⟩, _⟩ := hok
    exact ⟨sl, h1, by simp [h2]⟩

theorem Caller.ok_of_frame {d : Dispatcher} {t t1 : SlotTable} {c : Caller}
    (hok : c.ok d t) (hfr : ∀ h, c.slot? = some h → t1[h]? = t[h]?) : c.ok d t1 := by
  cases c <;> simp only [Caller.ok, Caller.slot?, Option.some.injEq, forall_eq'] at hok hfr ⊢
    <;> first | exact hok | (rw [hfr]; exact hok)

theorem inv_update {d : Dispatcher} {s : System} (hinv : Inv d s) {i : Nat} {c c1 : Caller}
    (hi : s.callers[i]? = some c) (t1 : SlotTable)
    (hfr : ∀ k, (∀ h, c.slot? = some h ∨ c1.slot? = some h → k ≠ h) → t1[k]? = s.table[k]?)
    (hok : c1.ok d t1)
    (hnew : ∀ h, c1.slot? = some h →
      c.slot? = some h ∨ ∃ sl, s.table[h]? = some sl ∧ sl.state = .Free) :
    Inv d { table := t1, callers := s.callers.set i c1 } := by
  obtain ⟨hoks, hex⟩ := hinv
  have hilt : i < s.callers.length := (List.getElem?_eq_some.1 hi).1
  -- a slot held by another caller is neither the old nor the new slot of caller `i`
  have hother : ∀ j cj hj, j ≠ i → s.callers[j]? = some cj → cj.slot? = some hj →
      ∀ h, c.slot? = some h ∨ c1.slot? = some h → hj ≠ h := by
    intro j cj hj hji hcj hsj h hh heq
    subst heq
    have hold : c.slot? = some hj → False := fun hc => hji (hex j i cj c hj hcj hi hsj hc)
    rcases hh with hc | hc1
    · exact hold hc
    · rcases hnew hj hc1 with hc | ⟨sl, h1, h2⟩
      · exact hold hc
      · obtain ⟨sl2, h3, h4⟩ := Caller.ok_slot_not_free (hoks j cj hcj) hsj
        rw [h1] at h3
        cases h3
        exact h4 h2
  refine ⟨?_, ?_⟩
  · intro j cj hcj
    simp only at hcj ⊢
    by_cases hji : j = i
    · subst hji
      rw [List.getElem?_set_self hilt] at hcj
      cases hcj
      exact hok
    · rw [List.getElem?_set_ne (fun e => hji e.symm)] at hcj
      refine Caller.ok_of_frame (hoks j cj hcj) ?_
      intro hj hsj
      exact hfr hj (fun h hh => hother j cj hj hji hcj hsj h hh)
  · intro j k cj ck h hcj hck hsj hsk
    simp only at hcj hck
    by_cases hji : j = i <;> by_cases hki : k = i
    · rw [hji, hki]
    · exfalso
      subst hji
      rw [List.getElem?_set_self hilt] at hcj
      cases hcj
      rw [List.getElem?_set_ne (fun e => hki e.symm)] at hck
      exact hother k ck h hki hck hsk h (Or.inr hsj) rfl
    · exfalso
      subst hki
      rw [List.getElem?_set_self hilt] at hck
      cases hck
      rw [List.getElem?_set_ne (fun e => hji e.symm)] at hcj
      exact hother j cj h hji hcj hsj h (Or.inr hsk) rfl
    · rw [List.getElem?_set_ne (fun e => hji e.symm)] at hcj
      rw [List.getElem?_set_ne (fun e => hki e.symm)] at hck
      exact hex j k cj ck h hcj hck hsj hsk
theorem Dispatcher.getElem?_serve (d : Dispatcher) {t : SlotTable} (h : Nat) {k : Nat}
    {sl : CallSlot} (hk : t[k]? = some sl) :
    (d.serve t h)[k]? = some (if k = h ∧ sl.state = .Submitted then
      { sl with reply := d.replyFor sl.packet, state := .Completed } else sl) := by
  unfold Dispatcher.serve
  rw [getElem?_modifySlot]
  by_cases hkh : k = h
  · subst hkh
    by_cases hst : sl.state = .Submitted <;> simp [hk, hst]
  · simp [hk, hkh]

theorem Caller.ok_serve {d : Dispatcher} {t : SlotTable} {c : Caller} (h : Nat)
    (hok : c.ok d t) : c.ok d (d.serve t h) := by
  cases c with
  | idle => exact hok
  | start req => exact hok
  | returned req r => exact hok
  | reserved hc req =>
    obtain ⟨hv, sl, h1, h2⟩ := hok
    exact ⟨hv, sl, by rw [d.getElem?_serve h h1]; simp [h2], h2⟩
  | written hc req =>
    obtain ⟨hv, sl, h1, h2, h3⟩ := hok
    exact ⟨hv, sl, by rw [d.getElem?_serve h h1]; simp [h2], h2, h3⟩
  | waiting hc req =>
    obtain ⟨hv, sl, h1, h2, h3⟩ := hok
    refine ⟨hv, _, d.getElem?_serve h h1, ?_⟩
    by_cases hc2 : hc = h ∧ sl.state = .Submitted
    · simp [hc2, h2]
    · rw [if_neg hc2]
      exact ⟨h2, h3⟩
  | consumed hc req r =>
    obtain ⟨hv, ⟨sl, h1, h2⟩, h3⟩ := hok
    exact ⟨hv, ⟨sl, by rw [d.getElem?_serve h h1]; simp [h2], h2⟩, h3⟩

theorem inv_callerStep {d : Dispatcher} {s : System} (hinv : Inv d s) {i : Nat} {c : Caller}
    (hi : s.callers[i]? = some c) :
    Inv d { table := (callerStep s.table c).1
            callers := s.callers.set i (callerStep s.table c).2 } := by
  have hc := hinv.1 i c hi
  cases c with
  | idle => exact inv_update hinv hi _ (fun _ _ => rfl) trivial (by simp [callerStep, Caller.slot?])
  | returned req r =>
    exact inv_update hinv hi _ (fun _ _ => rfl) hc (by simp [callerStep, Caller.slot?])
  | start req =>
    cases ha : acquire s.table with
    | none =>
      simp only [callerStep, ha]
      exact inv_update hinv hi _ (fun _ _ => rfl) hc (by simp [Caller.slot?])
    | some p =>
      obtain ⟨h, t1⟩ := p
      obtain ⟨⟨sl, h1, h2⟩, rfl⟩ := acquire_some ha
      simp only [callerStep, ha]
      refine inv_update hinv hi _ ?_ ?_ ?_
      · intro k hk
        exact getElem?_modifySlot_ne _ _ (hk h (Or.inr rfl))
      · exact ⟨hc, { sl with state := .Reserved }, by rw [getElem?_modifySlot_self, h1]; rfl,
          rfl⟩
      · intro h3 hh
        simp only [Caller.slot?, Option.some.injEq] at hh
        subst hh
        exact Or.inr ⟨sl, h1, h2⟩
  | reserved h req =>
    obtain ⟨hv, sl, h1, h2⟩ := hc
    simp only [callerStep, writePacket]
    refine inv_update hinv hi _ ?_ ?_ ?_
    · intro k hk
      exact getElem?_modifySlot_ne _ _ (hk h (Or.inl rfl))
    · exact ⟨hv, { sl with packet := req }, by rw [getElem?_modifySlot_self, h1]; rfl, h2, rfl⟩
    · intro h3 hh
      exact Or.inl hh
  | written h req =>
    obtain ⟨hv, sl, h1, h2, h3⟩ := hc
    simp only [callerStep, markSubmitted]
    refine inv_update hinv hi _ ?_ ?_ ?_
    · intro k hk
      exact getElem?_modifySlot_ne _ _ (hk h (Or.inl rfl))
    · exact ⟨hv, { sl with state := .Submitted }, by rw [getElem?_modifySlot_self, h1]; rfl,
        h3, Or.inl rfl⟩
    · intro h3 hh
      exact Or.inl hh
  | waiting h req =>
    obtain ⟨hv, sl, h1, h2, h3⟩ := hc
    by_cases hcomp : sl.state = .Completed
    · simp only [callerStep, h1, hcomp, if_true]
      refine inv_update hinv hi _ (fun _ _ => rfl) ?_ (fun h3 hh => Or.inl hh)
      rcases h3 with h3 | ⟨_, h3⟩
      · rw [h3] at hcomp
        cases hcomp
      · exact ⟨hv, ⟨sl, h1, hcomp⟩, h3⟩
    · simp only [callerStep, h1, hcomp, if_false]
      exact inv_update hinv hi _ (fun _ _ => rfl) ⟨hv, sl, h1, h2, h3⟩ (fun h3 hh => Or.inl hh)
  | consumed h req r =>
    obtain ⟨hv, ⟨sl, h1, h2⟩, h3⟩ := hc
    simp only [callerStep, release]
    refine inv_update hinv hi _ ?_ ⟨hv, h3⟩ (by simp [Caller.slot?])
    intro k hk
    exact getElem?_modifySlot_ne _ _ (hk h (Or.inl rfl))

theorem inv_step {d : Dispatcher} {s : System} (hinv : Inv d s) (a : Action) :
    Inv d (step d s a) := by
  cases a with
  | invoke i req =>
    simp only [step]
    cases hi : s.callers[i]? with
    | none => exact hinv
    | some c =>
      by_cases hg : (c.canInvoke && req.valid) = true
      · simp only [hg, if_true]
        have hv : req.valid = true := by
          simp only [Bool.and_eq_true] at hg
          exact hg.2
        exact inv_update hinv hi _ (fun _ _ => rfl) hv (by simp [Caller.slot?])
      · simp only [hg]
        exact hinv
  | caller i =>
    simp only [step]
    cases hi : s.callers[i]? with
    | none => exact hinv
    | some c => exact inv_callerStep hinv hi
  | dispatch h =>
    exact ⟨fun i c hi => Caller.ok_serve h (hinv.1 i c hi), hinv.2⟩

theorem inv_initial {d : Dispatcher} {s : System} (h0 : s.initial = true) : Inv d s := by
  simp only [System.initial, Bool.and_eq_true, List.all_eq_true, beq_iff_eq] at h0
  have hidle : ∀ (i : Nat) (c : Caller), s.callers[i]? = some c → c = Caller.idle := fun i c hi =>
    h0.2 c (List.mem_iff_getElem?.2 ⟨i, hi⟩)
  refine ⟨?_, ?_⟩
  · intro i c hi
    rw [hidle i c hi]
    trivial
  · intro i j ci cj h hi _ hsi _
    rw [hidle i ci hi] at hsi
    simp [Caller.slot?] at hsi

theorem inv_run {d : Dispatcher} {s : System} (hinv : Inv d s) (as : List Action) :
    Inv d (run d s as) := by
  induction as generalizing s with
  | nil => exact hinv
  | cons a rest ih => exact ih (inv_step hinv a)
/-! ### One complete call -/

theorem modifySlot_modifySlot (t : SlotTable) (h : Nat) (f g : CallSlot → CallSlot) :
    modifySlot (modifySlot t h f) h g = modifySlot t h (fun sl => g (f sl)) := by
  apply List.ext_getElem?
  intro k
  by_cases hk : k = h <;> simp [getElem?_modifySlot, hk, Function.comp_def]

theorem step_caller_set (d : Dispatcher) (t : SlotTable) (cs : List Caller) {i : Nat}
    (hi : i < cs.length) (c : Caller) :
    step d { table := t, callers := cs.set i c } (.caller i)
      = { table := (callerStep t c).1, callers := cs.set i (callerStep t c).2 } := by
  simp [step, List.getElem?_set_self hi, List.set_set]

theorem run_callSchedule (d : Dispatcher) {s : System} {i h : Nat} {c : Caller}
    (hi : s.callers[i]? = some c) (hc : c.canInvoke = true) {req : CallPacket}
    (hv : req.valid = true) (hf : findFree s.table = some h) :
    run d s (callSchedule i req h)
      = { table := modifySlot s.table h (fun _ => ⟨.Free, req, d.replyFor req⟩)
          callers := s.callers.set i (.returned req (d.replyFor req)) } := by
  obtain ⟨t, cs⟩ := s
  simp only at hi hf
  have hilt : i < cs.length := (List.getElem?_eq_some.1 hi).1
  obtain ⟨sl0, hsl0, hfree⟩ := findFree_some hf
  have hacq : acquire t = some (h, modifySlot t h (fun sl => { sl with state := .Reserved })) := by
    simp [acquire, hf]
  have e1 : step d ⟨t, cs⟩ (.invoke i req) = ⟨t, cs.set i (.start req)⟩ := by
    simp [step, hi, hc, hv]
  have e2 : step d ⟨t, cs.set i (.start req)⟩ (.caller i)
      = ⟨modifySlot t h (fun sl => { sl with state := .Reserved }),
          cs.set i (.reserved h req)⟩ := by
    rw [step_caller_set d _ _ hilt]
    simp only [callerStep, hacq]
  have e3 : ∀ t1 : SlotTable, step d ⟨t1, cs.set i (.reserved h req)⟩ (.caller i)
      = ⟨writePacket t1 h req, cs.set i (.written h req)⟩ := by
    intro t1
    rw [step_caller_set d _ _ hilt]
    rfl
  have e4 : ∀ t2 : SlotTable, step d ⟨t2, cs.set i (.written h req)⟩ (.caller i)
      = ⟨markSubmitted t2 h, cs.set i (.waiting h req)⟩ := by
    intro t2
    rw [step_caller_set d _ _ hilt]
    rfl
  have e5 : ∀ t3 : SlotTable, step d ⟨t3, cs.set i (.waiting h req)⟩ (.dispatch h)
      = ⟨d.serve t3 h, cs.set i (.waiting h req)⟩ := fun _ => rfl
  have hserved : (d.serve (markSubmitted (writePacket (modifySlot t h
      (fun sl => { sl with state := .Reserved })) h req) h) h)[h]?
        = some ⟨.Completed, req, d.replyFor req⟩ := by
    simp [Dispatcher.serve, markSubmitted, writePacket, getElem?_modifySlot, hsl0]
  have e6 : step d ⟨d.serve (markSubmitted (writePacket (modifySlot t h
      (fun sl => { sl with state := .Reserved })) h req) h) h,
        cs.set i (.waiting h req)⟩ (.caller i)
      = ⟨d.serve (markSubmitted (writePacket (modifySlot t h
          (fun sl => { sl with state := .Reserved })) h req) h) h,
          cs.set i (.consumed h req (d.replyFor req))⟩ := by
    rw [step_caller_set d _ _ hilt]
    simp only [callerStep, hserved, if_true]
  have e7 : ∀ (t4 : SlotTable) (r : ReplyPacket),
      step d ⟨t4, cs.set i (.consumed h req r)⟩ (.caller i)
        = ⟨release t4 h, cs.set i (.returned req r)⟩ := by
    intro t4 r
    rw [step_caller_set d _ _ hilt]
    rfl
  simp only [run, callSchedule, List.foldl_cons, List.foldl_nil]
  rw [e1, e2, e3, e4, e5, e6, e7]
  congr 1
  simp only [release, Dispatcher.serve, markSubmitted, writePacket, modifySlot_modifySlot]
  apply List.ext_getElem?
  intro k
  by_cases hk : k = h
  · subst hk
    simp [getElem?_modifySlot, hsl0]
  · simp [getElem?_modifySlot, hk]
/-! ### Effect of single steps on the table -/

theorem callerStep_frame (t : SlotTable) (c : Caller) (k : Nat)
    (hne : ∀ h, c.slot? = some h ∨ (callerStep t c).2.slot? = some h → k ≠ h) :
    (callerStep t c).1[k]? = t[k]? := by
  cases c with
  | idle => rfl
  | returned req r => rfl
  | start req =>
    cases ha : acquire t with
    | none => simp [callerStep, ha]
    | some p =>
      obtain ⟨h, t1⟩ := p
      obtain ⟨_, rfl⟩ := acquire_some ha
      simp only [callerStep, ha] at hne ⊢
      exact getElem?_modifySlot_ne _ _ (hne h (Or.inr rfl))
  | reserved h req => exact getElem?_modifySlot_ne _ _ (hne h (Or.inl rfl))
  | written h req => exact getElem?_modifySlot_ne _ _ (hne h (Or.inl rfl))
  | waiting h req =>
    simp only [callerStep]
    cases t[h]? with
    | none => rfl
    | some sl => by_cases hc : sl.state = .Completed <;> simp [hc]
  | consumed h req r => exact getElem?_modifySlot_ne _ _ (hne h (Or.inl rfl))

theorem callerStep_transition {d : Dispatcher} {t : SlotTable} {c : Caller}
    (hok : c.ok d t) {k : Nat} {sl sl1 : CallSlot} (hk : t[k]? = some sl)
    (hk1 : (callerStep t c).1[k]? = some sl1) :
    sl1.state = sl.state ∨ sl1.state = sl.state.next ∧ sl1.state ≠ .Completed := by
  have hsame : ∀ {t1 : SlotTable}, t1 = t → t1[k]? = some sl1 → sl1.state = sl.state := by
    intro t1 e h1
    rw [e, hk] at h1
    cases h1
    rfl
  have hmod : ∀ {h : Nat} {f : CallSlot → CallSlot}, (modifySlot t h f)[k]? = some sl1 →
      sl1 = sl ∨ (k = h ∧ sl1 = f sl) := by
    intro h f h1
    rw [getElem?_modifySlot, hk] at h1
    by_cases hkh : k = h
    · simp only [hkh, if_true, Option.map_some', Option.some.injEq] at h1
      exact Or.inr ⟨hkh, h1.symm⟩
    · simp only [hkh, if_false, Option.some.injEq] at h1
      exact Or.inl h1.symm
  cases c with
  | idle => exact Or.inl (hsame rfl hk1)
  | returned req r => exact Or.inl (hsame rfl hk1)
  | start req =>
    cases ha : acquire t with
    | none =>
      simp only [callerStep, ha] at hk1
      exact Or.inl (hsame rfl hk1)
    | some p =>
      obtain ⟨h, t1⟩ := p
      obtain ⟨⟨sl0, h1, h2⟩, rfl⟩ := acquire_some ha
      simp only [callerStep, ha] at hk1
      rcases hmod hk1 with rfl | ⟨rfl, rfl⟩
      · exact Or.inl rfl
      · rw [hk] at h1
        cases h1
        exact Or.inr ⟨by simp [h2, SlotState.next], by simp⟩
  | reserved h req =>
    rcases hmod hk1 with rfl | ⟨rfl, rfl⟩ <;> exact Or.inl rfl
  | written h req =>
    obtain ⟨_, sl0, h1, h2, _⟩ := hok
    rcases hmod hk1 with rfl | ⟨rfl, rfl⟩
    · exact Or.inl rfl
    · rw [hk] at h1
      cases h1
      exact Or.inr ⟨by simp [h2, SlotState.next], by simp⟩
  | waiting h req =>
    refine Or.inl (hsame ?_ hk1)
    simp only [callerStep]
    cases t[h]? with
    | none => rfl
    | some sl => by_cases hc : sl.state = .Completed <;> simp [hc]
  | consumed h req r =>
    obtain ⟨_, ⟨sl0, h1, h2⟩, _⟩ := hok
    rcases hmod hk1 with rfl | ⟨rfl, rfl⟩
    · exact Or.inl rfl
    · rw [hk] at h1
      cases h1
      exact Or.inr ⟨by simp [h2, SlotState.next], by simp⟩

theorem length_callerStep (t : SlotTable) (c : Caller) :
    (callerStep t c).1.length = t.length := by
  cases c with
  | idle => rfl
  | returned req r => rfl
  | start req =>
    cases ha : acquire t with
    | none => simp [callerStep, ha]
    | some p =>
      obtain ⟨h, t1⟩ := p
      obtain ⟨_, rfl⟩ := acquire_some ha
      simp [callerStep, ha, length_modifySlot]
  | reserved h req => exact length_modifySlot _ _ _
  | written h req => exact length_modifySlot _ _ _
  | waiting h req =>
    simp only [callerStep]
    cases t[h]? with
    | none => rfl
    | some sl => by_cases hc : sl.state = .Completed <;> simp [hc]
  | consumed h req r => exact length_modifySlot _ _ _

theorem table_step_invoke (d : Dispatcher) (s : System) (i : Nat) (req : CallPacket) :
    (step d s (.invoke i req)).table = s.table := by
  simp only [step]
  cases s.callers[i]? with
  | none => rfl
  | some c => by_cases hg : (c.canInvoke && req.valid) = true <;> simp [hg]

theorem length_step (d : Dispatcher) (s : System) (a : Action) :
    (step d s a).table.length = s.table.length := by
  cases a with
  | invoke i req => rw [table_step_invoke]
  | caller i =>
    simp only [step]
    cases s.callers[i]? with
    | none => rfl
    | some c => exact length_callerStep _ _
  | dispatch h => exact length_modifySlot _ _ _

theorem length_run (d : Dispatcher) (s : System) (as : List Action) :
    (run d s as).table.length = s.table.length := by
  induction as generalizing s with
  | nil => rfl
  | cons a rest ih =>
    simp only [run, List.foldl_cons] at ih ⊢
    rw [ih, length_step]

theorem step_transition {d : Dispatcher} {s : System} (hinv : Inv d s) (a : Action)
    {k : Nat} {sl sl1 : CallSlot} (hk : s.table[k]? = some sl)
    (hk1 : (step d s a).table[k]? = some sl1) :
    sl1.state = sl.state ∨
      (sl1.state = sl.state.next ∧ (sl1.state = .Completed ↔ a = .dispatch k)) := by
  cases a with
  | invoke i req =>
    rw [table_step_invoke, hk] at hk1
    cases hk1
    exact Or.inl rfl
  | caller i =>
    simp only [step] at hk1
    cases hi : s.callers[i]? with
    | none =>
      simp only [hi] at hk1
      rw [hk] at hk1
      cases hk1
      exact Or.inl rfl
    | some c =>
      simp only [hi] at hk1
      rcases callerStep_transition (hinv.1 i c hi) hk hk1 with h1 | ⟨h1, h2⟩
      · exact Or.inl h1
      · exact Or.inr ⟨h1, by simp [h2]⟩
  | dispatch h =>
    have e : (step d s (.dispatch h)).table = d.serve s.table h := rfl
    rw [e, d.getElem?_serve h hk] at hk1
    by_cases hc : k = h ∧ sl.state = .Submitted
    · rw [if_pos hc] at hk1
      cases hk1
      exact Or.inr ⟨by simp [hc.2, SlotState.next], by simp [hc.1]⟩
    · rw [if_neg hc] at hk1
      cases hk1
      exact Or.inl rfl

/-! ### Replies -/

theorem replyFor_registered {d : Dispatcher} {p : CallPacket} {f : Handler}
    (h : d.handlers p.service_id = some f) : d.replyFor p = f p.args := by
  simp [Dispatcher.replyFor, h]

theorem replyFor_unknown {d : Dispatcher} {p : CallPacket}
    (h : d.handlers p.service_id = none) : d.replyFor p = d.sentinelReply := by
  simp [Dispatcher.replyFor, h]

theorem inv_reachable (d : Dispatcher) {s0 : System} (h0 : s0.initial = true)
    (as : List Action) : Inv d (run d s0 as) :=
  inv_run (inv_initial h0) as

theorem waiting_served {d : Dispatcher} {s : System} (hinv : Inv d s) {i h : Nat}
    {req : CallPacket} (hi : s.callers[i]? = some (.waiting h req)) :
    (step d (step d s (.dispatch h)) (.caller i)).callers[i]?
      = some (.consumed h req (d.replyFor req)) := by
  obtain ⟨_, sl, h1, h2, h3⟩ := hinv.1 i _ hi
  have hilt : i < s.callers.length := (List.getElem?_eq_some.1 hi).1
  have hslot : ∃ sl1, (d.serve s.table h)[h]? = some sl1 ∧ sl1.state = .Completed ∧
      sl1.reply = d.replyFor req := by
    refine ⟨_, d.getElem?_serve h h1, ?_⟩
    rcases h3 with h3 | ⟨h3, h4⟩
    · simp [h3, h2]
    · simp [h3, h4]
  obtain ⟨sl1, h4, h5, h6⟩ := hslot
  have e : step d s (.dispatch h) = ⟨d.serve s.table h, s.callers⟩ := rfl
  rw [e]
  simp only [step, hi, callerStep, h4, h5, if_true, h6]
  exact List.getElem?_set_self hilt

theorem callSchedule_returns (d : Dispatcher) {s : System} {i h : Nat} {c : Caller}
    (hi : s.callers[i]? = some c) (hc : c.canInvoke = true) {req : CallPacket}
    (hv : req.valid = true) (hf : findFree s.table = some h) :
    (run d s (callSchedule i req h)).callers[i]? = some (.returned req (d.replyFor req)) := by
  rw [run_callSchedule d hi hc hv hf]
  exact List.getElem?_set_self (List.getElem?_eq_some.1 hi).1

/-! ### The call round trip -/

/-- C3: in every interleaved execution from an initial system, a reply read by thread `i`
for a valid request `req` whose service has the registered handler `f` is exactly
`f req.args`: the slot the thread waits on carries its own packet and is held by no other
caller, and a complete `call` returns `f req.args`.  In particular
`call(FunctionCall, [fn_ptr, a0, a1, 0, 0, 0, 0, 0])` returns what the registered
`FunctionCall` handler computes for these words. -/
theorem call_returns_handler_reply (d : Dispatcher) (s0 : System) (h0 : s0.initial = true)
    (as : List Action) (i : Nat) :
    (∀ (req : CallPacket) (f : Handler), req.valid = true →
      d.handlers req.service_id = some f →
        (∀ h r, (run d s0 as).callers[i]? = some (.consumed h req r) → r = f req.args) ∧
        (∀ r, (run d s0 as).callers[i]? = some (.returned req r) → r = f req.args) ∧
        (∀ h, (run d s0 as).callers[i]? = some (.waiting h req) →
          (∃ sl, (run d s0 as).table[h]? = some sl ∧ sl.packet = req ∧
            (sl.state = .Completed → sl.reply = f req.args)) ∧
          (∀ j cj, (run d s0 as).callers[j]? = some cj → cj.slot? = some h → j = i) ∧
          (step d (step d (run d s0 as) (.dispatch h)) (.caller i)).callers[i]?
            = some (.consumed h req (f req.args))) ∧
        (∀ c h, (run d s0 as).callers[i]? = some c → c.canInvoke = true →
          findFree (run d s0 as).table = some h →
            (run d (run d s0 as) (callSchedule i req h)).callers[i]?
              = some (.returned req (f req.args)))) ∧
    (∀ (g : Handler) (fn_ptr a0 a1 : Nat), d.handlers SERVICE_ID_FUNCTION_CALL = some g →
      fn_ptr < 2 ^ 64 → a0 < 2 ^ 64 → a1 < 2 ^ 64 →
        ∀ c h, (run d s0 as).callers[i]? = some c → c.canInvoke = true →
          findFree (run d s0 as).table = some h →
            (run d (run d s0 as)
                (callSchedule i ⟨SERVICE_ID_FUNCTION_CALL, [fn_ptr, a0, a1, 0, 0, 0, 0, 0]⟩ h)).callers[i]?
              = some (.returned ⟨SERVICE_ID_FUNCTION_CALL, [fn_ptr, a0, a1, 0, 0, 0, 0, 0]⟩
                  (g [fn_ptr, a0, a1, 0, 0, 0, 0, 0]))) := by
  have hinv := inv_reachable d h0 as
  refine ⟨?_, ?_⟩
  · intro req f hv hreg
    have hr := replyFor_registered hreg
    refine ⟨?_, ?_, ?_, ?_⟩
    · intro h r hi
      obtain ⟨_, _, h3⟩ := hinv.1 i _ hi
      rw [h3, hr]
    · intro r hi
      obtain ⟨_, h3⟩ := hinv.1 i _ hi
      rw [h3, hr]
    · intro h hi
      refine ⟨?_, ?_, ?_⟩
      · obtain ⟨_, sl, h1, h2, h3⟩ := hinv.1 i _ hi
        refine ⟨sl, h1, h2, ?_⟩
        intro hc
        rcases h3 with h3 | ⟨_, h3⟩
        · rw [h3] at hc
          cases hc
        · rw [h3, hr]
      · intro j cj hj hs
        exact hinv.2 j i cj _ h hj hi hs rfl
      · rw [waiting_served hinv hi, hr]
    · intro c h hi hc hf
      rw [callSchedule_returns d hi hc hv hf, hr]
  · intro g fn_ptr a0 a1 hreg hp h0 h1 c h hi hc hf
    have hv : (CallPacket.mk SERVICE_ID_FUNCTION_CALL [fn_ptr, a0, a1, 0, 0, 0, 0, 0]).valid
        = true := by
      rw [CallPacket.valid, acceptsCall_preview_iff]
      refine ⟨?_, rfl, ?_⟩
      · show SERVICE_ID_FUNCTION_CALL < 2 ^ 32
        decide
      intro a ha
      simp only [List.mem_cons, List.mem_singleton, List.not_mem_nil, or_false] at ha
      rcases ha with rfl | rfl | rfl | rfl | rfl | rfl | rfl | rfl <;>
        first | assumption | decide
    rw [callSchedule_returns d hi hc hv hf]
    have hr : d.replyFor ⟨SERVICE_ID_FUNCTION_CALL, [fn_ptr, a0, a1, 0, 0, 0, 0, 0]⟩
        = g [fn_ptr, a0, a1, 0, 0, 0, 0, 0] := replyFor_registered hreg
    rw [hr]

/-- C3 instance: with the fake `FunctionCall` handler, while thread 1 has a `Printf` call
in flight on slot 0, thread 0 calls `FunctionCall` with operands 3 and 4 on slot 1 and
gets the reply `(7, 0)`. -/
theorem call_returns_handler_reply_witness :
    (emptySystem 2 2).initial = true ∧
    (run fakeDispatcher
        (run fakeDispatcher (emptySystem 2 2)
          [.invoke 1 ⟨SERVICE_ID_PRINTF, [1, 2, 3, 4, 5, 6, 7, 8]⟩, .caller 1, .caller 1,
           .caller 1])
        (callSchedule 0 ⟨SERVICE_ID_FUNCTION_CALL, [4096, 3, 4, 0, 0, 0, 0, 0]⟩ 1)).callers[0]?
      = some (.returned ⟨SERVICE_ID_FUNCTION_CALL, [4096, 3, 4, 0, 0, 0, 0, 0]⟩ ⟨7, 0⟩) :=
  ⟨by decide,
    (call_returns_handler_reply fakeDispatcher (emptySystem 2 2) (by decide)
      [.invoke 1 ⟨SERVICE_ID_PRINTF, [1, 2, 3, 4, 5, 6, 7, 8]⟩, .caller 1, .caller 1,
       .caller 1] 0).2
      (fun a => ⟨(a.getD 1 0 + a.getD 2 0) % 2 ^ 64, 0⟩) 4096 3 4 rfl
      (by decide) (by decide) (by decide) .idle 1 (by decide) rfl (by decide)⟩

/-- C4: a valid request whose `service_id` has no registered handler is rejected with the
sentinel reply.  In every interleaved execution the reply read by the caller is the
sentinel reply and not what a `Default` handler would have produced; a caller waiting on
such a request gets the sentinel as soon as the dispatcher serves its slot; a complete
`call` returns the sentinel; and afterwards the dispatcher still serves further calls. -/
theorem unknown_service_gets_sentinel (d : Dispatcher) (s0 : System)
    (h0 : s0.initial = true) (as : List Action) (i : Nat) (req : CallPacket)
    (hv : req.valid = true) (hunk : d.handlers req.service_id = none) :
    d.replyFor req = ⟨d.sentinel, d.sentinel⟩ ∧
    (∀ h r, (run d s0 as).callers[i]? = some (.consumed h req r) → r = d.sentinelReply) ∧
    (∀ r, (run d s0 as).callers[i]? = some (.returned req r) →
      r = d.sentinelReply ∧
      ∀ g, d.handlers SERVICE_ID_DEFAULT = some g → g req.args ≠ d.sentinelReply →
        r ≠ g req.args) ∧
    (∀ h, (run d s0 as).callers[i]? = some (.waiting h req) →
      (step d (step d (run d s0 as) (.dispatch h)) (.caller i)).callers[i]?
        = some (.consumed h req d.sentinelReply)) ∧
    (∀ c h, (run d s0 as).callers[i]? = some c → c.canInvoke = true →
      findFree (run d s0 as).table = some h →
        (run d (run d s0 as) (callSchedule i req h)).callers[i]?
          = some (.returned req d.sentinelReply) ∧
        ∀ j cj req2 h2,
          (run d (run d s0 as) (callSchedule i req h)).callers[j]? = some cj →
          cj.canInvoke = true → req2.valid = true →
          findFree (run d (run d s0 as) (callSchedule i req h)).table = some h2 →
            (run d (run d (run d s0 as) (callSchedule i req h))
                (callSchedule j req2 h2)).callers[j]?
              = some (.returned req2 (d.replyFor req2))) := by
  have hinv := inv_reachable d h0 as
  have hr := replyFor_unknown hunk
  refine ⟨hr, ?_, ?_, ?_, ?_⟩
  · intro h r hi
    obtain ⟨_, _, h3⟩ := hinv.1 i _ hi
    rw [h3, hr]
  · intro r hi
    obtain ⟨_, h3⟩ := hinv.1 i _ hi
    rw [h3, hr]
    exact ⟨rfl, fun g _ hg e => hg e.symm⟩
  · intro h hi
    rw [waiting_served hinv hi, hr]
  · intro c h hi hc hf
    refine ⟨?_, ?_⟩
    · rw [callSchedule_returns d hi hc hv hf, hr]
    · intro j cj req2 h2 hj hcj hv2 hf2
      exact callSchedule_returns d hj hcj hv2 hf2

/-- C4 instance: with only the three declared services registered, a call with
`service_id = 0xFFFFFFFF` returns the sentinel reply. -/
theorem unknown_service_gets_sentinel_witness :
    (emptySystem 1 1).initial = true ∧
    (CallPacket.mk 0xFFFFFFFF [1, 2, 3, 4, 5, 6, 7, 8]).valid = true ∧
    fakeDispatcher.handlers 0xFFFFFFFF = none ∧
    (run fakeDispatcher (run fakeDispatcher (emptySystem 1 1) [])
        (callSchedule 0 ⟨0xFFFFFFFF, [1, 2, 3, 4, 5, 6, 7, 8]⟩ 0)).callers[0]?
      = some (.returned ⟨0xFFFFFFFF, [1, 2, 3, 4, 5, 6, 7, 8]⟩
          ⟨0xFFFFFFFFFFFFFFFF, 0xFFFFFFFFFFFFFFFF⟩) :=
  ⟨by decide, by decide, rfl,
    ((unknown_service_gets_sentinel fakeDispatcher (emptySystem 1 1) (by decide) [] 0
      ⟨0xFFFFFFFF, [1, 2, 3, 4, 5, 6, 7, 8]⟩ (by decide) rfl).2.2.2.2
      .idle 0 (by decide) rfl (by decide)).1⟩

/-! ### The slot table -/

/-- C6: slot exclusivity.  In every state reachable from an initial system, whatever the
number of calling threads, two callers that hold the same slot (anywhere between
`acquire` and `release`) are the same caller, a held slot is not `Free`, and the slot
`acquire` would hand out next is held by no caller. -/
theorem slot_exclusivity (d : Dispatcher) (s0 : System) (h0 : s0.initial = true)
    (as : List Action) :
    (∀ (i j h : Nat) (ci cj : Caller), (run d s0 as).callers[i]? = some ci →
      (run d s0 as).callers[j]? = some cj → ci.slot? = some h → cj.slot? = some h →
        i = j ∧ ∃ sl, (run d s0 as).table[h]? = some sl ∧ sl.state ≠ .Free) ∧
    (∀ (h : Nat) (t1 : SlotTable), acquire (run d s0 as).table = some (h, t1) →
      ∀ (j : Nat) (cj : Caller), (run d s0 as).callers[j]? = some cj → cj.slot? ≠ some h) := by
  have hinv := inv_reachable d h0 as
  refine ⟨?_, ?_⟩
  · intro i j h ci cj hi hj hci hcj
    exact ⟨hinv.2 i j ci cj h hi hj hci hcj, Caller.ok_slot_not_free (hinv.1 i ci hi) hci⟩
  · intro h t1 ha j cj hj hs
    obtain ⟨⟨sl, h1, h2⟩, _⟩ := acquire_some ha
    obtain ⟨sl2, h3, h4⟩ := Caller.ok_slot_not_free (hinv.1 j cj hj) hs
    rw [h1] at h3
    cases h3
    exact h4 h2

/-- C6 instance: two threads enter `call` on a table of two slots; after both have
acquired, thread 0 holds slot 0, and any caller holding slot 0 is thread 0. -/
theorem slot_exclusivity_witness :
    (emptySystem 2 2).initial = true ∧
    ∀ (j : Nat) (cj : Caller),
      (run fakeDispatcher (emptySystem 2 2)
        [.invoke 0 ⟨1, [0, 1, 2, 0, 0, 0, 0, 0]⟩, .invoke 1 ⟨2, [0, 0, 0, 0, 0, 0, 0, 0]⟩,
         .caller 0, .caller 1]).callers[j]? = some cj →
      cj.slot? = some 0 → 0 = j :=
  ⟨by decide, fun j cj hj hs =>
    ((slot_exclusivity fakeDispatcher (emptySystem 2 2) (by decide)
      [.invoke 0 ⟨1, [0, 1, 2, 0, 0, 0, 0, 0]⟩, .invoke 1 ⟨2, [0, 0, 0, 0, 0, 0, 0, 0]⟩,
       .caller 0, .caller 1]).1 0 j 0 (.reserved 0 ⟨1, [0, 1, 2, 0, 0, 0, 0, 0]⟩) cj
      (by decide) hj rfl hs).1⟩

/-- C7: in every state reachable from an initial system, any action changes the state tag
of a slot, if at all, along `Free → Reserved → Submitted → Completed → Free`; a tag becomes
`Completed` only by the dispatcher serving that slot; and the dispatcher leaves every slot
that is not `Submitted`, in particular a `Reserved` one, untouched. -/
theorem slot_transitions_legal (d : Dispatcher) (s0 : System) (h0 : s0.initial = true)
    (as : List Action) (a : Action) (k : Nat) (sl sl1 : CallSlot)
    (hk : (run d s0 as).table[k]? = some sl)
    (hk1 : (step d (run d s0 as) a).table[k]? = some sl1) :
    (sl1.state = sl.state ∨
      (sl.state, sl1.state) ∈ [(SlotState.Free, SlotState.Reserved),
        (SlotState.Reserved, SlotState.Submitted), (SlotState.Submitted, SlotState.Completed),
        (SlotState.Completed, SlotState.Free)]) ∧
    (sl1.state ≠ sl.state → (sl1.state = .Completed ↔ a = .dispatch k)) ∧
    (∀ h, a = .dispatch h → sl.state ≠ .Submitted → sl1 = sl) ∧
    (∀ h, a = .dispatch h → sl.state = .Reserved → sl1 = sl) := by
  have hinv := inv_reachable d h0 as
  have hgen : ∀ h, a = .dispatch h → sl.state ≠ .Submitted → sl1 = sl := by
    intro h ha hns
    subst ha
    have e : (step d (run d s0 as) (.dispatch h)).table = d.serve (run d s0 as).table h := rfl
    rw [e, d.getElem?_serve h hk] at hk1
    rw [if_neg (fun hc => hns hc.2)] at hk1
    cases hk1
    rfl
  refine ⟨?_, ?_, hgen, ?_⟩
  · rcases step_transition hinv a hk hk1 with h1 | ⟨h1, _⟩
    · exact Or.inl h1
    · right
      rw [h1]
      cases sl.state <;> simp [SlotState.next]
  · intro hne
    rcases step_transition hinv a hk hk1 with h1 | ⟨_, h2⟩
    · exact absurd h1 hne
    · exact h2
  · intro h ha hres
    exact hgen h ha (by rw [hres]; decide)

/-- C7 instance: the `acquire` step of a thread takes slot 0 from `Free` to `Reserved`. -/
theorem slot_transitions_legal_witness :
    (emptySystem 1 1).initial = true ∧
    (SlotState.Reserved = SlotState.Free ∨
      (SlotState.Free, SlotState.Reserved) ∈ [(SlotState.Free, SlotState.Reserved),
        (SlotState.Reserved, SlotState.Submitted), (SlotState.Submitted, SlotState.Completed),
        (SlotState.Completed, SlotState.Free)]) :=
  ⟨by decide,
    (slot_transitions_legal fakeDispatcher (emptySystem 1 1) (by decide)
      [.invoke 0 ⟨1, [0, 1, 2, 0, 0, 0, 0, 0]⟩] (.caller 0) 0
      ⟨.Free, ⟨0, []⟩, ⟨0, 0⟩⟩ ⟨.Reserved, ⟨0, []⟩, ⟨0, 0⟩⟩ (by decide) (by decide)).1⟩

theorem set_eq_self_of_getElem? {α : Type} {l : List α} {j : Nat} {a : α}
    (h : l[j]? = some a) : l.set j a = l := by
  apply List.ext_getElem?
  intro k
  by_cases hk : j = k
  · subst hk
    rw [List.getElem?_set_self (List.getElem?_eq_some.1 h).1, h]
  · rw [List.getElem?_set_ne hk]

theorem step_caller_busy (d : Dispatcher) {s : System} {j : Nat} {req : CallPacket}
    (hj : s.callers[j]? = some (.start req)) (hb : acquire s.table = none) :
    step d s (.caller j) = s := by
  obtain ⟨t, cs⟩ := s
  simp only at hj hb
  simp only [step, hj, callerStep, hb, set_eq_self_of_getElem? hj]

theorem table_eq_singleton {t : SlotTable} (hlen : t.length = 1) {h : Nat} {sl : CallSlot}
    (hh : t[h]? = some sl) : h = 0 ∧ t = [sl] := by
  have hlt : h < t.length := (List.getElem?_eq_some.1 hh).1
  have h0 : h = 0 := by omega
  subst h0
  match t, hlen, hh with
  | [x], _, hh =>
    simp only [List.getElem?_cons_zero, Option.some.injEq] at hh
    exact ⟨rfl, by rw [hh]⟩

/-- C8: table exhaustion.  In every state reachable from an initial system the capacity
is unchanged and bounds the number of `Reserved` or `Submitted` slots; `acquire` returns
`Busy` (`none`) exactly when no slot is `Free`, and a caller whose `acquire` is `Busy`
receives no slot and changes nothing; a slot handed out was `Free`.  With capacity 1, while
some caller holds the slot every `acquire` is `Busy`, and `acquire` succeeds once that
slot has been released. -/
theorem acquire_busy_when_exhausted (d : Dispatcher) (s0 : System)
    (h0 : s0.initial = true) (as : List Action) :
    (run d s0 as).table.length = s0.table.length ∧
    (run d s0 as).table.countP
      (fun sl => sl.state == .Reserved || sl.state == .Submitted) ≤ s0.table.length ∧
    (acquire (run d s0 as).table = none ↔ ∀ sl ∈ (run d s0 as).table, sl.state ≠ .Free) ∧
    (acquire (run d s0 as).table = none →
      ∀ (j : Nat) (req : CallPacket), (run d s0 as).callers[j]? = some (.start req) →
        step d (run d s0 as) (.caller j) = run d s0 as) ∧
    (∀ (h : Nat) (t1 : SlotTable), acquire (run d s0 as).table = some (h, t1) →
      (∃ sl, (run d s0 as).table[h]? = some sl ∧ sl.state = .Free) ∧
      ∃ sl1, t1[h]? = some sl1 ∧ sl1.state = .Reserved) ∧
    (s0.table.length = 1 →
      ∀ (i h : Nat) (ci : Caller), (run d s0 as).callers[i]? = some ci →
        ci.slot? = some h →
          h = 0 ∧ acquire (run d s0 as).table = none ∧
          (∀ (j : Nat) (req : CallPacket), (run d s0 as).callers[j]? = some (.start req) →
            step d (run d s0 as) (.caller j) = run d s0 as) ∧
          ∃ t1, acquire (release (run d s0 as).table h) = some (h, t1)) := by
  have hinv := inv_reachable d h0 as
  have hlen := length_run d s0 as
  refine ⟨hlen, ?_, acquire_eq_none_iff _, ?_, ?_, ?_⟩
  · rw [← hlen]
    exact List.countP_le_length _
  · intro hb j req hj
    exact step_caller_busy d hj hb
  · intro h t1 ha
    obtain ⟨⟨sl, h1, h2⟩, rfl⟩ := acquire_some ha
    exact ⟨⟨sl, h1, h2⟩, { sl with state := .Reserved },
      by rw [getElem?_modifySlot_self, h1]; rfl, rfl⟩
  · intro hcap i h ci hi hs
    obtain ⟨sl, h1, h2⟩ := Caller.ok_slot_not_free (hinv.1 i ci hi) hs
    obtain ⟨rfl, ht⟩ := table_eq_singleton (hlen.trans hcap) h1
    have hb : acquire (run d s0 as).table = none := by
      rw [acquire_eq_none_iff, ht]
      intro sl2 hsl2
      rw [List.mem_singleton] at hsl2
      rw [hsl2]
      exact h2
    refine ⟨rfl, hb, fun j req hj => step_caller_busy d hj hb, ?_⟩
    rw [ht]
    exact ⟨[{ sl with state := .Reserved }],
      by simp [release, modifySlot, acquire, findFree]⟩

/-- C8 instance: capacity 1 and two threads.  While thread 0 holds the only slot, the
`acquire` of thread 1 is `Busy`. -/
theorem acquire_busy_when_exhausted_witness :
    (emptySystem 1 2).initial = true ∧
    acquire (run fakeDispatcher (emptySystem 1 2)
      [.invoke 0 ⟨1, [0, 1, 2, 0, 0, 0, 0, 0]⟩, .invoke 1 ⟨2, [0, 0, 0, 0, 0, 0, 0, 0]⟩,
       .caller 0, .caller 1, .caller 0]).table = none :=
  ⟨by decide,
    ((acquire_busy_when_exhausted fakeDispatcher (emptySystem 1 2) (by decide)
      [.invoke 0 ⟨1, [0, 1, 2, 0, 0, 0, 0, 0]⟩, .invoke 1 ⟨2, [0, 0, 0, 0, 0, 0, 0, 0]⟩,
       .caller 0, .caller 1, .caller 0]).2.2.2.2.2 rfl 0 0
      (.written 0 ⟨1, [0, 1, 2, 0, 0, 0, 0, 0]⟩) (by decide) rfl).2.1⟩

theorem callerStep_returned {t : SlotTable} {c : Caller} {req : CallPacket}
    {r : ReplyPacket} (h : (callerStep t c).2 = .returned req r) :
    c = .returned req r ∨ ∃ hs, c = .consumed hs req r := by
  cases c with
  | idle => simp [callerStep] at h
  | returned req1 r1 => exact Or.inl h
  | start req1 =>
    cases ha : acquire t with
    | none => simp [callerStep, ha] at h
    | some p => simp [callerStep, ha] at h
  | reserved h1 req1 => simp [callerStep] at h
  | written h1 req1 => simp [callerStep] at h
  | waiting h1 req1 =>
    simp only [callerStep] at h
    cases hsl : t[h1]? with
    | none => simp [hsl] at h
    | some sl =>
      by_cases hc : sl.state = .Completed <;> simp [hsl, hc] at h
  | consumed h1 req1 r1 =>
    simp only [callerStep, Caller.returned.injEq] at h
    obtain ⟨rfl, rfl⟩ := h
    exact Or.inr ⟨h1, rfl⟩

/-- C9: `call` uses one slot and gives it back.  In every state reachable from an initial
system, a step of thread `i` changes no slot other than the one the thread holds before or
after the step and no other thread; entering `call` changes no slot; a thread reaches
`returned` only from `consumed`, by the step that releases its slot, which is `Free`
afterwards; and a complete `call` (with a registered or an unknown service alike) leaves
its slot `Free`, every other slot as it was and every other thread as it was. -/
theorem call_releases_its_slot (d : Dispatcher) (s0 : System) (h0 : s0.initial = true)
    (as : List Action) (i : Nat) :
    (∀ k, (∀ (c : Caller) (h : Nat), ((run d s0 as).callers[i]? = some c ∨
          (step d (run d s0 as) (.caller i)).callers[i]? = some c) →
          c.slot? = some h → k ≠ h) →
      (step d (run d s0 as) (.caller i)).table[k]? = (run d s0 as).table[k]?) ∧
    (∀ j, j ≠ i →
      (step d (run d s0 as) (.caller i)).callers[j]? = (run d s0 as).callers[j]?) ∧
    (∀ req, (step d (run d s0 as) (.invoke i req)).table = (run d s0 as).table) ∧
    (∀ req r, (step d (run d s0 as) (.caller i)).callers[i]? = some (.returned req r) →
      (run d s0 as).callers[i]? = some (.returned req r) ∨
      ∃ h, (run d s0 as).callers[i]? = some (.consumed h req r) ∧
        ∃ sl, (step d (run d s0 as) (.caller i)).table[h]? = some sl ∧ sl.state = .Free) ∧
    (∀ (c : Caller) (h : Nat) (req : CallPacket), (run d s0 as).callers[i]? = some c →
      c.canInvoke = true → req.valid = true → findFree (run d s0 as).table = some h →
        (run d (run d s0 as) (callSchedule i req h)).callers[i]?
          = some (.returned req (d.replyFor req)) ∧
        (∃ sl, (run d (run d s0 as) (callSchedule i req h)).table[h]? = some sl ∧
          sl.state = .Free) ∧
        (∀ k, k ≠ h → (run d (run d s0 as) (callSchedule i req h)).table[k]?
          = (run d s0 as).table[k]?) ∧
        (∀ j, j ≠ i → (run d (run d s0 as) (callSchedule i req h)).callers[j]?
          = (run d s0 as).callers[j]?)) := by
  have hinv := inv_reachable d h0 as
  generalize run d s0 as = s at hinv ⊢
  refine ⟨?_, ?_, fun req => table_step_invoke d s i req, ?_, ?_⟩
  · intro k hk
    cases hi : s.callers[i]? with
    | none => simp [step, hi]
    | some c =>
      have hilt : i < s.callers.length := (List.getElem?_eq_some.1 hi).1
      have e : (step d s (.caller i)).callers[i]? = some (callerStep s.table c).2 := by
        simp only [step, hi]
        exact List.getElem?_set_self hilt
      simp only [step, hi]
      apply callerStep_frame
      intro h hh
      rcases hh with hh | hh
      · exact hk c h (Or.inl hi) hh
      · exact hk _ h (Or.inr e) hh
  · intro j hj
    cases hi : s.callers[i]? with
    | none => simp [step, hi]
    | some c =>
      simp only [step, hi]
      exact List.getElem?_set_ne (fun e => hj e.symm)
  · intro req r hret
    cases hi : s.callers[i]? with
    | none =>
      simp only [step, hi] at hret
      cases hret
    | some c =>
      have hilt : i < s.callers.length := (List.getElem?_eq_some.1 hi).1
      simp only [step, hi] at hret ⊢
      rw [List.getElem?_set_self hilt] at hret
      simp only [Option.some.injEq] at hret
      rcases callerStep_returned hret with rfl | ⟨hs, rfl⟩
      · exact Or.inl rfl
      · right
        obtain ⟨_, ⟨sl, h1, _⟩, _⟩ := hinv.1 i _ hi
        refine ⟨hs, rfl, { sl with state := .Free }, ?_, rfl⟩
        simp only [callerStep, release]
        rw [getElem?_modifySlot_self, h1]
        rfl
  · intro c h req hi hc hv hf
    obtain ⟨sl0, hsl0, _⟩ := findFree_some hf
    rw [run_callSchedule d hi hc hv hf]
    refine ⟨List.getElem?_set_self (List.getElem?_eq_some.1 hi).1, ?_, ?_, ?_⟩
    · exact ⟨_, by simp only [getElem?_modifySlot_self, hsl0]; rfl, rfl⟩
    · intro k hk
      exact getElem?_modifySlot_ne _ _ hk
    · intro j hj
      exact List.getElem?_set_ne (fun e => hj e.symm)

/-- C9 instance: thread 0 completes a call with an unregistered service on slot 1 while
thread 1 has a call in flight on slot 0; afterwards slot 1 is `Free` again. -/
theorem call_releases_its_slot_witness :
    (emptySystem 2 2).initial = true ∧
    ∃ sl, (run fakeDispatcher
        (run fakeDispatcher (emptySystem 2 2)
          [.invoke 1 ⟨SERVICE_ID_PRINTF, [1, 2, 3, 4, 5, 6, 7, 8]⟩, .caller 1, .caller 1])
        (callSchedule 0 ⟨77, [0, 0, 0, 0, 0, 0, 0, 0]⟩ 1)).table[1]? = some sl ∧
      sl.state = .Free :=
  ⟨by decide,
    ((call_releases_its_slot fakeDispatcher (emptySystem 2 2) (by decide)
      [.invoke 1 ⟨SERVICE_ID_PRINTF, [1, 2, 3, 4, 5, 6, 7, 8]⟩, .caller 1, .caller 1]
      0).2.2.2.2 .idle 1 ⟨77, [0, 0, 0, 0, 0, 0, 0, 0]⟩ (by decide) rfl (by decide)
        (by decide)).2.1⟩

/-! ### Distinctness of names and labels -/

theorem testBit_of_land_shiftLeft_eq_zero {acc r : Nat}
    (h : Nat.land acc (Nat.shiftLeft 1 r) = 0) : acc.testBit r = false := by
  have h1 : (acc &&& 1 <<< r).testBit r = false := by
    have : (acc &&& 1 <<< r) = 0 := h
    rw [this]
    simp
  rw [Nat.testBit_and, Nat.one_shiftLeft, Nat.testBit_two_pow] at h1
  simpa using h1

theorem distinctBits_sound : ∀ (l : List Nat) (acc : Nat), distinctBits acc l = true →
    l.Nodup ∧ ∀ x ∈ l, acc.testBit x = false := by
  intro l
  induction l with
  | nil => intro acc _; simp
  | cons r rs ih =>
    intro acc h
    unfold distinctBits at h
    split at h
    · rename_i hz
      have hr : acc.testBit r = false := testBit_of_land_shiftLeft_eq_zero hz
      obtain ⟨hnd, hall⟩ := ih _ h
      have hacc : ∀ x, (Nat.lor acc (Nat.shiftLeft 1 r)).testBit x
          = (acc.testBit x || decide (x = r)) := by
        intro x
        show (acc ||| 1 <<< r).testBit x = _
        rw [Nat.testBit_or, Nat.one_shiftLeft, Nat.testBit_two_pow]
        by_cases hx : x = r
        · subst hx; simp
        · have hx2 : ¬ r = x := fun e => hx e.symm
          simp [hx, hx2]
      refine ⟨List.nodup_cons.2 ⟨?_, hnd⟩, ?_⟩
      · intro hmem
        have := hall r hmem
        rw [hacc] at this
        simp at this
      · intro x hx
        rcases List.mem_cons.1 hx with rfl | hx
        · exact hr
        · have := hall x hx
          rw [hacc] at this
          simp only [Bool.or_eq_false_iff] at this
          exact this.1
    · cases h

theorem nodup_of_distinct_keys {α : Type} (f : α → Nat) (l : List α)
    (h : distinctBits 0 (l.map f) = true) : l.Nodup :=
  List.Nodup.of_map f (distinctBits_sound _ 0 h).1

set_option maxRecDepth 100000 in
theorem irif_names_nodup : (irif.map FunDecl.name).Nodup :=
  nodup_of_distinct_keys nameKey _ (by decide!)

set_option maxRecDepth 100000 in
theorem irif_labels_nodup : (irif.filterMap FunDecl.asmLabel).Nodup :=
  nodup_of_distinct_keys nameKey _ (by decide!)

theorem eq_of_nodup_filterMap {α β : Type} {f : α → Option β} :
    ∀ {l : List α}, (l.filterMap f).Nodup →
      ∀ a ∈ l, ∀ b ∈ l, (f a).isSome = true → f a = f b → a = b := by
  intro l
  induction l with
  | nil => intro _ a ha; cases ha
  | cons x xs ih =>
    intro hnd a ha b hb hs he
    have htail : (xs.filterMap f).Nodup := by
      cases hx : f x with
      | none => simpa [List.filterMap_cons, hx] using hnd
      | some y =>
        rw [List.filterMap_cons, hx] at hnd
        exact (List.nodup_cons.1 hnd).2
    have hcross : ∀ c ∈ xs, (f x).isSome = true → f x = f c → False := by
      intro c hc hsx hxc
      cases hx : f x with
      | none => simp [hx] at hsx
      | some y =>
        rw [List.filterMap_cons, hx] at hnd
        exact (List.nodup_cons.1 hnd).1 (List.mem_filterMap.2 ⟨c, hc, by rw [← hxc, hx]⟩)
    rcases List.mem_cons.1 ha with hax | hax <;> rcases List.mem_cons.1 hb with hbx | hbx
    · rw [hax, hbx]
    · subst hax
      exact (hcross b hbx hs he).elim
    · subst hbx
      exact (hcross a hax (by rw [← he]; exact hs) he.symm).elim
    · exact ih htail a hax b hbx hs he

/-! ### The intrinsic declarations of `irif.h` -/

/-- C12: the aliases of `irif.h` are one-to-one.  No two declarations carry the same
`__asm` label, no C name is declared twice, and two declarations of the header that carry
the same label are the same declaration. -/
theorem irif_aliases_one_to_one :
    (irif.filterMap FunDecl.asmLabel).Nodup ∧
    (irif.map FunDecl.name).Nodup ∧
    irif.length = 434 ∧ (irif.filterMap FunDecl.asmLabel).length = 294 ∧
    (∀ d1 ∈ irif, ∀ d2 ∈ irif, d1.asmLabel.isSome = true → d1.asmLabel = d2.asmLabel →
      d1 = d2) := by
  refine ⟨irif_labels_nodup, irif_names_nodup, by decide!, by decide!, ?_⟩
  exact eq_of_nodup_filterMap irif_labels_nodup

set_option maxRecDepth 100000

theorem mem_filter_names {l : List FunDecl} {p : FunDecl → Bool} {d : FunDecl}
    (hd : d ∈ l) (hp : p d = true) : d.name ∈ (l.filter p).map FunDecl.name :=
  List.mem_map.2 ⟨d, List.mem_filter.2 ⟨hd, hp⟩, rfl⟩

theorem and_of_left_imp {a b : Prop} (ha : a) (hb : a → b) : a ∧ b :=
  ⟨ha, hb ha⟩

/-- C13 on the code: the `__asm` label of a declaration of `irif.h` is the mechanical
translation of its C name, as for `__llvm_amdgcn_frexp_exp_i16_f16` and `__llvm_fma_2f16`,
for every labelled declaration except six.  `__llvm_amdgcn_groupstaticsize` is bound to
the misspelt `llvm.amdgcn.groutstaticsize`; the six are listed with their label and the
translation of their name. -/
theorem irif_label_deviations :
    mechanicalLabel "__llvm_amdgcn_frexp_exp_i16_f16" = some "llvm.amdgcn.frexp.exp.i16.f16" ∧
    mechanicalLabel "__llvm_fma_2f16" = some "llvm.fma.v2f16" ∧
    (irif.filter (fun d => d.asmLabel.isSome)).length = 294 ∧
    (irif.filter (fun d => d.asmLabel.isSome && d.asmLabel != mechanicalLabel d.name)).map
        (fun d => (d.name, d.asmLabel, mechanicalLabel d.name)) =
      [ ("__llvm_amdgcn_groupstaticsize",
          some "llvm.amdgcn.groutstaticsize", some "llvm.amdgcn.groupstaticsize"),
        ("__llvm_amdcgn_buffer_wbinvl1_vol",
          some "llvm.amdgcn.buffer.wbinvl1.vol", some "llvm.amdcgn.buffer.wbinvl1.vol"),
        ("__llvm_amdgcn_image_gather4_l_2d_v4f32_f32",
          some "llvm.image.amdgcn.gather4.l.2d.v4f32.f32",
          some "llvm.amdgcn.image.gather4.l.2d.v4f32.f32"),
        ("__llvm_amdgcn_gather_4h_2d_v4f32_f32",
          some "llvm.amdgcn.image.gather.4h.2d.v4f32.f32",
          some "llvm.amdgcn.gather.4h.2d.v4f32.f32"),
        ("__llvm_amdgcn_gather_4h_cube_v4f32_f32",
          some "llvm.image.amdgcn.gather.4h.cube.v4f32.f32",
          some "llvm.amdgcn.gather.4h.cube.v4f32.f32"),
        ("__llvm_amdgcn_gather_4h_2darray_v4f32_f32",
          some "llvm.image.amdgcn.gather.4h.2darray.v4f32.f32",
          some "llvm.amdgcn.gather.4h.2darray.v4f32.f32") ] ∧
    (∀ d ∈ irif, d.asmLabel.isSome = true →
      d.name ∉ ["__llvm_amdgcn_groupstaticsize", "__llvm_amdcgn_buffer_wbinvl1_vol",
        "__llvm_amdgcn_image_gather4_l_2d_v4f32_f32", "__llvm_amdgcn_gather_4h_2d_v4f32_f32",
        "__llvm_amdgcn_gather_4h_cube_v4f32_f32",
        "__llvm_amdgcn_gather_4h_2darray_v4f32_f32"] →
      d.asmLabel = mechanicalLabel d.name) := by
  refine ⟨by decide!, by decide!, by decide!, ?_⟩
  refine and_of_left_imp ?_ ?_
  · decide!
  intro hdev d hd hs hn
  by_contra hne
  apply hn
  have hmem := mem_filter_names (p := fun d => d.asmLabel.isSome &&
    d.asmLabel != mechanicalLabel d.name) hd (by simp [hs, hne])
  have hnames := congrArg (List.map Prod.fst) hdev
  rw [List.map_map] at hnames
  have e : (Prod.fst ∘ fun d : FunDecl => (d.name, d.asmLabel, mechanicalLabel d.name))
      = FunDecl.name := rfl
  rw [e] at hnames
  rw [hnames] at hmem
  exact hmem

/-- C14 on the code: of the 226 labelled declarations of `irif.h` whose C name begins with
`__llvm_amdgcn_`, all are bound to a label beginning with `llvm.amdgcn.` except three
gather declarations, which are bound to labels beginning with `llvm.image.amdgcn.`; the
other six gather declarations are bound to `llvm.amdgcn.image.` labels. -/
theorem irif_target_namespace_deviations :
    (irif.filter (fun d => d.nameInTargetNamespace && d.asmLabel.isSome)).length = 226 ∧
    imageGather.map (fun d => (d.name, d.asmLabel)) =
      [ ("__llvm_amdgcn_image_gather4_lz_2d_v4f32_f32",
          some "llvm.amdgcn.image.gather4.lz.2d.v4f32.f32"),
        ("__llvm_amdgcn_image_gather4_l_2d_v4f32_f32",
          some "llvm.image.amdgcn.gather4.l.2d.v4f32.f32"),
        ("__llvm_amdgcn_image_gather4_lz_cube_v4f32_f32",
          some "llvm.amdgcn.image.gather4.lz.cube.v4f32.f32"),
        ("__llvm_amdgcn_image_gather4_l_cube_v4f32_f32",
          some "llvm.amdgcn.image.gather4.l.cube.v4f32.f32"),
        ("__llvm_amdgcn_image_gather4_lz_2darray_v4f32_f32",
          some "llvm.amdgcn.image.gather4.lz.2darray.v4f32.f32"),
        ("__llvm_amdgcn_image_gather4_l_2darray_v4f32_f32",
          some "llvm.amdgcn.image.gather4.l.2darray.v4f32.f32"),
        ("__llvm_amdgcn_gather_4h_2d_v4f32_f32",
          some "llvm.amdgcn.image.gather.4h.2d.v4f32.f32"),
        ("__llvm_amdgcn_gather_4h_cube_v4f32_f32",
          some "llvm.image.amdgcn.gather.4h.cube.v4f32.f32"),
        ("__llvm_amdgcn_gather_4h_2darray_v4f32_f32",
          some "llvm.image.amdgcn.gather.4h.2darray.v4f32.f32") ] ∧
    ((irif.filter (fun d => d.nameInTargetNamespace && d.asmLabel.isSome &&
        !d.labelInTargetNamespace)).map FunDecl.name =
      [ "__llvm_amdgcn_image_gather4_l_2d_v4f32_f32",
        "__llvm_amdgcn_gather_4h_cube_v4f32_f32",
        "__llvm_amdgcn_gather_4h_2darray_v4f32_f32" ]) ∧
    (∀ d ∈ irif, d.nameInTargetNamespace = true → d.asmLabel.isSome = true →
      d.name ∉ ["__llvm_amdgcn_image_gather4_l_2d_v4f32_f32",
        "__llvm_amdgcn_gather_4h_cube_v4f32_f32",
        "__llvm_amdgcn_gather_4h_2darray_v4f32_f32"] →
      d.labelInTargetNamespace = true) := by
  refine ⟨by decide!, by decide!, ?_⟩
  refine and_of_left_imp ?_ ?_
  · decide!
  intro hdev d hd hn hs hnot
  by_contra hne
  apply hnot
  have hmem := mem_filter_names (p := fun d => d.nameInTargetNamespace &&
    d.asmLabel.isSome && !d.labelInTargetNamespace) hd (by simp [hn, hs, hne])
  rw [hdev] at hmem
  exact hmem

theorem section_subset_irif :
    fenceIntrinsics ⊆ irif ∧ atomics ⊆ irif ∧ constrainedFloatingPoint ⊆ irif ∧
    imageLoad ⊆ irif ∧ imageStore ⊆ irif := by
  refine ⟨?_, ?_, ?_, ?_, ?_⟩ <;> intro d hd <;> simp only [irif, List.mem_append] <;> tauto

theorem count_name_eq_one {l : List FunDecl} (hl : l ⊆ irif) {n : String}
    (hn : n ∈ l.map FunDecl.name) : (irif.map FunDecl.name).count n = 1 := by
  obtain ⟨d, hd, rfl⟩ := List.mem_map.1 hn
  exact List.count_eq_one_of_mem irif_names_nodup (List.mem_map.2 ⟨d, hl hd, rfl⟩)

/-- C15: no side-effecting declaration of `irif.h` is marked side-effect free.  Each of the
110 declarations that return `void` or take a pointer parameter carries neither `const`
nor `pure`; these include every fence, every atomic, every image store, `s_sleep`,
`s_waitcnt`, the cache write-back and invalidate declarations and the buffer stores. -/
theorem side_effecting_not_marked_pure :
    (irif.filter FunDecl.returnsVoidOrTakesPointer).length = 110 ∧
    (∀ d ∈ irif, d.returnsVoidOrTakesPointer = true →
      "const" ∉ d.attrs ∧ "pure" ∉ d.attrs) ∧
    (∀ d ∈ fenceIntrinsics ++ atomics ++ imageStore, d.returnsVoidOrTakesPointer = true) ∧
    (∀ n ∈ ["__llvm_amdgcn_s_sleep", "__llvm_amdgcn_s_waitcnt",
        "__llvm_amdgcn_s_dcache_inv_vol", "__llvm_amdgcn_s_dcache_wb",
        "__llvm_amdgcn_s_dcache_wb_vol", "__llvm_amdcgn_buffer_wbinvl1_vol",
        "__llvm_amdgcn_buffer_store_format_v4f32", "__llvm_amdgcn_buffer_store_format_v4f16"],
      ∃ d ∈ amdgpuIntrinsics ++ bufferLoadStore,
        d.name = n ∧ d.returnsVoidOrTakesPointer = true) := by
  refine ⟨by decide!, by decide!, by decide!, by decide!⟩

/-- C17: the fence surface is complete and uniform.  The fence section of `irif.h`
declares exactly the 20 functions `__llvm_fence_<ordering>_<scope>`, one per ordering in
`acq`, `rel`, `ar`, `sc` and scope in `wi`, `sg`, `wg`, `dev`, `sys`; each takes no
argument and returns `void`; no other declaration of the header has a name beginning with
`__llvm_fence_`, and each fence name is declared exactly once in the header. -/
theorem fence_surface_complete :
    fenceNames.length = 20 ∧ fenceNames.Nodup ∧
    fenceIntrinsics.map FunDecl.name = fenceNames ∧
    (∀ d ∈ fenceIntrinsics, d.params = [] ∧ d.ret = CType.void) ∧
    irif.filter (fun d => "__llvm_fence_".data.isPrefixOf d.name.data) = fenceIntrinsics ∧
    (∀ n ∈ fenceNames, (irif.map FunDecl.name).count n = 1) := by
  have hnames : fenceIntrinsics.map FunDecl.name = fenceNames := by decide!
  refine ⟨by decide!, by decide!, hnames, by decide!, by decide!, ?_⟩
  intro n hn
  rw [← hnames] at hn
  exact count_name_eq_one section_subset_irif.1 hn

/-- C18: the constrained floating-point surface is a complete grid.  The section of
`irif.h` equals the grid of the 6 operations, 4 rounding modes and 3 types (72
declarations): each is marked `const`, takes 2 operands for add, sub, mul and div, 1 for
sqrt and 3 for fma, and operands and result have the type named by the suffix (`half`,
`float`, `double`); each grid name is declared exactly once in the header. -/
theorem constrained_fp_grid_complete :
    constrainedGrid.length = 72 ∧
    constrainedFloatingPoint = constrainedGrid ∧
    (∀ d ∈ constrainedFloatingPoint, d.attrs = ["const"] ∧
      (∀ p ∈ d.params, p.ty = d.ret) ∧ d.ret ∈ [half, float, double]) ∧
    (∀ n ∈ constrainedGrid.map FunDecl.name, (irif.map FunDecl.name).count n = 1) := by
  have hgrid : constrainedFloatingPoint = constrainedGrid := by decide!
  have hlen : constrainedGrid.length = 72 := by decide!
  have hty : ∀ d ∈ constrainedFloatingPoint, d.attrs = ["const"] ∧
      (∀ p ∈ d.params, p.ty = d.ret) ∧ d.ret ∈ [half, float, double] := by decide!
  refine ⟨hlen, hgrid, hty, ?_⟩
  intro n hn
  rw [← hgrid] at hn
  exact count_name_eq_one section_subset_irif.2.2.1 hn

/-- C19: image load and store declarations mirror each other.  The 42 load declarations
of `irif.h` are exactly `__llvm_amdgcn_image_load_<dim>_<T>_i32` for the 14
dimensionalities and the 3 pixel types, each returning its pixel type; the 42 store
declarations are, one for one and in the same order, their mirrors: same name with
`store` for `load`, result `void`, parameters one pixel of the type the load returns
followed by the load parameters unchanged.  No other declaration of the header has a
load or store name, and each of these names is declared exactly once. -/
theorem image_load_store_mirror :
    imageDims.length = 14 ∧ pixelTypes.length = 3 ∧ imageLoad.length = 42 ∧
    imageLoad.map (fun d => (d.name, d.ret)) = imageLoadGrid ∧
    imageStore = imageLoad.map storeOf ∧
    (∀ d ∈ imageStore, d.ret = CType.void) ∧
    irif.filter (fun d => "__llvm_amdgcn_image_load_".data.isPrefixOf d.name.data)
      = imageLoad ∧
    irif.filter (fun d => "__llvm_amdgcn_image_store_".data.isPrefixOf d.name.data)
      = imageStore ∧
    (∀ n ∈ (imageLoad ++ imageStore).map FunDecl.name,
      (irif.map FunDecl.name).count n = 1) := by
  have h1 : imageLoad.map (fun d => (d.name, d.ret)) = imageLoadGrid := by decide!
  have h2 : imageStore = imageLoad.map storeOf := by decide!
  have h3 : ∀ d ∈ imageStore, d.ret = CType.void := by decide!
  have h4 : irif.filter (fun d => "__llvm_amdgcn_image_load_".data.isPrefixOf d.name.data)
      = imageLoad := by decide!
  have h5 : irif.filter (fun d => "__llvm_amdgcn_image_store_".data.isPrefixOf d.name.data)
      = imageStore := by decide!
  refine ⟨by decide!, by decide!, by decide!, h1, h2, h3, h4, h5, ?_⟩
  intro n hn
  rw [List.map_append, List.mem_append] at hn
  rcases hn with hn | hn
  · exact count_name_eq_one section_subset_irif.2.2.2.1 hn
  · exact count_name_eq_one section_subset_irif.2.2.2.2 hn

/-- C16 as stated fails: `__llvm_atomic_max_a1_x_dev_i32` is declared with result `uint`
on a `__global int *`, so not every value-returning atomic returns the pointee type of its
pointer parameter. -/
theorem atomic_max_returns_unsigned :
    FunDecl.mk [] uint "__llvm_atomic_max_a1_x_dev_i32"
      [⟨.ptr .global int, none⟩, ⟨int, none⟩] none ∈ atomics ∧
    ¬ (∀ d ∈ atomics, d.ret ≠ CType.void →
        d.pointee? = some d.ret ∧ ∀ t ∈ d.valueOperands, t = d.ret) := by
  refine ⟨by decide!, by decide!⟩

/-- C16 (amended): every atomic declaration of `irif.h` that returns a value returns the
unsigned integer type of the width named by its suffix (`uint` for `_i32`, `ulong` for
`_i64`); the pointee of its pointer parameter is an integer type of that same width and
every value operand has exactly the pointee type; the result type equals the pointee type
for load, add, and, or, umax, umin and cmpxchg, and differs from it in signedness only for
the eight signed `max` and `min` declarations (pointee `int` or `long`). -/
theorem atomic_result_width_matches :
    (atomics.filter (fun d => d.ret != CType.void)).length = 36 ∧
    (∀ d ∈ atomics, d.ret ≠ CType.void →
      (∀ t ∈ d.valueOperands, some t = d.pointee?) ∧
      ((endsWithText "_i32" d.name = true ∧ d.ret = uint ∧
          (d.pointee? = some uint ∨ d.pointee? = some int)) ∨
       (endsWithText "_i64" d.name = true ∧ d.ret = ulong ∧
          (d.pointee? = some ulong ∨ d.pointee? = some long)))) ∧
    (atomics.filter (fun d => d.ret != CType.void && d.pointee? != some d.ret)).map
        FunDecl.name =
      [ "__llvm_atomic_max_a1_x_dev_i32", "__llvm_atomic_max_a1_x_dev_i64",
        "__llvm_atomic_max_a3_x_wg_i32", "__llvm_atomic_max_a3_x_wg_i64",
        "__llvm_atomic_min_a1_x_dev_i32", "__llvm_atomic_min_a1_x_dev_i64",
        "__llvm_atomic_min_a3_x_wg_i32", "__llvm_atomic_min_a3_x_wg_i64" ] ∧
    uint = CType.scalar (.int .unsigned 32) ∧ int = CType.scalar (.int .signed 32) ∧
    ulong = CType.scalar (.int .unsigned 64) ∧ long = CType.scalar (.int .signed 64) := by
  refine ⟨by decide!, by decide!, by decide!, rfl, rfl, rfl, rfl⟩

/-- C20: atomic declarations name their address space and scope consistently.  The 40
atomic declarations of `irif.h` are exactly the 10 operations times the four combinations
of `a1` with `dev` or `a3` with `wg` and `i32` or `i64`, each declared once; a name
containing `_a1_` goes with a `__global` pointer and the scope `dev`, a name containing
`_a3_` with a `__local` pointer and the scope `wg`; every atomic name contains exactly one
of the two. -/
theorem atomic_names_consistent :
    atomicNames.length = 40 ∧ atomicNames.Nodup ∧ atomics.length = 40 ∧
    (∀ n ∈ atomicNames, n ∈ atomics.map FunDecl.name) ∧
    (∀ d ∈ atomics, d.name ∈ atomicNames) ∧
    (∀ d ∈ atomics,
      (containsText "_a1_" d.name = true →
        d.pointerSpace? = some .global ∧ containsText "_dev_" d.name = true ∧
        containsText "_wg_" d.name = false) ∧
      (containsText "_a3_" d.name = true →
        d.pointerSpace? = some .loc ∧ containsText "_wg_" d.name = true ∧
        containsText "_dev_" d.name = false) ∧
      containsText "_a1_" d.name ≠ containsText "_a3_" d.name) ∧
    (∀ n ∈ atomicNames, (irif.map FunDecl.name).count n = 1) := by
  have h1 : ∀ n ∈ atomicNames, n ∈ atomics.map FunDecl.name := by decide!
  have h2 : ∀ d ∈ atomics, d.name ∈ atomicNames := by decide!
  have h3 : ∀ d ∈ atomics,
      (containsText "_a1_" d.name = true →
        d.pointerSpace? = some .global ∧ containsText "_dev_" d.name = true ∧
        containsText "_wg_" d.name = false) ∧
      (containsText "_a3_" d.name = true →
        d.pointerSpace? = some .loc ∧ containsText "_wg_" d.name = true ∧
        containsText "_dev_" d.name = false) ∧
      containsText "_a1_" d.name ≠ containsText "_a3_" d.name := by decide!
  refine ⟨by decide!, by decide!, by decide!, h1, h2, h3, ?_⟩
  intro n hn
  exact count_name_eq_one section_subset_irif.2.1 (h1 n hn)

/-! ### Liveness -/

theorem step_preserves_submitted {d : Dispatcher} {s : System} (hinv : Inv d s) {k : Nat}
    {sl : CallSlot} (hk : s.table[k]? = some sl) (hs : sl.state = .Submitted)
    {a : Action} (ha : a ≠ .dispatch k) : (step d s a).table[k]? = some sl := by
  cases a with
  | invoke i req => rw [table_step_invoke, hk]
  | dispatch h =>
    have hkh : k ≠ h := fun e => ha (by rw [e])
    have e : (step d s (.dispatch h)).table = d.serve s.table h := rfl
    rw [e, d.getElem?_serve h hk, if_neg (fun hc => hkh hc.1)]
  | caller i =>
    simp only [step]
    cases hi : s.callers[i]? with
    | none => exact hk
    | some c =>
      have hc := hinv.1 i c hi
      simp only
      -- a slot this caller writes to is not `Submitted`
      have hmod : ∀ (h : Nat) (f : CallSlot → CallSlot),
          (∀ sl0, s.table[h]? = some sl0 → sl0.state ≠ .Submitted) →
          (modifySlot s.table h f)[k]? = some sl := by
        intro h f hne
        by_cases hkh : k = h
        · subst hkh
          exact absurd hs (hne sl hk)
        · rw [getElem?_modifySlot_ne _ _ hkh, hk]
      cases c with
      | idle => exact hk
      | returned req r => exact hk
      | start req =>
        cases hacq : acquire s.table with
        | none => simpa [callerStep, hacq] using hk
        | some p =>
          obtain ⟨h, t1⟩ := p
          obtain ⟨⟨sl0, h1, h2⟩, rfl⟩ := acquire_some hacq
          simp only [callerStep, hacq]
          apply hmod
          intro sl1 h3
          rw [h1] at h3
          cases h3
          rw [h2]
          decide
      | reserved h req =>
        obtain ⟨_, sl0, h1, h2⟩ := hc
        simp only [callerStep, writePacket]
        apply hmod
        intro sl1 h3
        rw [h1] at h3
        cases h3
        rw [h2]
        decide
      | written h req =>
        obtain ⟨_, sl0, h1, h2, _⟩ := hc
        simp only [callerStep, markSubmitted]
        apply hmod
        intro sl1 h3
        rw [h1] at h3
        cases h3
        rw [h2]
        decide
      | waiting h req =>
        simp only [callerStep]
        cases s.table[h]? with
        | none => exact hk
        | some sl0 => by_cases hcp : sl0.state = .Completed <;> simpa [hcp] using hk
      | consumed h req r =>
        obtain ⟨_, ⟨sl0, h1, h2⟩, _⟩ := hc
        simp only [callerStep, release]
        apply hmod
        intro sl1 h3
        rw [h1] at h3
        cases h3
        rw [h2]
        decide

theorem run_preserves_submitted {d : Dispatcher} {k : Nat} {sl : CallSlot}
    (hs : sl.state = .Submitted) :
    ∀ (bs : List Action) {s : System}, Inv d s → s.table[k]? = some sl →
      Action.dispatch k ∉ bs → Inv d (run d s bs) ∧ (run d s bs).table[k]? = some sl := by
  intro bs
  induction bs with
  | nil => intro s hinv hk _; exact ⟨hinv, hk⟩
  | cons a rest ih =>
    intro s hinv hk hnot
    have ha : a ≠ .dispatch k := fun e => hnot (by rw [e]; exact List.mem_cons_self _ _)
    have hrest : Action.dispatch k ∉ rest := fun h => hnot (List.mem_cons_of_mem _ h)
    exact ih (inv_step hinv a) (step_preserves_submitted hinv hk hs ha) hrest

theorem run_dispatch_list (d : Dispatcher) {k : Nat} :
    ∀ (hs : List Nat) {s : System} {sl : CallSlot}, s.table[k]? = some sl →
      (run d s (hs.map Action.dispatch)).table[k]?
        = some (if k ∈ hs ∧ sl.state = .Submitted then d.completed sl else sl) := by
  intro hs
  induction hs with
  | nil => intro s sl hk; simpa [run] using hk
  | cons h rest ih =>
    intro s sl hk
    have e : (step d s (.dispatch h)).table = d.serve s.table h := rfl
    have hstep := d.getElem?_serve h hk
    rw [← e] at hstep
    simp only [List.map_cons, run, List.foldl_cons]
    have := ih (s := step d s (.dispatch h)) hstep
    simp only [run] at this
    rw [this]
    by_cases hc : k = h ∧ sl.state = .Submitted
    · simp [hc.1, hc.2, Dispatcher.completed]
    · rw [if_neg hc]
      by_cases hsub : sl.state = .Submitted
      · have hkh : k ≠ h := fun e => hc ⟨e, hsub⟩
        simp [hsub, hkh]
      · simp [hsub]

/-- C11: liveness.  Handlers are total functions of the argument words, so serving a slot
never blocks.  In every state reachable from an initial system, a slot that is `Submitted`
is `Completed`, with the reply of its own packet, after one dispatcher polling cycle; under
any interleaving with caller steps it stays as it is until the dispatcher serves it and is
`Completed` by that very step; and when the registered handler of its service fails, the
reply written is the sentinel reply, so the slot is completed all the same. -/
theorem submitted_reaches_completed (d : Dispatcher) (s0 : System) (h0 : s0.initial = true)
    (as : List Action) (k : Nat) (sl : CallSlot)
    (hk : (run d s0 as).table[k]? = some sl) (hs : sl.state = .Submitted) :
    (run d (run d s0 as) (pollCycle s0.table.length)).table[k]?
      = some { sl with reply := d.replyFor sl.packet, state := .Completed } ∧
    (∀ bs, Action.dispatch k ∉ bs → (run d (run d s0 as) bs).table[k]? = some sl) ∧
    (∀ bs, Action.dispatch k ∉ bs →
      (run d (run d s0 as) (bs ++ [.dispatch k])).table[k]?
        = some { sl with reply := d.replyFor sl.packet, state := .Completed }) ∧
    (∀ (d0 : Dispatcher) (f : FallibleHandler), d = d0.register sl.packet.service_id f →
      f sl.packet.args = none → d.replyFor sl.packet = d.sentinelReply) := by
  have hinv := inv_reachable d h0 as
  refine ⟨?_, ?_, ?_, ?_⟩
  · have hlt : k < s0.table.length := by
      rw [← length_run d s0 as]
      exact (List.getElem?_eq_some.1 hk).1
    rw [pollCycle, run_dispatch_list d _ hk, if_pos ⟨List.mem_range.2 hlt, hs⟩]
    rfl
  · intro bs hnot
    exact (run_preserves_submitted hs bs hinv hk hnot).2
  · intro bs hnot
    have hpre := (run_preserves_submitted hs bs hinv hk hnot).2
    have e : run d (run d s0 as) (bs ++ [.dispatch k])
        = step d (run d (run d s0 as) bs) (.dispatch k) := by
      simp [run, List.foldl_append]
    have e2 : (step d (run d (run d s0 as) bs) (.dispatch k)).table
        = d.serve (run d (run d s0 as) bs).table k := rfl
    rw [e, e2, d.getElem?_serve k hpre, if_pos ⟨rfl, hs⟩]
  · intro d0 f hd hf
    subst hd
    simp [Dispatcher.replyFor, Dispatcher.register, Dispatcher.guarded, hf,
      Dispatcher.sentinelReply]

/-- C11 instance: the `Printf` handler is registered and fails; a thread submits a `Printf`
call on the only slot, and one polling cycle completes the slot with the sentinel reply. -/
theorem submitted_reaches_completed_witness :
    (emptySystem 1 1).initial = true ∧
    (run (fakeDispatcher.register SERVICE_ID_PRINTF (fun _ => none))
        (run (fakeDispatcher.register SERVICE_ID_PRINTF (fun _ => none)) (emptySystem 1 1)
          [.invoke 0 ⟨SERVICE_ID_PRINTF, [1, 2, 3, 4, 5, 6, 7, 8]⟩, .caller 0, .caller 0,
           .caller 0])
        (pollCycle (emptySystem 1 1).table.length)).table[0]?
      = some ⟨.Completed, ⟨SERVICE_ID_PRINTF, [1, 2, 3, 4, 5, 6, 7, 8]⟩,
          ⟨0xFFFFFFFFFFFFFFFF, 0xFFFFFFFFFFFFFFFF⟩⟩ :=
  ⟨by decide,
    (submitted_reaches_completed (fakeDispatcher.register SERVICE_ID_PRINTF (fun _ => none))
      (emptySystem 1 1) (by decide)
      [.invoke 0 ⟨SERVICE_ID_PRINTF, [1, 2, 3, 4, 5, 6, 7, 8]⟩, .caller 0, .caller 0,
       .caller 0] 0 ⟨.Submitted, ⟨SERVICE_ID_PRINTF, [1, 2, 3, 4, 5, 6, 7, 8]⟩, ⟨0, 0⟩⟩
      (by decide) rfl).1⟩

end DeviceLibs
